import Mathlib

/-!
# docker-sriov-plugin: the SR-IOV network driver (`driver/sriov.go`)

A shallow embedding of `driver/sriov.go`.

* The two package-level maps `networks` and `pfDevices` become fields of an explicit
  `State`, passed to and returned by every operation.
* Go maps are association lists (`GoMap`); a nil map and an empty map read alike and
  the code replaces a nil map by an empty one before writing, so both are `[]`.
* Pointers obtained from a map lookup or returned by the `sriovnet` library may be
  nil and are `Option`s; dereferencing `none` is the outcome `crash` (a Go run-time
  panic).  Pointers handed in by the driver dispatcher (`genNw`, the request, the
  IPAM data) are taken to be non-nil.
* A method's receiver `nw` is an argument and, where the method writes to it, a result.
  The operations are given twice.  In `State`, `networks` holds the value the receiver
  had when it was stored: this is what one call does when its receiver is not an
  object that `networks` already holds, or when the call does not write to it.  In
  `Heap.Store`, `networks` holds the addresses of the receivers, as the
  `map[string]*sriovNetwork` of the code does, and `CreateNetwork` writes through the
  address of its receiver; the invariants over all reachable states are stated there.
* The `sriovnet` library, `SetPFLinkUp`, `getNetworkByGateway` and the option keys
  are not part of `sriov.go`; they are the fields of `Env`, acting on an abstract
  external world `σ`.  Every library call is appended, with its result, to
  `State.trace`.
* Go `int` is `Int`; the reference count and the option values stay far from the
  64-bit bounds except inside `strconv.Atoi`, which clamps explicitly.
-/

namespace Sriov

/-! ## Go maps with string keys -/

/-- A Go `map[string]α`: a list of key/value entries, looked up from the front. -/
structure GoMap (α : Type) where
  entries : List (String × α)
  deriving DecidableEq, Repr

namespace GoMap

variable {α : Type}

/-- The empty map (also the nil map). -/
def empty : GoMap α := ⟨[]⟩

/-- Lookup in an entry list. -/
def lookup (k : String) : List (String × α) → Option α
  | [] => none
  | e :: rest => if e.1 = k then some e.2 else lookup k rest

/-- The Go expression `m[k]` for a map of pointers: `none` is the nil pointer. -/
def get (m : GoMap α) (k : String) : Option α := lookup k m.entries

/-- The Go statement `delete(m, k)`. -/
def delete (m : GoMap α) (k : String) : GoMap α :=
  ⟨m.entries.filter (fun e => !decide (e.1 = k))⟩

/-- The Go statement `m[k] = v`. -/
def set (m : GoMap α) (k : String) (v : α) : GoMap α :=
  ⟨(k, v) :: (m.delete k).entries⟩

/-- The values of the map, as ranged over by `for _, v := range m`. -/
def values (m : GoMap α) : List α := m.entries.map Prod.snd

end GoMap

/-- The Go expression `options[k]` on a `map[string]string`: a missing key reads `""`. -/
def index (options : GoMap String) (k : String) : String := (options.get k).getD ""

/-! ## `strconv.Atoi` (Go standard library)

`Atoi(s)` is documented as `ParseInt(s, 10, 0)` converted to `int`; `int` is 64 bits. -/

/-- The error kinds of `strconv`. -/
inductive NumError
  | errSyn
  | errRange
  deriving DecidableEq, Repr

/-- The constant `maxUint64`. -/
def maxUint64 : Nat := 2 ^ 64 - 1

/-- The digit loop of `strconv.ParseUint(s, 10, 64)`, from the accumulator `n`.  A byte
that is not a decimal digit (letters are digits `≥ 10`, not below the base) is a
syntax error; an accumulator at or above `cutoff = maxUint64/10 + 1`, or a wrapping
addition, is a range error with value `maxVal`. -/
def parseUintLoop : List Char → Nat → Nat × Option NumError
  | [], n => (n, none)
  | c :: cs, n =>
    if '0' ≤ c ∧ c ≤ '9' then
      let d := c.toNat - '0'.toNat
      if n ≥ maxUint64 / 10 + 1 then (maxUint64, some .errRange)
      else
        let n10 := (n * 10) % 2 ^ 64
        let n1 := (n10 + d) % 2 ^ 64
        if n1 < n10 ∨ n1 > maxUint64 then (maxUint64, some .errRange)
        else parseUintLoop cs n1
    else (0, some .errSyn)

/-- The function `strconv.ParseUint(s, 10, 64)`. -/
def ParseUint (s : List Char) : Nat × Option NumError :=
  if s = [] then (0, some .errSyn) else parseUintLoop s 0

/-- Conversion `int64(un)` of a `uint64`. -/
def toInt64 (un : Nat) : Int := if un < 2 ^ 63 then (un : Int) else (un : Int) - 2 ^ 64

/-- Negation of an `int64`, wrapping. -/
def negInt64 (n : Int) : Int := if n = -(2 ^ 63) then n else -n

/-- The function `strconv.ParseInt(s, 10, 0)` with `IntSize = 64`. -/
def ParseInt (s : List Char) : Int × Option NumError :=
  match s with
  | [] => (0, some .errSyn)
  | c :: cs =>
    let neg := decide (c = '-')
    let body := if c = '+' ∨ c = '-' then cs else c :: cs
    let r := ParseUint body
    if r.2 = some .errSyn then (0, some .errSyn)
    else
      let cutoff : Nat := 2 ^ 63
      if neg = false ∧ r.1 ≥ cutoff then ((cutoff : Int) - 1, some .errRange)
      else if neg = true ∧ r.1 > cutoff then (-(cutoff : Int), some .errRange)
      else (if neg then negInt64 (toInt64 r.1) else toInt64 r.1, none)

/-- The function `strconv.Atoi`: value and error.  Go ranges over the bytes of the
string; a byte of a multi-byte character is no digit and no sign, like the character. -/
def Atoi (s : String) : Int × Option NumError := ParseInt s.toList

/-! ## Data model -/

/-- A Go `error`, by its message. -/
abbrev Error := String

/-- The result of a call: a normal return, an error return, or a run-time panic. -/
inductive Outcome (α : Type)
  | ok (a : α)
  | err (e : Error)
  | crash
  deriving DecidableEq, Repr

/-- The library's `sriovnet.PfNetdevHandle`, by identity. -/
structure PfNetdevHandle where
  id : Nat
  deriving DecidableEq, Repr

/-- The library's `sriovnet.VfObj`: the fields the driver reads. -/
structure VfObj where
  Index : Nat
  NetdevName : String
  deriving DecidableEq, Repr

def SRIOV_ENABLED : String := "enabled"

def SRIOV_DISABLED : String := "disabled"

/-- The struct `pfDevice`. -/
structure pfDevice where
  pfHandle : Option PfNetdevHandle
  state : String
  nwUseRefCount : Int
  deriving DecidableEq, Repr

/-- The struct `ptEndpoint`, as the composite literal in `CreateEndpoint` fills it. -/
structure ptEndpoint where
  devName : String
  vfObj : Option VfObj
  Address : String
  deriving DecidableEq, Repr

/-- The struct `genericNetwork`: the fields `sriov.go` uses. -/
structure genericNetwork where
  id : String
  ndevName : String
  ndevEndpoints : GoMap ptEndpoint
  deriving DecidableEq, Repr

/-- The struct `sriovNetwork`. -/
structure sriovNetwork where
  genNw : genericNetwork
  vlan : Int
  privileged : Int
  deriving DecidableEq, Repr

/-- The struct `network.IPAMData`: the field the driver reads. -/
structure IPAMData where
  Gateway : String
  deriving DecidableEq, Repr

/-- The struct `network.EndpointInterface`. -/
structure EndpointInterface where
  Address : String
  AddressIPv6 : String
  MacAddress : String
  deriving DecidableEq, Repr

/-- The struct `network.CreateEndpointRequest`: the fields the driver reads. -/
structure CreateEndpointRequest where
  EndpointID : String
  Interface : EndpointInterface
  deriving DecidableEq, Repr

/-- The struct `network.CreateEndpointResponse`. -/
structure CreateEndpointResponse where
  Interface : EndpointInterface
  deriving DecidableEq, Repr

/-- A call into the hardware-control library, with its arguments and its result. -/
inductive HwEvent
  | SetPFLinkUp (pf : String) (err : Option Error)
  | EnableSriov (pf : String) (err : Option Error)
  | DisableSriov (pf : String) (err : Option Error)
  | GetPfNetdevHandle (pf : String) (h : Option PfNetdevHandle) (err : Option Error)
  | ConfigVfs (h : Option PfNetdevHandle) (err : Option Error)
  | AllocateVf (h : Option PfNetdevHandle) (vf : Option VfObj) (err : Option Error)
  | AllocateVfByMacAddress (h : Option PfNetdevHandle) (mac : String) (vf : Option VfObj)
      (err : Option Error)
  | SetVfVlan (h : Option PfNetdevHandle) (vf : Option VfObj) (vlan : Int) (err : Option Error)
  | SetVfPrivileged (h : Option PfNetdevHandle) (vf : Option VfObj) (privileged : Bool)
      (err : Option Error)
  | FreeVf (h : Option PfNetdevHandle) (vf : Option VfObj)
  deriving DecidableEq, Repr

/-- What `sriov.go` calls and does not define: the option keys, the driver's gateway
check, `SetPFLinkUp`, and the `sriovnet` library, over an external world `σ`. -/
structure Env (σ : Type) where
  networkDevice : String
  sriovVlan : String
  networkPrivileged : String
  getNetworkByGateway : String → σ → Option Error × σ
  SetPFLinkUp : String → σ → Option Error × σ
  EnableSriov : String → σ → Option Error × σ
  DisableSriov : String → σ → Option Error × σ
  GetPfNetdevHandle : String → σ → (Option PfNetdevHandle × Option Error) × σ
  ConfigVfs : Option PfNetdevHandle → σ → Option Error × σ
  AllocateVf : Option PfNetdevHandle → σ → (Option VfObj × Option Error) × σ
  AllocateVfByMacAddress : Option PfNetdevHandle → String → σ →
    (Option VfObj × Option Error) × σ
  SetVfVlan : Option PfNetdevHandle → Option VfObj → Int → σ → Option Error × σ
  SetVfPrivileged : Option PfNetdevHandle → Option VfObj → Bool → σ → Option Error × σ
  FreeVf : Option PfNetdevHandle → Option VfObj → σ → σ

/-- The package state: the two global maps, the external world, and the log of
library calls made so far. -/
structure State (σ : Type) where
  networks : GoMap sriovNetwork
  pfDevices : GoMap pfDevice
  world : σ
  trace : List HwEvent

/-- Record a library call and the world it left. -/
def State.log {σ : Type} (s : State σ) (w : σ) (e : HwEvent) : State σ :=
  { s with world := w, trace := s.trace ++ [e] }

/-! ## The operations of `sriov.go` -/

section Operations

variable {σ : Type}

/-- The function `checkVlanNwExist`, over the global `networks`. -/
def checkVlanNwExist (networks : GoMap sriovNetwork) (pfNetdevName : String) (vlan : Int) :
    Bool :=
  if vlan = 0 then false
  else networks.values.any
    (fun nw => decide (nw.vlan = vlan) && decide (nw.genNw.ndevName = pfNetdevName))

/-- The function `disableSRIOV`: the library call, then `dev.state = SRIOV_DISABLED`
on the registry entry (a nil entry panics). -/
def disableSRIOV (env : Env σ) (pfNetdevName : String) (s : State σ) :
    Outcome Unit × State σ :=
  let r := env.DisableSriov pfNetdevName s.world
  let s1 := s.log r.2 (.DisableSriov pfNetdevName r.1)
  match s1.pfDevices.get pfNetdevName with
  | none => (.crash, s1)
  | some dev =>
    (.ok (), { s1 with
      pfDevices := s1.pfDevices.set pfNetdevName { dev with state := SRIOV_DISABLED } })

/-- The function `initSriovState`: the returned error, the device it was filling in,
and the state. -/
def initSriovState (env : Env σ) (pfNetdevName : String) (dev : pfDevice) (s : State σ) :
    Option Error × pfDevice × State σ :=
  let r1 := env.EnableSriov pfNetdevName s.world
  let s1 := s.log r1.2 (.EnableSriov pfNetdevName r1.1)
  match r1.1 with
  | some e => (some e, dev, s1)
  | none =>
    let r2 := env.GetPfNetdevHandle pfNetdevName s1.world
    let s2 := s1.log r2.2 (.GetPfNetdevHandle pfNetdevName r2.1.1 r2.1.2)
    let dev2 : pfDevice := { dev with pfHandle := r2.1.1 }
    match r2.1.2 with
    | some e => (some e, dev2, s2)
    | none =>
      let r3 := env.ConfigVfs dev2.pfHandle s2.world
      let s3 := s2.log r3.2 (.ConfigVfs dev2.pfHandle r3.1)
      match r3.1 with
      | some e => (some e, dev2, s3)
      | none => (none, { dev2 with state := SRIOV_ENABLED }, s3)

/-- The method `DiscoverVFs`. -/
def DiscoverVFs (env : Env σ) (pfNetdevName : String) (s : State σ) :
    Option Error × State σ :=
  match s.pfDevices.get pfNetdevName with
  | some _ => (none, s)
  | none =>
    let r := initSriovState env pfNetdevName ⟨none, "", 0⟩ s
    match r.1 with
    | some e => (some e, r.2.2)
    | none => (none, { r.2.2 with pfDevices := r.2.2.pfDevices.set pfNetdevName r.2.1 })

/-- The method `CreateNetwork` on the receiver `nw`: the outcome, the receiver as the
call left it, and the state. -/
def CreateNetwork (env : Env σ) (nw : sriovNetwork) (genNw : genericNetwork) (nid : String)
    (options : GoMap String) (ipv4Data : IPAMData) (s : State σ) :
    Outcome Unit × sriovNetwork × State σ :=
  let ndevName := index options env.networkDevice
  let g := env.getNetworkByGateway ipv4Data.Gateway s.world
  let s0 : State σ := { s with world := g.2 }
  match g.1 with
  | some e => (.err e, nw, s0)
  | none =>
    let vlanOpt := index options env.sriovVlan
    let vlan : Int := if vlanOpt ≠ "" then (Atoi vlanOpt).1 else 0
    if vlanOpt ≠ "" ∧ (vlan < 0 ∨ vlan > 4095) then
      (.err "Invalid vlan id given", nw, s0)
    else if vlanOpt ≠ "" ∧ checkVlanNwExist s0.networks ndevName vlan = true then
      (.err "vlan already exist", nw, s0)
    else
      let privOpt := index options env.networkPrivileged
      let privileged : Int := if privOpt ≠ "" then (Atoi privOpt).1 else 0
      let nw1 : sriovNetwork := { nw with privileged := privileged, genNw := genNw }
      let l := env.SetPFLinkUp ndevName s0.world
      let s1 := s0.log l.2 (.SetPFLinkUp ndevName l.1)
      match l.1 with
      | some e => (.err e, nw1, s1)
      | none =>
        let d := DiscoverVFs env ndevName s1
        match d.1 with
        | some e => (.err e, nw1, d.2)
        | none =>
          let nw2 : sriovNetwork := { nw1 with vlan := vlan }
          let s2 : State σ := { d.2 with networks := d.2.networks.set nid nw2 }
          match s2.pfDevices.get ndevName with
          | none => (.crash, nw2, s2)
          | some dev =>
            (.ok (), nw2, { s2 with
              pfDevices := s2.pfDevices.set ndevName
                { dev with nwUseRefCount := dev.nwUseRefCount + 1 } })

/-- The method `CreateEndpoint` on the receiver `nw`: the outcome (a response, an
error with no response, or a panic), the receiver with its endpoint map, the state. -/
def CreateEndpoint (env : Env σ) (nw : sriovNetwork) (r : CreateEndpointRequest)
    (s : State σ) : Outcome CreateEndpointResponse × sriovNetwork × State σ :=
  let privileged : Bool := decide (nw.privileged > 0)
  match s.pfDevices.get nw.genNw.ndevName with
  | none => (.crash, nw, s)
  | some dev =>
    match dev.pfHandle with
    | none => (.err "Invalid SRIOV configuration", nw, s)
    | some h =>
      let mac := r.Interface.MacAddress
      let a := if mac ≠ "" then env.AllocateVfByMacAddress (some h) mac s.world
        else env.AllocateVf (some h) s.world
      let s1 := s.log a.2 (if mac ≠ "" then .AllocateVfByMacAddress (some h) mac a.1.1 a.1.2
        else .AllocateVf (some h) a.1.1 a.1.2)
      match a.1.2 with
      | some e => (.err ("Fail to allocate VF err = " ++ e), nw, s1)
      | none =>
        let vfObj := a.1.1
        let s2 := if nw.vlan > 0 then
            s1.log (env.SetVfVlan (some h) vfObj nw.vlan s1.world).2
              (.SetVfVlan (some h) vfObj nw.vlan (env.SetVfVlan (some h) vfObj nw.vlan s1.world).1)
          else s1
        let p := env.SetVfPrivileged (some h) vfObj privileged s2.world
        let s3 := s2.log p.2 (.SetVfPrivileged (some h) vfObj privileged p.1)
        match p.1 with
        | some e2 =>
          (.err ("Fail to set priviledged err = " ++ e2), nw,
            s3.log (env.FreeVf (some h) vfObj s3.world) (.FreeVf (some h) vfObj))
        | none =>
          match vfObj with
          | none => (.crash, nw, s3)
          | some vf =>
            let ndev : ptEndpoint := ⟨vf.NetdevName, some vf, r.Interface.Address⟩
            let nw1 : sriovNetwork := { nw with genNw := { nw.genNw with
              ndevEndpoints := nw.genNw.ndevEndpoints.set r.EndpointID ndev } }
            let endpointInterface : EndpointInterface :=
              ⟨if r.Interface.Address = "" then ndev.Address else "", "", ""⟩
            (.ok ⟨endpointInterface⟩, nw1, s3)

/-- The method `DeleteEndpoint` on the receiver `nw`. -/
def DeleteEndpoint (env : Env σ) (nw : sriovNetwork) (endpoint : ptEndpoint) (s : State σ) :
    Outcome Unit × State σ :=
  match s.pfDevices.get nw.genNw.ndevName with
  | none => (.crash, s)
  | some dev =>
    (.ok (), s.log (env.FreeVf dev.pfHandle endpoint.vfObj s.world)
      (.FreeVf dev.pfHandle endpoint.vfObj))

/-- The method `DeleteNetwork` on the receiver `nw`. -/
def DeleteNetwork (env : Env σ) (nw : sriovNetwork) (s : State σ) : Outcome Unit × State σ :=
  let name := nw.genNw.ndevName
  match s.pfDevices.get name with
  | none => (.crash, s)
  | some dev =>
    let dev1 : pfDevice := { dev with nwUseRefCount := dev.nwUseRefCount - 1 }
    let s1 : State σ := { s with pfDevices := s.pfDevices.set name dev1 }
    if dev1.nwUseRefCount = 0 then
      match disableSRIOV env name s1 with
      | (.ok _, s2) =>
        (.ok (), { s2 with
          pfDevices := s2.pfDevices.delete name, networks := s2.networks.delete nw.genNw.id })
      | (_, s2) => (.crash, s2)
    else (.ok (), { s1 with networks := s1.networks.delete nw.genNw.id })

end Operations

/-! ## The specification's vocabulary -/

/-- Whether a character is a decimal digit. -/
def isDecimalDigit (c : Char) : Bool := decide ('0' ≤ c ∧ c ≤ '9')

/-- The number a digit string denotes, continuing from `n`. -/
def digitsValue : List Char → Nat → Nat
  | [], n => n
  | c :: cs, n => digitsValue cs (n * 10 + (c.toNat - '0'.toNat))

/-- The integer a string denotes: an optional sign and one or more decimal digits. -/
def denotesChars : List Char → Option Int
  | [] => none
  | c :: cs =>
    let body := if c = '+' ∨ c = '-' then cs else c :: cs
    if body ≠ [] ∧ body.all isDecimalDigit = true then
      some (if c = '-' then -(digitsValue body 0 : Int) else (digitsValue body 0 : Int))
    else none

/-- The integer a string denotes, if it is a decimal integer. -/
def denotes (s : String) : Option Int := denotesChars s.toList

/-- The value `int` keeps of an integer: clamped to the 64-bit range. -/
def clampInt64 (v : Int) : Int := max (-(2 ^ 63)) (min v (2 ^ 63 - 1))

/-- The VLAN id `CreateNetwork` reads from its options. -/
def vlanOf {σ : Type} (env : Env σ) (options : GoMap String) : Int :=
  if index options env.sriovVlan ≠ "" then (Atoi (index options env.sriovVlan)).1 else 0

/-- The privilege level `CreateNetwork` reads from its options. -/
def privilegedOf {σ : Type} (env : Env σ) (options : GoMap String) : Int :=
  if index options env.networkPrivileged ≠ "" then
    (Atoi (index options env.networkPrivileged)).1
  else 0

/-- No `DisableSriov` call among the events. -/
def noDisable (evs : List HwEvent) : Prop := ∀ pf err, HwEvent.DisableSriov pf err ∉ evs

/-- The arguments of one `CreateNetwork` call, receiver included. -/
structure CreateArgs where
  nw : sriovNetwork
  genNw : genericNetwork
  nid : String
  options : GoMap String
  ipv4Data : IPAMData

/-- Run `CreateNetwork` calls one after the other; the result exists when every call
returned `nil`, and is the receivers the calls left (the networks created), in call
order, with the final state. -/
def createAll {σ : Type} (env : Env σ) :
    List CreateArgs → State σ → Option (List sriovNetwork × State σ)
  | [], s => some ([], s)
  | a :: rest, s =>
    if (CreateNetwork env a.nw a.genNw a.nid a.options a.ipv4Data s).1 = .ok () then
      (createAll env rest (CreateNetwork env a.nw a.genNw a.nid a.options a.ipv4Data s).2.2).map
        (fun r => ((CreateNetwork env a.nw a.genNw a.nid a.options a.ipv4Data s).2.1 :: r.1, r.2))
    else none

/-- Run `DeleteNetwork` on the given networks one after the other; the result exists
when every call returned (none panicked). -/
def deleteAll {σ : Type} (env : Env σ) : List sriovNetwork → State σ → Option (State σ)
  | [], s => some s
  | nw :: rest, s =>
    if (DeleteNetwork env nw s).1 = .ok () then deleteAll env rest (DeleteNetwork env nw s).2
    else none

/-- The states reached from empty maps by `CreateNetwork` calls whose `genNw` records
the network id and the device option, each on a receiver of its own, and by
`DeleteNetwork` calls on networks in `networks`.  With `freshIds`, `CreateNetwork` is
only called with an id that is not in `networks`.  These are the states
`Heap.Store.view` shows of the stores in `Heap.Reachable` when every assumption of
`Heap.Discipline` is made. -/
inductive Reachable {σ : Type} (env : Env σ) (freshIds : Bool) : State σ → Prop
  | init (w : σ) (t : List HwEvent) : Reachable env freshIds ⟨⟨[]⟩, ⟨[]⟩, w, t⟩
  | create (s : State σ) (nw : sriovNetwork) (genNw : genericNetwork) (nid : String)
      (options : GoMap String) (ipv4Data : IPAMData) :
      Reachable env freshIds s → genNw.id = nid →
      genNw.ndevName = index options env.networkDevice →
      (freshIds = true → s.networks.get nid = none) →
      Reachable env freshIds (CreateNetwork env nw genNw nid options ipv4Data s).2.2
  | delete (s : State σ) (nid : String) (nw : sriovNetwork) :
      Reachable env freshIds s → s.networks.get nid = some nw →
      Reachable env freshIds (DeleteNetwork env nw s).2

/-- The number of entries of `networks` on the device `dev`. -/
def usersOf (entries : List (String × sriovNetwork)) (dev : String) : Nat :=
  (entries.filter (fun e => decide (e.2.genNw.ndevName = dev))).length

/-- The invariant behind reference counting: the keys of `networks` are distinct, every
network is stored under its own id, and a device has an entry exactly when some network
is on it, its count being the number of those networks. -/
def CountInv {σ : Type} (s : State σ) : Prop :=
  (s.networks.entries.map Prod.fst).Nodup ∧
  (∀ e ∈ s.networks.entries, e.2.genNw.id = e.1) ∧
  ∀ dev, match s.pfDevices.get dev with
    | some d => d.nwUseRefCount = usersOf s.networks.entries dev ∧ 0 < usersOf s.networks.entries dev
    | none => usersOf s.networks.entries dev = 0

/-- The library calls made between the state `s` and the later state `s'`. -/
def newEvents {σ : Type} (s s' : State σ) : List HwEvent := s'.trace.drop s.trace.length

/-- Among the events, one of the three initialisation steps on `pf` failed with `e`. -/
def initStepFailed (pf : String) (e : Error) (evs : List HwEvent) : Prop :=
  HwEvent.EnableSriov pf (some e) ∈ evs ∨
  (∃ h, HwEvent.GetPfNetdevHandle pf h (some e) ∈ evs) ∨
  (∃ h, HwEvent.ConfigVfs h (some e) ∈ evs)

/-- The allocation call `CreateEndpoint` makes for a request with MAC address `mac`,
with its results. -/
def allocEvent (h : PfNetdevHandle) (mac : String) (vf : Option VfObj) (err : Option Error) :
    HwEvent :=
  if mac ≠ "" then .AllocateVfByMacAddress (some h) mac vf err else .AllocateVf (some h) vf err

/-- The endpoint `CreateEndpoint` records for the request `r` and the VF `vf`. -/
def endpointFor (r : CreateEndpointRequest) (vf : VfObj) : ptEndpoint :=
  ⟨vf.NetdevName, some vf, r.Interface.Address⟩

/-- Among the events, a VF allocation on the handle `h` succeeded and returned `vf`. -/
def vfAllocated (h : Option PfNetdevHandle) (vf : Option VfObj) (evs : List HwEvent) : Prop :=
  HwEvent.AllocateVf h vf none ∈ evs ∨ ∃ mac, HwEvent.AllocateVfByMacAddress h mac vf none ∈ evs

/-- Among the events, a VF allocation failed with `e`. -/
def allocFailed (e : Error) (evs : List HwEvent) : Prop :=
  (∃ h vf, HwEvent.AllocateVf h vf (some e) ∈ evs) ∨
  ∃ h mac vf, HwEvent.AllocateVfByMacAddress h mac vf (some e) ∈ evs

/-! ## A small environment for concrete runs -/

/-- An environment over a trivial world in which every library call succeeds: one
handle, one virtual function. -/
def okEnv : Env Unit where
  networkDevice := "netdevice"
  sriovVlan := "vlan"
  networkPrivileged := "privileged"
  getNetworkByGateway := fun _ w => (none, w)
  SetPFLinkUp := fun _ w => (none, w)
  EnableSriov := fun _ w => (none, w)
  DisableSriov := fun _ w => (none, w)
  GetPfNetdevHandle := fun _ w => ((some ⟨1⟩, none), w)
  ConfigVfs := fun _ w => (none, w)
  AllocateVf := fun _ w => ((some ⟨0, "eth10v0"⟩, none), w)
  AllocateVfByMacAddress := fun _ _ w => ((some ⟨0, "eth10v0"⟩, none), w)
  SetVfVlan := fun _ _ _ w => (none, w)
  SetVfPrivileged := fun _ _ _ w => (none, w)
  FreeVf := fun _ _ w => w

/-- The state of a freshly started plugin. -/
def emptyState : State Unit := ⟨⟨[]⟩, ⟨[]⟩, (), []⟩

/-- A receiver as the dispatcher allocates it: `&sriovNetwork{}` (its `genNw` unset). -/
def freshNw : sriovNetwork := ⟨⟨"", "", ⟨[]⟩⟩, 0, 0⟩

/-- The options `netdevice=dev`, `vlan=vlan`. -/
def mkOptions (dev vlan : String) : GoMap String := ⟨[("netdevice", dev), ("vlan", vlan)]⟩

/-- The `genericNetwork` the dispatcher builds for network `nid` on device `dev`. -/
def mkGenNw (nid dev : String) : genericNetwork := ⟨nid, dev, ⟨[]⟩⟩

/-- The scenario's two successful calls: `net1` with VLAN 100 and `net2` with VLAN 200,
both on `eth10`. -/
def twoCalls : List CreateArgs :=
  [⟨freshNw, mkGenNw "net1" "eth10", "net1", mkOptions "eth10" "100", ⟨"10.0.0.1"⟩⟩,
   ⟨freshNw, mkGenNw "net2" "eth10", "net2", mkOptions "eth10" "200", ⟨"10.0.0.1"⟩⟩]

/-- The network `nid` on `eth10` with the given VLAN id, as `CreateNetwork` leaves it. -/
def mkNw (nid : String) (vlan : Int) : sriovNetwork := ⟨mkGenNw nid "eth10", vlan, 0⟩

/-- The state after `net1` on `eth10`. -/
def oneNetState : State Unit :=
  (CreateNetwork okEnv freshNw (mkGenNw "net1" "eth10") "net1" (mkOptions "eth10" "100")
    ⟨"10.0.0.1"⟩ emptyState).2.2

/-- As `okEnv`, with a gateway check that rejects the gateway `10.0.0.1`. -/
def gwEnv : Env Unit :=
  { okEnv with
    getNetworkByGateway := fun gw w =>
      if gw = "10.0.0.1" then (some "gateway in use", w) else (none, w) }

/-- As `okEnv`, with `ConfigVfs` failing. -/
def cfgFailEnv : Env Unit :=
  { okEnv with ConfigVfs := fun _ w => (some "cannot configure VFs", w) }

/-- As `okEnv`, with `SetVfPrivileged` failing. -/
def privFailEnv : Env Unit :=
  { okEnv with SetVfPrivileged := fun _ _ _ w => (some "operation not permitted", w) }

/-- A request for endpoint `ep1` with no address and no MAC address. -/
def plainRequest : CreateEndpointRequest := ⟨"ep1", ⟨"", "", ""⟩⟩

/-- As `okEnv`, with an exhausted VF pool: `AllocateVf` fails. -/
def allocFailEnv : Env Unit :=
  { okEnv with AllocateVf := fun _ w => ((none, some "no free VF"), w) }

/-- The options `netdevice=eth10`, `privileged=yes`. -/
def wordPrivOptions : GoMap String := ⟨[("netdevice", "eth10"), ("privileged", "yes")]⟩

/-- The options `netdevice=eth10`, `privileged=99999999999999999999`. -/
def bigPrivOptions : GoMap String :=
  ⟨[("netdevice", "eth10"), ("privileged", "99999999999999999999")]⟩

/-- The state after `net1` on `eth10` was created and deleted again: both maps are
empty. -/
def deletedState : State Unit := (DeleteNetwork okEnv (mkNw "net1" 100) oneNetState).2
/-- As `okEnv`, with `DisableSriov` failing. -/
def disableFailEnv : Env Unit :=
  { okEnv with DisableSriov := fun _ w => (some "device busy", w) }

/-- A request for endpoint `ep2` with an address and a MAC address. -/
def fullRequest : CreateEndpointRequest :=
  ⟨"ep2", ⟨"192.168.1.5/24", "", "02:00:00:00:00:01"⟩⟩
/-- The network `net1` of `eth10` after `CreateEndpoint` of `plainRequest` on it. -/
def nwWithEndpoint : sriovNetwork :=
  (CreateEndpoint okEnv (mkNw "net1" 100) plainRequest oneNetState).2.1

/-- The state after that `CreateEndpoint`: the receiver is the object `networks` holds
under `net1`, so `networks` shows the endpoint the method recorded. -/
def endpointState : State Unit :=
  { (CreateEndpoint okEnv (mkNw "net1" 100) plainRequest oneNetState).2.2 with
    networks := ⟨[("net1", nwWithEndpoint)]⟩ }

/-- The endpoint recorded for `plainRequest`. -/
def recordedEndpoint : ptEndpoint := ⟨"eth10v0", some ⟨0, "eth10v0"⟩, ""⟩

/-- The state after `net1` and `net2` were created on `eth10`. -/
def twoNetState : State Unit := ((createAll okEnv twoCalls emptyState).getD ([], emptyState)).2
/-- The event with the result of a `SetVfVlan` call forgotten. -/
def forgetVlanResult : HwEvent → HwEvent
  | .SetVfVlan h vf vlan _ => .SetVfVlan h vf vlan none
  | e => e

/-- The environment `env` as if `SetVfVlan` had succeeded: the call returns `nil` and
leaves the world the call of `env` leaves. -/
def succeedingVlan {σ : Type} (env : Env σ) : Env σ :=
  { env with SetVfVlan := fun h vf vlan w => (none, (env.SetVfVlan h vf vlan w).2) }

/-- As `okEnv`, with `SetVfVlan` failing. -/
def vlanFailEnv : Env Unit :=
  { okEnv with SetVfVlan := fun _ _ _ w => (some "cannot set VLAN", w) }
/-- The options `netdevice=eth10`, `vlan=abc`. -/
def wordVlanOptions : GoMap String := mkOptions "eth10" "abc"

/-- The options `netdevice=eth10`, `vlan=99999999999999999999x`. -/
def longVlanOptions : GoMap String := mkOptions "eth10" "99999999999999999999x"
/-- The states the package can be in between calls of the four methods, made with any
arguments on any receivers.  `CreateEndpoint` on the network stored under `nid` writes
to the object `networks` holds, so the receiver it leaves is stored back under `nid`. -/
inductive ReachableAny {σ : Type} (env : Env σ) : State σ → Prop
  | init (w : σ) (t : List HwEvent) : ReachableAny env ⟨⟨[]⟩, ⟨[]⟩, w, t⟩
  | createNetwork (s : State σ) (nw : sriovNetwork) (genNw : genericNetwork) (nid : String)
      (options : GoMap String) (ipv4Data : IPAMData) :
      ReachableAny env s →
      ReachableAny env (CreateNetwork env nw genNw nid options ipv4Data s).2.2
  | deleteNetwork (s : State σ) (nw : sriovNetwork) :
      ReachableAny env s → ReachableAny env (DeleteNetwork env nw s).2
  | createEndpoint (s : State σ) (nw : sriovNetwork) (r : CreateEndpointRequest) :
      ReachableAny env s → ReachableAny env (CreateEndpoint env nw r s).2.2
  | createEndpointStored (s : State σ) (nid : String) (nw : sriovNetwork)
      (r : CreateEndpointRequest) :
      ReachableAny env s → s.networks.get nid = some nw →
      ReachableAny env { (CreateEndpoint env nw r s).2.2 with
        networks := (CreateEndpoint env nw r s).2.2.networks.set nid
          (CreateEndpoint env nw r s).2.1 }
  | deleteEndpoint (s : State σ) (nw : sriovNetwork) (endpoint : ptEndpoint) :
      ReachableAny env s → ReachableAny env (DeleteEndpoint env nw endpoint s).2

/-- The library's `GetPfNetdevHandle` returns a non-nil handle whenever it succeeds. -/
def handleNonNil {σ : Type} (env : Env σ) : Prop :=
  ∀ pf w, (env.GetPfNetdevHandle pf w).1.2 = none → (env.GetPfNetdevHandle pf w).1.1 ≠ none

/-- Every entry of `pfDevices` satisfies `P`. -/
def allEntries {σ : Type} (P : pfDevice → Prop) (s : State σ) : Prop :=
  ∀ k d, s.pfDevices.get k = some d → P d

/-- The entry is in state `enabled` and has a handle. -/
def enabledWithHandle (d : pfDevice) : Prop := d.state = SRIOV_ENABLED ∧ d.pfHandle ≠ none
/-- The states reached from the empty state by `CreateNetwork` calls whose `genNw`
records the device named in the options, each on a receiver of its own, and by
`DeleteNetwork` calls on any network: what `Heap.Store.view` shows of the stores in
`Heap.Reachable` under these two assumptions. -/
inductive ReachableRecorded {σ : Type} (env : Env σ) : State σ → Prop
  | init (w : σ) (t : List HwEvent) : ReachableRecorded env ⟨⟨[]⟩, ⟨[]⟩, w, t⟩
  | createNetwork (s : State σ) (nw : sriovNetwork) (genNw : genericNetwork) (nid : String)
      (options : GoMap String) (ipv4Data : IPAMData) :
      ReachableRecorded env s → genNw.ndevName = index options env.networkDevice →
      ReachableRecorded env (CreateNetwork env nw genNw nid options ipv4Data s).2.2
  | deleteNetwork (s : State σ) (nw : sriovNetwork) :
      ReachableRecorded env s → ReachableRecorded env (DeleteNetwork env nw s).2

/-- The VLAN invariant of `networks`: stored VLAN ids lie in `[0, 4095]`, and two
networks stored under different ids on the same device with the same VLAN id are
untagged. -/
def VlanInv (networks : GoMap sriovNetwork) : Prop :=
  (∀ k nw, networks.get k = some nw → 0 ≤ nw.vlan ∧ nw.vlan ≤ 4095) ∧
  ∀ k1 k2 nw1 nw2, k1 ≠ k2 → networks.get k1 = some nw1 → networks.get k2 = some nw2 →
    nw1.genNw.ndevName = nw2.genNw.ndevName → nw1.vlan = nw2.vlan → nw1.vlan = 0
/-- One virtual function of a pool: the object the library hands out, its hardware MAC
address, and whether it is allocated. -/
structure PoolVf where
  vf : VfObj
  mac : String
  allocated : Bool
  deriving DecidableEq, Repr

/-- The pool's `AllocateVfByMacAddress`: the first free VF with the MAC address `mac` is
marked allocated and returned; `none` when no VF with that MAC address is free. -/
def poolAllocByMac (mac : String) : List PoolVf → Option VfObj × List PoolVf
  | [] => (none, [])
  | p :: ps =>
    if p.allocated = false ∧ p.mac = mac then (some p.vf, { p with allocated := true } :: ps)
    else ((poolAllocByMac mac ps).1, p :: (poolAllocByMac mac ps).2)

/-- The pool's `AllocateVf`: the first free VF is marked allocated and returned. -/
def poolAlloc : List PoolVf → Option VfObj × List PoolVf
  | [] => (none, [])
  | p :: ps =>
    if p.allocated = false then (some p.vf, { p with allocated := true } :: ps)
    else ((poolAlloc ps).1, p :: (poolAlloc ps).2)

/-- The pool's `FreeVf`: the VF goes back to the free set. -/
def poolFree (vf : Option VfObj) (pool : List PoolVf) : List PoolVf :=
  pool.map (fun p => if some p.vf = vf then { p with allocated := false } else p)

/-- The VF with MAC address `mac` is free in the pool. -/
def macFree (mac : String) (pool : List PoolVf) : Prop :=
  ∃ p ∈ pool, p.allocated = false ∧ p.mac = mac

/-- The pool model of the library: the world is the VF pool of the device; `FreeVf`
returns a VF to the free set, `AllocateVfByMacAddress` succeeds exactly when a VF with
that MAC address is free, `AllocateVf` when any VF is free, and the other calls
succeed. -/
def poolEnv : Env (List PoolVf) where
  networkDevice := "netdevice"
  sriovVlan := "vlan"
  networkPrivileged := "privileged"
  getNetworkByGateway := fun _ w => (none, w)
  SetPFLinkUp := fun _ w => (none, w)
  EnableSriov := fun _ w => (none, w)
  DisableSriov := fun _ w => (none, w)
  GetPfNetdevHandle := fun _ w => ((some ⟨1⟩, none), w)
  ConfigVfs := fun _ w => (none, w)
  AllocateVf := fun _ w =>
    match (poolAlloc w).1 with
    | some vf => ((some vf, none), (poolAlloc w).2)
    | none => ((none, some "all VFs are allocated"), w)
  AllocateVfByMacAddress := fun _ mac w =>
    match (poolAllocByMac mac w).1 with
    | some vf => ((some vf, none), (poolAllocByMac mac w).2)
    | none => ((none, some "no free VF with this MAC address"), w)
  SetVfVlan := fun _ _ _ w => (none, w)
  SetVfPrivileged := fun _ _ _ w => (none, w)
  FreeVf := fun _ vf w => poolFree vf w

/-- A pool of two VFs, both free. -/
def twoVfPool : List PoolVf :=
  [⟨⟨0, "eth10v0"⟩, "02:00:00:00:00:01", false⟩, ⟨⟨1, "eth10v1"⟩, "02:00:00:00:00:02", false⟩]

/-- The state after `net1` was created on `eth10`, over the two-VF pool. -/
def poolState : State (List PoolVf) :=
  (CreateNetwork poolEnv freshNw (mkGenNw "net1" "eth10") "net1" (mkOptions "eth10" "100")
    ⟨"10.0.0.1"⟩ ⟨⟨[]⟩, ⟨[]⟩, twoVfPool, []⟩).2.2

/-- A request for endpoint `ep3` with the MAC address of the second VF. -/
def macRequest : CreateEndpointRequest := ⟨"ep3", ⟨"", "", "02:00:00:00:00:02"⟩⟩
/-! ## The network objects by address

`networks` is a `map[string]*sriovNetwork` and `CreateNetwork` stores its receiver
pointer in it, after writing to the receiver.  Here the `sriovNetwork` objects live at
addresses and `networks` holds addresses, so that a call on a receiver that `networks`
already holds changes the network stored there.  The `genericNetwork` object a network
points to is written by neither `CreateNetwork` nor `DeleteNetwork` and is held by
value.  `DiscoverVFs` and `disableSRIOV` touch `pfDevices` and the library only; they
are run on the store read through its pointers and what they leave is put back. -/

namespace Heap

/-- The package state with the network objects by address: `objects` is the
`sriovNetwork` at each address, `networks` maps a network id to an address. -/
structure Store (σ : Type) where
  objects : Nat → sriovNetwork
  networks : GoMap Nat
  pfDevices : GoMap pfDevice
  world : σ
  trace : List HwEvent

/-- The store read through its pointers: each entry of `networks` with the object at
its address. -/
def Store.view {σ : Type} (s : Store σ) : State σ :=
  ⟨⟨s.networks.entries.map (fun e => (e.1, s.objects e.2))⟩, s.pfDevices, s.world, s.trace⟩

/-- The store after a function that touches `pfDevices` and the library only has left
the state `t`. -/
def Store.put {σ : Type} (s : Store σ) (t : State σ) : Store σ :=
  { s with pfDevices := t.pfDevices, world := t.world, trace := t.trace }

/-- The assignment `*p = nw`. -/
def Store.write {σ : Type} (s : Store σ) (p : Nat) (nw : sriovNetwork) : Store σ :=
  { s with objects := fun q => if q = p then nw else s.objects q }

/-- The function `checkVlanNwExist`, over the global `networks`. -/
def checkVlanNwExist {σ : Type} (s : Store σ) (pfNetdevName : String) (vlan : Int) : Bool :=
  if vlan = 0 then false
  else s.networks.values.any
    (fun nw => decide ((s.objects nw).vlan = vlan) &&
      decide ((s.objects nw).genNw.ndevName = pfNetdevName))

/-- The method `CreateNetwork` on the receiver at address `nw`.  `DiscoverVFs` does not
use its receiver and touches `pfDevices` and the library only. -/
def CreateNetwork {σ : Type} (env : Env σ) (nw : Nat) (genNw : genericNetwork) (nid : String)
    (options : GoMap String) (ipv4Data : IPAMData) (s : Store σ) : Outcome Unit × Store σ :=
  let ndevName := index options env.networkDevice
  let g := env.getNetworkByGateway ipv4Data.Gateway s.world
  let s0 : Store σ := { s with world := g.2 }
  match g.1 with
  | some e => (.err e, s0)
  | none =>
    let vlanOpt := index options env.sriovVlan
    let vlan : Int := if vlanOpt ≠ "" then (Atoi vlanOpt).1 else 0
    if vlanOpt ≠ "" ∧ (vlan < 0 ∨ vlan > 4095) then
      (.err "Invalid vlan id given", s0)
    else if vlanOpt ≠ "" ∧ checkVlanNwExist s0 ndevName vlan = true then
      (.err "vlan already exist", s0)
    else
      let privOpt := index options env.networkPrivileged
      let privileged : Int := if privOpt ≠ "" then (Atoi privOpt).1 else 0
      let s1 := s0.write nw { s0.objects nw with privileged := privileged, genNw := genNw }
      let l := env.SetPFLinkUp ndevName s1.world
      let s2 := s1.put (s1.view.log l.2 (.SetPFLinkUp ndevName l.1))
      match l.1 with
      | some e => (.err e, s2)
      | none =>
        let d := DiscoverVFs env ndevName s2.view
        let s3 := s2.put d.2
        match d.1 with
        | some e => (.err e, s3)
        | none =>
          let s4 := s3.write nw { s3.objects nw with vlan := vlan }
          let s5 : Store σ := { s4 with networks := s4.networks.set nid nw }
          match s5.pfDevices.get ndevName with
          | none => (.crash, s5)
          | some dev =>
            (.ok (), { s5 with
              pfDevices := s5.pfDevices.set ndevName
                { dev with nwUseRefCount := dev.nwUseRefCount + 1 } })

/-- The method `DeleteNetwork` on the receiver at address `nw`. -/
def DeleteNetwork {σ : Type} (env : Env σ) (nw : Nat) (s : Store σ) : Outcome Unit × Store σ :=
  let name := (s.objects nw).genNw.ndevName
  match s.pfDevices.get name with
  | none => (.crash, s)
  | some dev =>
    let dev1 : pfDevice := { dev with nwUseRefCount := dev.nwUseRefCount - 1 }
    let s1 : Store σ := { s with pfDevices := s.pfDevices.set name dev1 }
    if dev1.nwUseRefCount = 0 then
      match disableSRIOV env name s1.view with
      | (.ok _, t) =>
        (.ok (), { s1.put t with
          pfDevices := t.pfDevices.delete name,
          networks := s1.networks.delete (s.objects nw).genNw.id })
      | (_, t) => (.crash, s1.put t)
    else (.ok (), { s1 with networks := s1.networks.delete (s.objects nw).genNw.id })

/-- What is assumed of the calls the driver makes. -/
structure Discipline where
  /-- Each `CreateNetwork` call is on a receiver that no entry of `networks` holds. -/
  ownReceiver : Bool
  /-- Each `CreateNetwork` call has a network id that is not in `networks`. -/
  freshId : Bool
  /-- The `genNw` of each `CreateNetwork` call records the network id of the call. -/
  recordsId : Bool
  /-- The `genNw` of each `CreateNetwork` call records the device named in the options. -/
  recordsDevice : Bool
  /-- Each `DeleteNetwork` call is on a receiver that `networks` holds under some id. -/
  liveDeletes : Bool

/-- The stores the package can be in between calls: reached from empty maps by
`CreateNetwork` and `DeleteNetwork` calls that keep to the discipline `disc`. -/
inductive Reachable {σ : Type} (env : Env σ) (disc : Discipline) : Store σ → Prop
  | init (objects : Nat → sriovNetwork) (w : σ) (t : List HwEvent) :
      Reachable env disc ⟨objects, ⟨[]⟩, ⟨[]⟩, w, t⟩
  | createNetwork (s : Store σ) (nw : Nat) (genNw : genericNetwork) (nid : String)
      (options : GoMap String) (ipv4Data : IPAMData) :
      Reachable env disc s →
      (disc.ownReceiver = true → nw ∉ s.networks.values) →
      (disc.freshId = true → s.networks.get nid = none) →
      (disc.recordsId = true → genNw.id = nid) →
      (disc.recordsDevice = true → genNw.ndevName = index options env.networkDevice) →
      Reachable env disc (CreateNetwork env nw genNw nid options ipv4Data s).2
  | deleteNetwork (s : Store σ) (nw : Nat) :
      Reachable env disc s →
      (disc.liveDeletes = true → ∃ nid, s.networks.get nid = some nw) →
      Reachable env disc (DeleteNetwork env nw s).2

/-- Some entry of `networks` references the device `dev`. -/
def referenced {σ : Type} (s : Store σ) (dev : String) : Prop :=
  ∃ nid nw, s.networks.get nid = some nw ∧ (s.objects nw).genNw.ndevName = dev

/-- The store with empty maps. -/
def emptyStore : Store Unit := ⟨fun _ => freshNw, ⟨[]⟩, ⟨[]⟩, (), []⟩

/-- The store after `net1` (VLAN 100) was created on `eth10`, on the receiver at 0. -/
def oneNetStore : Store Unit :=
  (CreateNetwork okEnv 0 (mkGenNw "net1" "eth10") "net1" (mkOptions "eth10" "100")
    ⟨"10.0.0.1"⟩ emptyStore).2

/-- The store after `net1` (VLAN 100) and then `net2` (VLAN 200) were created on `eth10`,
on the receivers at 0 and at 1. -/
def twoNetStore : Store Unit :=
  (CreateNetwork okEnv 1 (mkGenNw "net2" "eth10") "net2" (mkOptions "eth10" "200")
    ⟨"10.0.0.1"⟩ oneNetStore).2

/-- The store after `net1` (VLAN 100) and then `net2` (VLAN 200) were created on `eth10`,
both on the receiver at 0. -/
def sharedReceiverStore : Store Unit :=
  (CreateNetwork okEnv 0 (mkGenNw "net2" "eth10") "net2" (mkOptions "eth10" "200")
    ⟨"10.0.0.1"⟩ oneNetStore).2

/-- The store after `net1` was created on `eth10` and then `net1` again on `eth11`, on
the receivers at 0 and at 1. -/
def repeatedIdStore : Store Unit :=
  (CreateNetwork okEnv 1 (mkGenNw "net1" "eth11") "net1" (mkOptions "eth11" "100")
    ⟨"10.0.0.1"⟩ oneNetStore).2

/-- The store after `net1` was created on `eth10` and then `net2` on `eth11`, both on the
receiver at 0. -/
def reusedReceiverStore : Store Unit :=
  (CreateNetwork okEnv 0 (mkGenNw "net2" "eth11") "net2" (mkOptions "eth11" "100")
    ⟨"10.0.0.1"⟩ oneNetStore).2

/-- The store after `net1` was created with the device option `eth10` and a `genNw`
that names `eth11`. -/
def otherDeviceStore : Store Unit :=
  (CreateNetwork okEnv 0 (mkGenNw "net1" "eth11") "net1" (mkOptions "eth10" "100")
    ⟨"10.0.0.1"⟩ emptyStore).2

/-- The store after `net1` was created on `eth10` with a `genNw` whose id is `net2`,
`net2` was created on `eth11`, and `DeleteNetwork` was called on the receiver of `net1`. -/
def otherIdStore : Store Unit :=
  (DeleteNetwork okEnv 0
    (CreateNetwork okEnv 1 (mkGenNw "net2" "eth11") "net2" (mkOptions "eth11" "100")
      ⟨"10.0.0.1"⟩
      (CreateNetwork okEnv 0 (mkGenNw "net2" "eth10") "net1" (mkOptions "eth10" "100")
        ⟨"10.0.0.1"⟩ emptyStore).2).2).2

end Heap

/-! ## Theorems -/

section Theorems

variable {σ : Type} {α : Type}

/-! ### `strconv.Atoi` on decimal integers -/

theorem digit_le_nine (c : Char) (h : c ≤ '9') : c.toNat - '0'.toNat ≤ 9 := by
  have : c.toNat ≤ '9'.toNat := h
  have h9 : '9'.toNat = 57 := by decide
  have h0 : '0'.toNat = 48 := by decide
  omega

theorem le_digitsValue (cs : List Char) (n : Nat) : n ≤ digitsValue cs n := by
  induction cs generalizing n with
  | nil => simp [digitsValue]
  | cons c cs ih =>
    have := ih (n * 10 + (c.toNat - '0'.toNat))
    simp only [digitsValue]
    omega

theorem parseUintLoop_digits (cs : List Char) (n : Nat) (hn : n ≤ maxUint64)
    (hd : cs.all isDecimalDigit = true) :
    parseUintLoop cs n =
      if digitsValue cs n ≤ maxUint64 then (digitsValue cs n, none)
      else (maxUint64, some .errRange) := by
  induction cs generalizing n with
  | nil => simp [parseUintLoop, digitsValue, hn]
  | cons c cs ih =>
    simp only [List.all_cons, Bool.and_eq_true, isDecimalDigit, decide_eq_true_eq] at hd
    obtain ⟨hc, hcs⟩ := hd
    have hd9 := digit_le_nine c hc.2
    have hge := le_digitsValue cs (n * 10 + (c.toNat - '0'.toNat))
    simp only [parseUintLoop, digitsValue, hc, and_self, if_true]
    simp only [maxUint64] at *
    by_cases h1 : n ≥ (2 ^ 64 - 1) / 10 + 1
    · rw [if_pos h1, if_neg (by omega)]
    · rw [if_neg h1]
      have e10 : (n * 10) % 2 ^ 64 = n * 10 := Nat.mod_eq_of_lt (by omega)
      simp only [e10]
      by_cases h2 : n * 10 + (c.toNat - '0'.toNat) < 2 ^ 64
      · have e1 : (n * 10 + (c.toNat - '0'.toNat)) % 2 ^ 64 = n * 10 + (c.toNat - '0'.toNat) :=
          Nat.mod_eq_of_lt h2
        rw [e1, if_neg (by omega)]
        exact ih _ (by omega) hcs
      · have e1 : (n * 10 + (c.toNat - '0'.toNat)) % 2 ^ 64
            = n * 10 + (c.toNat - '0'.toNat) - 2 ^ 64 := by
          rw [Nat.mod_eq_sub_mod (by omega)]
          exact Nat.mod_eq_of_lt (by omega)
        rw [e1, if_pos (by omega), if_neg (by omega)]

theorem ParseInt_signed (c : Char) (cs body : List Char) (v : Int)
    (hbody : body = if c = '+' ∨ c = '-' then cs else c :: cs)
    (hne : body ≠ []) (hd : body.all isDecimalDigit = true)
    (hv : v = if c = '-' then -(digitsValue body 0 : Int) else (digitsValue body 0 : Int)) :
    (ParseInt (c :: cs)).1 = clampInt64 v := by
  have hloop := parseUintLoop_digits body 0 (by simp [maxUint64]) hd
  simp only [ParseInt, ← hbody, ParseUint, if_neg hne, hloop]
  subst hv
  generalize digitsValue body 0 = V
  simp only [maxUint64, clampInt64, toInt64, negInt64]
  by_cases hV : V ≤ 2 ^ 64 - 1
  · simp only [if_pos hV]
    by_cases hneg : c = '-'
    · simp only [hneg, decide_True, if_true]
      split_ifs <;> simp_all <;> omega
    · simp only [hneg, decide_False, if_false]
      split_ifs <;> simp_all <;> omega
  · simp only [if_neg hV]
    by_cases hneg : c = '-'
    · simp only [hneg, decide_True, if_true]
      split_ifs <;> simp_all
      omega
    · simp only [hneg, decide_False, if_false]
      split_ifs <;> simp_all
      omega

theorem Atoi_of_denotes (s : String) (v : Int) (h : denotes s = some v) :
    (Atoi s).1 = clampInt64 v := by
  unfold denotes at h
  unfold Atoi
  generalize s.toList = l at h
  cases l with
  | nil => simp [denotesChars] at h
  | cons c cs =>
    simp only [denotesChars] at h
    by_cases hb : (if c = '+' ∨ c = '-' then cs else c :: cs) ≠ [] ∧
        (if c = '+' ∨ c = '-' then cs else c :: cs).all isDecimalDigit = true
    · rw [if_pos hb] at h
      exact ParseInt_signed c cs _ v rfl hb.1 hb.2 (Option.some.inj h).symm
    · rw [if_neg hb] at h
      exact absurd h (by simp)

theorem denotes_ne_empty (s : String) (v : Int) (h : denotes s = some v) : s ≠ "" := by
  rintro rfl
  have hnone : denotes "" = none := by decide
  rw [hnone] at h
  exact Option.noConfusion h

/-! ### C1: a VLAN id outside the range -/

/-- C1: a `CreateNetwork` call whose gateway check passes and whose VLAN option denotes
an integer outside `[0, 4095]` returns the invalid-VLAN error, leaves `pfDevices` and
`networks` as they were, and makes no library call (the trace is unchanged, so no
enable step ran). -/
theorem CreateNetwork_invalid_vlan (env : Env σ) (nw : sriovNetwork) (genNw : genericNetwork)
    (nid : String) (options : GoMap String) (ipv4Data : IPAMData) (s : State σ) (v : Int)
    (hgw : (env.getNetworkByGateway ipv4Data.Gateway s.world).1 = none)
    (hden : denotes (index options env.sriovVlan) = some v)
    (hout : v < 0 ∨ 4095 < v) :
    (CreateNetwork env nw genNw nid options ipv4Data s).1 = .err "Invalid vlan id given" ∧
    (CreateNetwork env nw genNw nid options ipv4Data s).2.2.pfDevices = s.pfDevices ∧
    (CreateNetwork env nw genNw nid options ipv4Data s).2.2.networks = s.networks ∧
    (CreateNetwork env nw genNw nid options ipv4Data s).2.2.trace = s.trace := by
  have hne := denotes_ne_empty _ _ hden
  have hval := Atoi_of_denotes _ _ hden
  have hbad : (Atoi (index options env.sriovVlan)).1 < 0 ∨
      (Atoi (index options env.sriovVlan)).1 > 4095 := by
    rw [hval]
    unfold clampInt64
    omega
  simp only [CreateNetwork, hgw, if_pos hne]
  rw [if_pos ⟨hne, hbad⟩]
  exact ⟨rfl, rfl, rfl, rfl⟩

/-- C1 at a concrete call: `vlan=5000` on the empty state. -/
theorem CreateNetwork_invalid_vlan_witness :
    (okEnv.getNetworkByGateway (IPAMData.mk "10.0.0.1").Gateway emptyState.world).1 = none ∧
    denotes (index (mkOptions "eth10" "5000") okEnv.sriovVlan) = some 5000 ∧
    ((5000 : Int) < 0 ∨ 4095 < (5000 : Int)) ∧
    (CreateNetwork okEnv freshNw (mkGenNw "net1" "eth10") "net1" (mkOptions "eth10" "5000")
      ⟨"10.0.0.1"⟩ emptyState).1 = .err "Invalid vlan id given" :=
  ⟨by decide, by decide, by decide,
    (CreateNetwork_invalid_vlan okEnv freshNw (mkGenNw "net1" "eth10") "net1"
      (mkOptions "eth10" "5000") ⟨"10.0.0.1"⟩ emptyState 5000
      (by decide) (by decide) (by decide)).1⟩

/-! ### Go maps -/

theorem GoMap.lookup_filter_self (k : String) (l : List (String × α)) :
    GoMap.lookup k (l.filter (fun e => !decide (e.1 = k))) = none := by
  induction l with
  | nil => rfl
  | cons e l ih =>
    by_cases h : e.1 = k
    · simp [List.filter, h, ih]
    · simp [List.filter, h, ih, GoMap.lookup]

theorem GoMap.lookup_filter_ne (k k' : String) (hk : k' ≠ k) (l : List (String × α)) :
    GoMap.lookup k' (l.filter (fun e => !decide (e.1 = k))) = GoMap.lookup k' l := by
  induction l with
  | nil => rfl
  | cons e l ih =>
    by_cases h : e.1 = k
    · have h' : e.1 ≠ k' := fun h2 => hk (h2.symm.trans h)
      rw [List.filter_cons_of_neg (by simp [h]), ih, GoMap.lookup, if_neg h']
    · rw [List.filter_cons_of_pos (by simp [h]), GoMap.lookup, GoMap.lookup, ih]

theorem GoMap.get_set_self (m : GoMap α) (k : String) (v : α) : (m.set k v).get k = some v := by
  simp [GoMap.set, GoMap.get, GoMap.lookup]

theorem GoMap.get_set_ne (m : GoMap α) (k k' : String) (v : α) (hk : k' ≠ k) :
    (m.set k v).get k' = m.get k' := by
  simp [GoMap.set, GoMap.get, GoMap.lookup, GoMap.delete, Ne.symm hk,
    GoMap.lookup_filter_ne k k' hk]

theorem GoMap.get_delete_self (m : GoMap α) (k : String) : (m.delete k).get k = none := by
  simp [GoMap.get, GoMap.delete, GoMap.lookup_filter_self]

theorem GoMap.get_delete_ne (m : GoMap α) (k k' : String) (hk : k' ≠ k) :
    (m.delete k).get k' = m.get k' := by
  simp [GoMap.get, GoMap.delete, GoMap.lookup_filter_ne k k' hk]

theorem GoMap.mem_values_of_get (m : GoMap α) (k : String) (v : α) (h : m.get k = some v) :
    v ∈ m.values := by
  obtain ⟨l⟩ := m
  simp only [GoMap.get, GoMap.values] at *
  induction l with
  | nil => simp [GoMap.lookup] at h
  | cons e l ih =>
    simp only [GoMap.lookup] at h
    by_cases he : e.1 = k
    · rw [if_pos he] at h
      simp [← Option.some.inj h]
    · rw [if_neg he] at h
      simp [ih h]

theorem initSriovState_networks (env : Env σ) (n : String) (dev : pfDevice) (s : State σ) :
    (initSriovState env n dev s).2.2.networks = s.networks ∧
    (initSriovState env n dev s).2.2.pfDevices = s.pfDevices := by
  unfold initSriovState
  simp only
  split
  · exact ⟨rfl, rfl⟩
  · split
    · exact ⟨rfl, rfl⟩
    · split <;> exact ⟨rfl, rfl⟩

theorem DiscoverVFs_networks (env : Env σ) (n : String) (s : State σ) :
    (DiscoverVFs env n s).2.networks = s.networks := by
  unfold DiscoverVFs
  split
  · rfl
  · simp only
    split
    · exact (initSriovState_networks env n _ s).1
    · exact (initSriovState_networks env n _ s).1

/-! ### What `DiscoverVFs` and `CreateNetwork` do -/

theorem initSriovState_spec (env : Env σ) (n : String) (dev : pfDevice) (s : State σ) :
    (∃ evs, (initSriovState env n dev s).2.2.trace = s.trace ++ evs ∧ noDisable evs) ∧
    ((initSriovState env n dev s).1 = none →
      ∃ h, (initSriovState env n dev s).2.1 = ⟨h, SRIOV_ENABLED, dev.nwUseRefCount⟩) := by
  unfold initSriovState
  simp only []
  generalize env.EnableSriov n s.world = r1
  split
  · exact ⟨⟨[.EnableSriov n r1.1], rfl, by simp [noDisable]⟩, by simp [*]⟩
  · generalize env.GetPfNetdevHandle n _ = r2
    split
    · exact ⟨⟨[.EnableSriov n r1.1, .GetPfNetdevHandle n r2.1.1 r2.1.2],
        by simp [State.log, List.append_assoc], by simp [noDisable]⟩, by simp [*]⟩
    · generalize env.ConfigVfs _ _ = r3
      split
      · exact ⟨⟨[.EnableSriov n r1.1, .GetPfNetdevHandle n r2.1.1 r2.1.2,
          .ConfigVfs r2.1.1 r3.1],
          by simp [State.log, List.append_assoc], by simp [noDisable]⟩, by simp [*]⟩
      · exact ⟨⟨[.EnableSriov n r1.1, .GetPfNetdevHandle n r2.1.1 r2.1.2,
          .ConfigVfs r2.1.1 r3.1],
          by simp [State.log, List.append_assoc], by simp [noDisable]⟩, fun _ => ⟨_, rfl⟩⟩

theorem DiscoverVFs_spec (env : Env σ) (n : String) (s : State σ) :
    (DiscoverVFs env n s).2.networks = s.networks ∧
    (∃ evs, (DiscoverVFs env n s).2.trace = s.trace ++ evs ∧ noDisable evs) ∧
    ((DiscoverVFs env n s).1 ≠ none → (DiscoverVFs env n s).2.pfDevices = s.pfDevices) ∧
    ((DiscoverVFs env n s).1 = none →
      (∃ d, s.pfDevices.get n = some d ∧ (DiscoverVFs env n s).2.pfDevices = s.pfDevices) ∨
      (s.pfDevices.get n = none ∧
        ∃ h, (DiscoverVFs env n s).2.pfDevices = s.pfDevices.set n ⟨h, SRIOV_ENABLED, 0⟩)) := by
  refine ⟨DiscoverVFs_networks env n s, ?_⟩
  have hi := initSriovState_spec env n ⟨none, "", 0⟩ s
  have hn := initSriovState_networks env n ⟨none, "", 0⟩ s
  unfold DiscoverVFs
  cases hget : s.pfDevices.get n with
  | some d => exact ⟨⟨[], by simp, by simp [noDisable]⟩, by simp, fun _ => Or.inl ⟨d, rfl, rfl⟩⟩
  | none =>
    simp only []
    cases hr : (initSriovState env n ⟨none, "", 0⟩ s).1 with
    | some e =>
      simp only []
      exact ⟨hi.1, fun _ => hn.2, by simp⟩
    | none =>
      simp only []
      obtain ⟨h, hh⟩ := hi.2 hr
      refine ⟨hi.1, by simp, fun _ => Or.inr ⟨trivial, h, ?_⟩⟩
      rw [hh, hn.2]

theorem checkVlanNwExist_zero (networks : GoMap sriovNetwork) (n : String) :
    checkVlanNwExist networks n 0 = false := by
  simp [checkVlanNwExist]

theorem CreateNetwork_spec (env : Env σ) (nw : sriovNetwork) (genNw : genericNetwork)
    (nid : String) (options : GoMap String) (ipv4Data : IPAMData) (s : State σ) :
    ((CreateNetwork env nw genNw nid options ipv4Data s).1 = .ok () ∧
      (env.getNetworkByGateway ipv4Data.Gateway s.world).1 = none ∧
      0 ≤ vlanOf env options ∧ vlanOf env options ≤ 4095 ∧
      checkVlanNwExist s.networks (index options env.networkDevice) (vlanOf env options) = false ∧
      (CreateNetwork env nw genNw nid options ipv4Data s).2.1 =
        ⟨genNw, vlanOf env options, privilegedOf env options⟩ ∧
      (CreateNetwork env nw genNw nid options ipv4Data s).2.2.networks =
        s.networks.set nid ⟨genNw, vlanOf env options, privilegedOf env options⟩ ∧
      (∃ d0, (s.pfDevices.get (index options env.networkDevice) = some d0 ∨
          (s.pfDevices.get (index options env.networkDevice) = none ∧
            ∃ h, d0 = ⟨h, SRIOV_ENABLED, 0⟩)) ∧
        ∀ k, (CreateNetwork env nw genNw nid options ipv4Data s).2.2.pfDevices.get k =
          if k = index options env.networkDevice then
            some { d0 with nwUseRefCount := d0.nwUseRefCount + 1 }
          else s.pfDevices.get k) ∧
      ∃ evs, (CreateNetwork env nw genNw nid options ipv4Data s).2.2.trace = s.trace ++ evs ∧
        noDisable evs) ∨
    ((∃ e, (CreateNetwork env nw genNw nid options ipv4Data s).1 = .err e) ∧
      (CreateNetwork env nw genNw nid options ipv4Data s).2.2.networks = s.networks ∧
      (CreateNetwork env nw genNw nid options ipv4Data s).2.2.pfDevices = s.pfDevices ∧
      ∃ evs, (CreateNetwork env nw genNw nid options ipv4Data s).2.2.trace = s.trace ++ evs ∧
        noDisable evs) := by
  unfold CreateNetwork
  simp only []
  generalize hg : env.getNetworkByGateway ipv4Data.Gateway s.world = g
  cases hg1 : g.1 with
  | some e => exact Or.inr ⟨⟨e, rfl⟩, rfl, rfl, [], by simp, by simp [noDisable]⟩
  | none =>
    simp only []
    have hvl : (if index options env.sriovVlan ≠ "" then (Atoi (index options env.sriovVlan)).1
        else 0) = vlanOf env options := rfl
    have hpr : (if index options env.networkPrivileged ≠ "" then
        (Atoi (index options env.networkPrivileged)).1 else 0) = privilegedOf env options := rfl
    rw [hvl, hpr]
    split
    · exact Or.inr ⟨⟨_, rfl⟩, rfl, rfl, [], by simp, by simp [noDisable]⟩
    · rename_i hv
      split
      · exact Or.inr ⟨⟨_, rfl⟩, rfl, rfl, [], by simp, by simp [noDisable]⟩
      · rename_i hc
        have hrange : 0 ≤ vlanOf env options ∧ vlanOf env options ≤ 4095 := by
          by_cases he : index options env.sriovVlan = ""
          · simp [vlanOf, he]
          · have := not_and.mp hv he
            omega
        have hchk : checkVlanNwExist s.networks (index options env.networkDevice)
            (vlanOf env options) = false := by
          by_cases he : index options env.sriovVlan = ""
          · simp [vlanOf, he, checkVlanNwExist_zero]
          · simpa using not_and.mp hc he
        generalize hl : env.SetPFLinkUp (index options env.networkDevice) g.2 = l
        cases hl1 : l.1 with
        | some e =>
          exact Or.inr ⟨⟨e, rfl⟩, rfl, rfl, [.SetPFLinkUp (index options env.networkDevice) (some e)],
            by simp [State.log], by simp [noDisable]⟩
        | none =>
          simp only []
          have hD := DiscoverVFs_spec env (index options env.networkDevice)
            (State.log ⟨s.networks, s.pfDevices, g.2, s.trace⟩ l.2
              (.SetPFLinkUp (index options env.networkDevice) none))
          generalize DiscoverVFs env (index options env.networkDevice)
            (State.log ⟨s.networks, s.pfDevices, g.2, s.trace⟩ l.2
              (.SetPFLinkUp (index options env.networkDevice) none)) = d at hD ⊢
          obtain ⟨hDn, ⟨evs, hDt, hDe⟩, hDerr, hDok⟩ := hD
          have htr : ∃ evs', d.2.trace = s.trace ++ evs' ∧ noDisable evs' := by
            refine ⟨.SetPFLinkUp (index options env.networkDevice) none :: evs, ?_, ?_⟩
            · rw [hDt]; simp [State.log]
            · intro pf err hmem
              rcases List.mem_cons.mp hmem with h | h
              · exact HwEvent.noConfusion h
              · exact hDe pf err h
          cases hd1 : d.1 with
          | some e =>
            exact Or.inr ⟨⟨e, rfl⟩, hDn, hDerr (by simp [hd1]), htr⟩
          | none =>
            simp only []
            left
            rcases hDok hd1 with ⟨d0, hget, hpf⟩ | ⟨hget, h, hpf⟩
            · have hget' : d.2.pfDevices.get (index options env.networkDevice) = some d0 := by
                rw [hpf]; exact hget
              simp only [hget', true_and]
              refine ⟨hrange.1, hrange.2, hchk, by rw [hDn]; rfl, ⟨d0, Or.inl hget, ?_⟩, htr⟩
              intro k
              by_cases hk : k = index options env.networkDevice
              · subst hk; simp [GoMap.get_set_self]
              · rw [if_neg hk, GoMap.get_set_ne _ _ _ _ hk, hpf]; rfl
            · have hget' : d.2.pfDevices.get (index options env.networkDevice) =
                  some ⟨h, SRIOV_ENABLED, 0⟩ := by
                rw [hpf]; exact GoMap.get_set_self _ _ _
              simp only [hget', true_and]
              refine ⟨hrange.1, hrange.2, hchk, by rw [hDn]; rfl,
                ⟨⟨h, SRIOV_ENABLED, 0⟩, Or.inr ⟨hget, h, rfl⟩, ?_⟩, htr⟩
              intro k
              by_cases hk : k = index options env.networkDevice
              · subst hk; simp [GoMap.get_set_self]
              · rw [if_neg hk, GoMap.get_set_ne _ _ _ _ hk, hpf, GoMap.get_set_ne _ _ _ _ hk]; rfl

/-! ### C2: a VLAN id already in use on the device -/

theorem checkVlanNwExist_of_get (networks : GoMap sriovNetwork) (k : String)
    (nw : sriovNetwork) (h : networks.get k = some nw) (hnz : nw.vlan ≠ 0) :
    checkVlanNwExist networks nw.genNw.ndevName nw.vlan = true := by
  have hmem := GoMap.mem_values_of_get networks k nw h
  simp only [checkVlanNwExist, if_neg hnz, List.any_eq_true]
  exact ⟨nw, hmem, by simp⟩

/-- C2 (amended): when a `CreateNetwork` call naming a device (in its options and in
its `genNw`) with a nonzero VLAN id has succeeded and its network is still live, that
is `networks` still holds under the call's id a network with that device and that VLAN
id (whatever its endpoint map now holds), a second call naming the same device and the
same VLAN id whose gateway check passes returns the VLAN-in-use error, leaves
`pfDevices` (reference counts included) and `networks` as they were, and makes no
library call. -/
theorem CreateNetwork_vlan_in_use (env : Env σ)
    (nw1 : sriovNetwork) (genNw1 : genericNetwork) (nid1 : String) (options1 : GoMap String)
    (ip1 : IPAMData) (s0 : State σ)
    (nw2 : sriovNetwork) (genNw2 : genericNetwork) (nid2 : String) (options2 : GoMap String)
    (ip2 : IPAMData) (s : State σ)
    (hfirst : (CreateNetwork env nw1 genNw1 nid1 options1 ip1 s0).1 = .ok ())
    (hname : genNw1.ndevName = index options1 env.networkDevice)
    (hdev : index options2 env.networkDevice = index options1 env.networkDevice)
    (hvlan : vlanOf env options2 = vlanOf env options1)
    (hnz : vlanOf env options1 ≠ 0)
    (hlive : ∃ live, s.networks.get nid1 = some live ∧
      live.genNw.ndevName = genNw1.ndevName ∧ live.vlan = vlanOf env options1)
    (hgw : (env.getNetworkByGateway ip2.Gateway s.world).1 = none) :
    (CreateNetwork env nw2 genNw2 nid2 options2 ip2 s).1 = .err "vlan already exist" ∧
    (CreateNetwork env nw2 genNw2 nid2 options2 ip2 s).2.2.pfDevices = s.pfDevices ∧
    (CreateNetwork env nw2 genNw2 nid2 options2 ip2 s).2.2.networks = s.networks ∧
    (CreateNetwork env nw2 genNw2 nid2 options2 ip2 s).2.2.trace = s.trace := by
  rcases CreateNetwork_spec env nw1 genNw1 nid1 options1 ip1 s0 with
    ⟨-, -, hlo, hhi, -, -, -, -, -⟩ | ⟨⟨e, he⟩, -⟩
  · obtain ⟨live, hget, hldev, hlvlan⟩ := hlive
    have hchk := checkVlanNwExist_of_get s.networks nid1 live hget (by rw [hlvlan]; exact hnz)
    rw [hldev, hlvlan, hname] at hchk
    have hne : index options2 env.sriovVlan ≠ "" := by
      intro h0
      apply hnz
      rw [← hvlan]
      simp [vlanOf, h0]
    have hv2 : (Atoi (index options2 env.sriovVlan)).1 = vlanOf env options1 := by
      rw [← hvlan]
      simp [vlanOf, hne]
    simp only [CreateNetwork, hgw, if_pos hne, hv2, hdev]
    rw [if_neg (by intro h; omega), if_pos ⟨hne, hchk⟩]
    exact ⟨rfl, rfl, rfl, rfl⟩
  · rw [he] at hfirst
    exact Outcome.noConfusion hfirst

/-- C2 at a concrete pair of calls: `net1` is created on `eth10` with VLAN 100 and an
endpoint is recorded on it; `net2` is then requested on `eth10` with VLAN 100. -/
theorem CreateNetwork_vlan_in_use_witness :
    (∃ live, endpointState.networks.get "net1" = some live ∧
      live.genNw.ndevName = (mkGenNw "net1" "eth10").ndevName ∧
      live.vlan = vlanOf okEnv (mkOptions "eth10" "100")) ∧
    (CreateNetwork okEnv freshNw (mkGenNw "net2" "eth10") "net2" (mkOptions "eth10" "100")
      ⟨"10.0.0.1"⟩ endpointState).1 = .err "vlan already exist" :=
  have hlive : ∃ live, endpointState.networks.get "net1" = some live ∧
      live.genNw.ndevName = (mkGenNw "net1" "eth10").ndevName ∧
      live.vlan = vlanOf okEnv (mkOptions "eth10" "100") :=
    ⟨nwWithEndpoint, by decide, by decide, by decide⟩
  ⟨hlive,
    (CreateNetwork_vlan_in_use okEnv freshNw (mkGenNw "net1" "eth10") "net1"
      (mkOptions "eth10" "100") ⟨"10.0.0.1"⟩ emptyState
      freshNw (mkGenNw "net2" "eth10") "net2" (mkOptions "eth10" "100") ⟨"10.0.0.1"⟩
      endpointState
      (by decide) (by decide) (by decide) (by decide) (by decide) hlive (by decide)).1⟩

/-- C2 as stated fails: with `net1` live on `eth10` with VLAN 100, a second call on
`eth10` with VLAN 100 whose gateway is rejected returns the gateway error, not the
VLAN-in-use error. -/
theorem CreateNetwork_vlan_in_use_counterexample :
    (CreateNetwork gwEnv freshNw (mkGenNw "net1" "eth10") "net1" (mkOptions "eth10" "100")
      ⟨"10.0.1.1"⟩ emptyState).1 = .ok () ∧
    ((CreateNetwork gwEnv freshNw (mkGenNw "net1" "eth10") "net1" (mkOptions "eth10" "100")
      ⟨"10.0.1.1"⟩ emptyState).2.2.networks.get "net1").isSome = true ∧
    (CreateNetwork gwEnv freshNw (mkGenNw "net2" "eth10") "net2" (mkOptions "eth10" "100")
      ⟨"10.0.0.1"⟩
      (CreateNetwork gwEnv freshNw (mkGenNw "net1" "eth10") "net1" (mkOptions "eth10" "100")
        ⟨"10.0.1.1"⟩ emptyState).2.2).1 = .err "gateway in use" ∧
    (CreateNetwork gwEnv freshNw (mkGenNw "net2" "eth10") "net2" (mkOptions "eth10" "100")
      ⟨"10.0.0.1"⟩
      (CreateNetwork gwEnv freshNw (mkGenNw "net1" "eth10") "net1" (mkOptions "eth10" "100")
        ⟨"10.0.1.1"⟩ emptyState).2.2).1 ≠ .err "vlan already exist" := by
  decide

/-! ### C3: reference counting -/

theorem DeleteNetwork_spec (env : Env σ) (nw : sriovNetwork) (s : State σ) (d : pfDevice)
    (hget : s.pfDevices.get nw.genNw.ndevName = some d) :
    (DeleteNetwork env nw s).1 = .ok () ∧
    (DeleteNetwork env nw s).2.networks = s.networks.delete nw.genNw.id ∧
    (d.nwUseRefCount - 1 ≠ 0 →
      (DeleteNetwork env nw s).2.trace = s.trace ∧
      ∀ k, (DeleteNetwork env nw s).2.pfDevices.get k =
        if k = nw.genNw.ndevName then some { d with nwUseRefCount := d.nwUseRefCount - 1 }
        else s.pfDevices.get k) ∧
    (d.nwUseRefCount - 1 = 0 →
      (DeleteNetwork env nw s).2.trace = s.trace ++
        [.DisableSriov nw.genNw.ndevName (env.DisableSriov nw.genNw.ndevName s.world).1] ∧
      ∀ k, (DeleteNetwork env nw s).2.pfDevices.get k =
        if k = nw.genNw.ndevName then none else s.pfDevices.get k) := by
  unfold DeleteNetwork
  simp only [hget]
  by_cases h0 : d.nwUseRefCount - 1 = 0
  · rw [if_pos h0]
    simp only [disableSRIOV, State.log, GoMap.get_set_self]
    refine ⟨trivial, trivial, fun h => absurd h0 h, fun _ => ⟨trivial, fun k => ?_⟩⟩
    by_cases hk : k = nw.genNw.ndevName
    · subst hk; simp [GoMap.get_delete_self]
    · rw [if_neg hk, GoMap.get_delete_ne _ _ _ hk, GoMap.get_set_ne _ _ _ _ hk,
        GoMap.get_set_ne _ _ _ _ hk]
  · rw [if_neg h0]
    refine ⟨rfl, rfl, fun _ => ⟨rfl, fun k => ?_⟩, fun h => absurd h h0⟩
    by_cases hk : k = nw.genNw.ndevName
    · subst hk; simp [GoMap.get_set_self]
    · rw [if_neg hk, GoMap.get_set_ne _ _ _ _ hk]

theorem createAll_existing (env : Env σ) (dev : String) (calls : List CreateArgs) :
    ∀ (s s1 : State σ) (created : List sriovNetwork) (d : pfDevice),
    (∀ a ∈ calls, index a.options env.networkDevice = dev ∧ a.genNw.ndevName = dev) →
    s.pfDevices.get dev = some d →
    createAll env calls s = some (created, s1) →
    s1.pfDevices.get dev = some { d with nwUseRefCount := d.nwUseRefCount + calls.length } ∧
    (∀ nw ∈ created, nw.genNw.ndevName = dev) ∧
    created.length = calls.length ∧
    ∃ evs, s1.trace = s.trace ++ evs ∧ noDisable evs := by
  induction calls with
  | nil =>
    intro s s1 created d _ hget hrun
    simp only [createAll, Option.some.injEq, Prod.mk.injEq] at hrun
    obtain ⟨rfl, rfl⟩ := hrun
    exact ⟨by simp [hget], by simp, rfl, [], by simp, by simp [noDisable]⟩
  | cons a rest ih =>
    intro s s1 created d hdev hget hrun
    have ha := hdev a (List.mem_cons_self _ _)
    simp only [createAll] at hrun
    by_cases hok : (CreateNetwork env a.nw a.genNw a.nid a.options a.ipv4Data s).1 = .ok ()
    · rw [if_pos hok] at hrun
      rcases CreateNetwork_spec env a.nw a.genNw a.nid a.options a.ipv4Data s with
        ⟨-, -, -, -, -, hnw, -, ⟨d0, hd0, hpf⟩, ⟨evs, htr, hev⟩⟩ | ⟨⟨e, he⟩, -⟩
      · cases hrest : createAll env rest
            (CreateNetwork env a.nw a.genNw a.nid a.options a.ipv4Data s).2.2 with
        | none => simp [hrest] at hrun
        | some r =>
          simp only [hrest, Option.map_some', Option.some.injEq, Prod.mk.injEq] at hrun
          obtain ⟨hc, hs1⟩ := hrun
          have hd0' : d0 = d := by
            rw [ha.1, hget] at hd0
            rcases hd0 with h | ⟨h, -⟩
            · exact (Option.some.inj h).symm
            · exact Option.noConfusion h
          subst hd0'
          have hget1 := hpf dev
          rw [ha.1, if_pos rfl] at hget1
          obtain ⟨h1, h2, h3, evs', h4, h5⟩ := ih _ r.2 r.1 _
            (fun b hb => hdev b (List.mem_cons_of_mem _ hb)) hget1 (by rw [hrest])
          subst hs1
          subst hc
          refine ⟨?_, ?_, by simp [h3], evs ++ evs', by rw [h4, htr, List.append_assoc], ?_⟩
          · rw [h1]
            simp only [List.length_cons, Nat.cast_add, Nat.cast_one, Option.some.injEq,
              pfDevice.mk.injEq, true_and]
            omega
          · intro nw hmem
            rcases List.mem_cons.mp hmem with h | h
            · rw [h, hnw]; exact ha.2
            · exact h2 nw h
          · intro pf err hmem
            rcases List.mem_append.mp hmem with h | h
            · exact hev pf err h
            · exact h5 pf err h
      · rw [he] at hok
        exact Outcome.noConfusion hok
    · rw [if_neg hok] at hrun
      exact Option.noConfusion hrun

theorem deleteAll_above (env : Env σ) (dev : String) (dels : List sriovNetwork) :
    ∀ (s : State σ) (d : pfDevice),
    (∀ nw ∈ dels, nw.genNw.ndevName = dev) →
    s.pfDevices.get dev = some d →
    (dels.length : Int) < d.nwUseRefCount →
    ∃ s2, deleteAll env dels s = some s2 ∧
      s2.pfDevices.get dev = some { d with nwUseRefCount := d.nwUseRefCount - dels.length } ∧
      s2.trace = s.trace := by
  induction dels with
  | nil =>
    intro s d _ hget _
    exact ⟨s, rfl, by simp [hget], rfl⟩
  | cons nw rest ih =>
    intro s d hdev hget hlt
    have hn := hdev nw (List.mem_cons_self _ _)
    have hget' : s.pfDevices.get nw.genNw.ndevName = some d := by rw [hn]; exact hget
    obtain ⟨hok, -, hne, -⟩ := DeleteNetwork_spec env nw s d hget'
    simp only [List.length_cons, Nat.cast_add, Nat.cast_one] at hlt
    obtain ⟨htr, hpf⟩ := hne (by omega)
    have hget1 := hpf dev
    rw [hn, if_pos rfl] at hget1
    obtain ⟨s2, h1, h2, h3⟩ := ih _ _ (fun b hb => hdev b (List.mem_cons_of_mem _ hb)) hget1
      (by simp only; omega)
    refine ⟨s2, by simp only [deleteAll, if_pos hok, h1], ?_, by rw [h3, htr]⟩
    rw [h2]
    simp only [List.length_cons, Nat.cast_add, Nat.cast_one, Option.some.injEq,
      pfDevice.mk.injEq, true_and]
    omega

/-- C3: starting with no registry entry for `dev`, after `N ≥ 1` successful
`CreateNetwork` calls on `dev` (`calls`, leaving the networks `created`) and
`DeleteNetwork` of any `N - 1` of them (`dels`), the calls all return, `dev` has a
registry entry in state `enabled` with reference count 1 and no `DisableSriov` call has
been made since the start; `DeleteNetwork` of the remaining one (`last`) then calls
`DisableSriov dev` and removes the entry of `dev`. -/
theorem reference_counting (env : Env σ) (dev : String) (calls : List CreateArgs)
    (s0 s1 : State σ) (created dels : List sriovNetwork) (last : sriovNetwork)
    (hnone : s0.pfDevices.get dev = none)
    (hdev : ∀ a ∈ calls, index a.options env.networkDevice = dev ∧ a.genNw.ndevName = dev)
    (hrun : createAll env calls s0 = some (created, s1))
    (hperm : List.Perm (last :: dels) created) :
    1 ≤ calls.length ∧ dels.length = calls.length - 1 ∧
    ∃ s2, deleteAll env dels s1 = some s2 ∧
      (∃ h, s2.pfDevices.get dev = some ⟨h, SRIOV_ENABLED, 1⟩) ∧
      (∃ evs, s2.trace = s0.trace ++ evs ∧ noDisable evs) ∧
      (DeleteNetwork env last s2).1 = .ok () ∧
      (DeleteNetwork env last s2).2.trace =
        s2.trace ++ [.DisableSriov dev (env.DisableSriov dev s2.world).1] ∧
      (DeleteNetwork env last s2).2.pfDevices.get dev = none := by
  cases calls with
  | nil =>
    simp only [createAll, Option.some.injEq, Prod.mk.injEq] at hrun
    obtain ⟨rfl, -⟩ := hrun
    exact absurd hperm.length_eq (by simp)
  | cons a rest =>
    have ha := hdev a (List.mem_cons_self _ _)
    simp only [createAll] at hrun
    by_cases hok : (CreateNetwork env a.nw a.genNw a.nid a.options a.ipv4Data s0).1 = .ok ()
    · rw [if_pos hok] at hrun
      rcases CreateNetwork_spec env a.nw a.genNw a.nid a.options a.ipv4Data s0 with
        ⟨-, -, -, -, -, hnw, -, ⟨d0, hd0, hpf⟩, ⟨evs, htr, hev⟩⟩ | ⟨⟨e, he⟩, -⟩
      · cases hrest : createAll env rest
            (CreateNetwork env a.nw a.genNw a.nid a.options a.ipv4Data s0).2.2 with
        | none => simp [hrest] at hrun
        | some r =>
          simp only [hrest, Option.map_some', Option.some.injEq, Prod.mk.injEq] at hrun
          obtain ⟨hc, hs1⟩ := hrun
          rw [ha.1, hnone] at hd0
          rcases hd0 with h | ⟨-, h, rfl⟩
          · exact Option.noConfusion h
          · have hget1 := hpf dev
            rw [ha.1, if_pos rfl] at hget1
            obtain ⟨h1, h2, h3, evs', h4, h5⟩ := createAll_existing env dev rest _ r.2 r.1 _
              (fun b hb => hdev b (List.mem_cons_of_mem _ hb)) hget1 (by rw [hrest])
            subst hs1
            subst hc
            have hlen := hperm.length_eq
            simp only [List.length_cons, h3] at hlen
            have hcreated : ∀ nw ∈ (CreateNetwork env a.nw a.genNw a.nid a.options a.ipv4Data
                s0).2.1 :: r.1, nw.genNw.ndevName = dev := by
              intro nw hmem
              rcases List.mem_cons.mp hmem with h | h
              · rw [h, hnw]; exact ha.2
              · exact h2 nw h
            have hdels : ∀ nw ∈ dels, nw.genNw.ndevName = dev := fun nw hmem =>
              hcreated nw (hperm.subset (List.mem_cons_of_mem _ hmem))
            have hlast : last.genNw.ndevName = dev :=
              hcreated last (hperm.subset (List.mem_cons_self _ _))
            obtain ⟨s2, hs2, hget2, htr2⟩ := deleteAll_above env dev dels r.2 _ hdels h1
              (by simp only; omega)
            have hget2' : s2.pfDevices.get dev = some ⟨h, SRIOV_ENABLED, 1⟩ := by
              rw [hget2]
              simp only [Option.some.injEq, pfDevice.mk.injEq, true_and]
              omega
            have hget3 : s2.pfDevices.get last.genNw.ndevName = some ⟨h, SRIOV_ENABLED, 1⟩ := by
              rw [hlast]; exact hget2'
            obtain ⟨hok3, -, -, hz⟩ := DeleteNetwork_spec env last s2 _ hget3
            obtain ⟨htr3, hpf3⟩ := hz (by simp)
            refine ⟨by simp, by simp only [List.length_cons]; omega, s2, hs2, ⟨h, hget2'⟩,
              ⟨evs ++ evs', by rw [htr2, h4, htr, List.append_assoc], ?_⟩, hok3, ?_, ?_⟩
            · intro pf err hmem
              rcases List.mem_append.mp hmem with h | h
              · exact hev pf err h
              · exact h5 pf err h
            · rw [htr3, hlast]
            · have := hpf3 dev
              rw [hlast, if_pos rfl] at this
              exact this
      · rw [he] at hok
        exact Outcome.noConfusion hok
    · rw [if_neg hok] at hrun
      exact Option.noConfusion hrun

/-- C3 on the scenario: `net1` and `net2` created on `eth10`, `net1` deleted, then
`net2`. -/
theorem reference_counting_witness :
    ∃ s2, deleteAll okEnv [mkNw "net1" 100]
        ((createAll okEnv twoCalls emptyState).getD ([], emptyState)).2 = some s2 ∧
      (∃ h, s2.pfDevices.get "eth10" = some ⟨h, SRIOV_ENABLED, 1⟩) ∧
      (∃ evs, s2.trace = emptyState.trace ++ evs ∧ noDisable evs) ∧
      (DeleteNetwork okEnv (mkNw "net2" 200) s2).1 = .ok () ∧
      (DeleteNetwork okEnv (mkNw "net2" 200) s2).2.trace =
        s2.trace ++ [.DisableSriov "eth10" (okEnv.DisableSriov "eth10" s2.world).1] ∧
      (DeleteNetwork okEnv (mkNw "net2" 200) s2).2.pfDevices.get "eth10" = none :=
  (reference_counting okEnv "eth10" twoCalls emptyState
    ((createAll okEnv twoCalls emptyState).getD ([], emptyState)).2
    [mkNw "net1" 100, mkNw "net2" 200] [mkNw "net1" 100] (mkNw "net2" 200)
    (by decide) (by decide) (by rfl) (List.Perm.swap _ _ _)).2.2

/-! ### The reference count and the networks on a device -/

theorem GoMap.lookup_eq_none_iff (k : String) (l : List (String × α)) :
    GoMap.lookup k l = none ↔ k ∉ l.map Prod.fst := by
  induction l with
  | nil => simp [GoMap.lookup]
  | cons e l ih =>
    by_cases h : e.1 = k
    · simp [GoMap.lookup, h]
    · simp [GoMap.lookup, h, ih, Ne.symm h]

theorem GoMap.filter_of_lookup_none (k : String) (l : List (String × α))
    (h : GoMap.lookup k l = none) : l.filter (fun e => !decide (e.1 = k)) = l := by
  rw [GoMap.lookup_eq_none_iff] at h
  rw [List.filter_eq_self]
  intro e he
  have : e.1 ≠ k := fun h2 => h (h2 ▸ List.mem_map_of_mem Prod.fst he)
  simp [this]

theorem GoMap.lookup_of_mem (k : String) (v : α) (l : List (String × α))
    (hnd : (l.map Prod.fst).Nodup) (h : (k, v) ∈ l) : GoMap.lookup k l = some v := by
  induction l with
  | nil => simp at h
  | cons e l ih =>
    simp only [List.map_cons, List.nodup_cons] at hnd
    rcases List.mem_cons.mp h with h | h
    · subst h; simp [GoMap.lookup]
    · have hne : e.1 ≠ k := fun h2 => hnd.1 (h2 ▸ List.mem_map_of_mem Prod.fst h)
      simp [GoMap.lookup, hne, ih hnd.2 h]

theorem GoMap.mem_of_lookup (k : String) (v : α) (l : List (String × α))
    (h : GoMap.lookup k l = some v) : (k, v) ∈ l := by
  induction l with
  | nil => simp [GoMap.lookup] at h
  | cons e l ih =>
    simp only [GoMap.lookup] at h
    by_cases he : e.1 = k
    · rw [if_pos he] at h
      have : e = (k, v) := Prod.ext he (Option.some.inj h)
      simp [this]
    · rw [if_neg he] at h
      exact List.mem_cons_of_mem _ (ih h)

theorem GoMap.nodup_filter (k : String) (l : List (String × α))
    (hnd : (l.map Prod.fst).Nodup) :
    ((l.filter (fun e => !decide (e.1 = k))).map Prod.fst).Nodup :=
  (List.Nodup.sublist ((List.filter_sublist l).map Prod.fst) hnd)

theorem usersOf_filter (k : String) (nw : sriovNetwork) (dev : String)
    (l : List (String × sriovNetwork)) (hnd : (l.map Prod.fst).Nodup)
    (h : GoMap.lookup k l = some nw) :
    usersOf (l.filter (fun e => !decide (e.1 = k))) dev +
      (if nw.genNw.ndevName = dev then 1 else 0) = usersOf l dev := by
  induction l with
  | nil => simp [GoMap.lookup] at h
  | cons e l ih =>
    simp only [List.map_cons, List.nodup_cons] at hnd
    simp only [GoMap.lookup] at h
    by_cases he : e.1 = k
    · rw [if_pos he] at h
      have hnone : GoMap.lookup k l = none := by
        rw [GoMap.lookup_eq_none_iff]; rw [← he]; exact hnd.1
      rw [List.filter_cons_of_neg (by simp [he]), GoMap.filter_of_lookup_none k l hnone]
      have h2 : e.2 = nw := Option.some.inj h
      by_cases hd : nw.genNw.ndevName = dev
      · simp [usersOf, List.filter_cons, h2, hd]
      · simp [usersOf, List.filter_cons, h2, hd]
    · rw [if_neg he] at h
      have := ih hnd.2 h
      rw [List.filter_cons_of_pos (by simp [he])]
      by_cases hd : e.2.genNw.ndevName = dev
      · simp only [usersOf, List.filter_cons, hd, decide_True, if_true, List.length_cons] at this ⊢
        omega
      · simp only [usersOf, List.filter_cons, hd, decide_False] at this ⊢
        simpa using this

theorem usersOf_pos_iff (l : List (String × sriovNetwork)) (dev : String) :
    0 < usersOf l dev ↔ ∃ e ∈ l, e.2.genNw.ndevName = dev := by
  simp [usersOf, List.length_pos_iff_exists_mem]

theorem CountInv_congr (s s' : State σ) (hn : s'.networks = s.networks)
    (hp : s'.pfDevices = s.pfDevices) (h : CountInv s) : CountInv s' := by
  unfold CountInv at *
  rw [hn, hp]
  exact h

theorem CountInv_create (env : Env σ) (s : State σ) (nw : sriovNetwork)
    (genNw : genericNetwork) (nid : String) (options : GoMap String) (ipv4Data : IPAMData)
    (hid : genNw.id = nid) (hname : genNw.ndevName = index options env.networkDevice)
    (hfresh : s.networks.get nid = none) (h : CountInv s) :
    CountInv (CreateNetwork env nw genNw nid options ipv4Data s).2.2 := by
  rcases CreateNetwork_spec env nw genNw nid options ipv4Data s with
    ⟨-, -, -, -, -, -, hnet, ⟨d0, hd0, hpf⟩, -⟩ | ⟨-, hn, hp, -⟩
  · obtain ⟨hnd, hids, hcnt⟩ := h
    have hfilt := GoMap.filter_of_lookup_none nid s.networks.entries hfresh
    have hent : (CreateNetwork env nw genNw nid options ipv4Data s).2.2.networks.entries =
        (nid, ⟨genNw, vlanOf env options, privilegedOf env options⟩) :: s.networks.entries := by
      rw [hnet]
      simp only [GoMap.set, GoMap.delete, hfilt]
    refine ⟨?_, ?_, ?_⟩
    · rw [hent]
      simp only [List.map_cons, List.nodup_cons]
      exact ⟨(GoMap.lookup_eq_none_iff nid _).mp hfresh, hnd⟩
    · rw [hent]
      intro e he
      rcases List.mem_cons.mp he with h1 | h1
      · rw [h1]; exact hid
      · exact hids e h1
    · intro dev
      rw [hent, hpf dev]
      have hc := hcnt dev
      by_cases hk : dev = index options env.networkDevice
      · rw [if_pos hk]
        subst hk
        simp only [usersOf, List.filter_cons, hname, decide_True, if_true, List.length_cons]
        rcases hd0 with h1 | ⟨h1, hh, rfl⟩
        · rw [h1] at hc
          simp only [usersOf] at hc
          simp only [Nat.cast_add, Nat.cast_one]
          omega
        · rw [h1] at hc
          simp only [usersOf] at hc
          simp only [Nat.cast_add, Nat.cast_one]
          omega
      · rw [if_neg hk]
        have hne : ¬ genNw.ndevName = dev := fun h2 => hk (h2 ▸ hname)
        simp only [usersOf, List.filter_cons, hne, decide_False]
        exact hc
  · exact CountInv_congr _ _ hn hp h

theorem CountInv_delete (env : Env σ) (s : State σ) (nid : String) (nw : sriovNetwork)
    (hlive : s.networks.get nid = some nw) (h : CountInv s) :
    (DeleteNetwork env nw s).1 = .ok () ∧ CountInv (DeleteNetwork env nw s).2 := by
  obtain ⟨hnd, hids, hcnt⟩ := h
  have hmem := GoMap.mem_of_lookup nid nw _ hlive
  have hid : nw.genNw.id = nid := hids _ hmem
  have hpos : 0 < usersOf s.networks.entries nw.genNw.ndevName :=
    (usersOf_pos_iff _ _).mpr ⟨_, hmem, rfl⟩
  have hc := hcnt nw.genNw.ndevName
  cases hget : s.pfDevices.get nw.genNw.ndevName with
  | none => rw [hget] at hc; simp only at hc; omega
  | some d =>
    rw [hget] at hc
    simp only at hc
    obtain ⟨hok, hnet, hne, hz⟩ := DeleteNetwork_spec env nw s d hget
    have hent : (DeleteNetwork env nw s).2.networks.entries =
        s.networks.entries.filter (fun e => !decide (e.1 = nid)) := by
      rw [hnet, hid]; rfl
    refine ⟨hok, ?_, ?_, ?_⟩
    · rw [hent]; exact GoMap.nodup_filter nid _ hnd
    · rw [hent]
      intro e he
      exact hids e (List.mem_of_mem_filter he)
    · intro dev
      have hu := usersOf_filter nid nw dev _ hnd hlive
      have hcd := hcnt dev
      rw [hent]
      by_cases h0 : d.nwUseRefCount - 1 = 0
      · rw [(hz h0).2 dev]
        by_cases hk : dev = nw.genNw.ndevName
        · rw [if_pos hk]
          subst hk
          simp only [if_true] at hu
          simp only
          omega
        · rw [if_neg hk]
          rw [if_neg (Ne.symm hk)] at hu
          simp only [Nat.add_zero] at hu
          rw [hu]
          exact hcd
      · rw [(hne h0).2 dev]
        by_cases hk : dev = nw.genNw.ndevName
        · rw [if_pos hk]
          subst hk
          simp only [if_true] at hu
          simp only
          omega
        · rw [if_neg hk]
          rw [if_neg (Ne.symm hk)] at hu
          simp only [Nat.add_zero] at hu
          rw [hu]
          exact hcd

theorem CountInv_of_reachable (env : Env σ) (s : State σ) (h : Reachable env true s) :
    CountInv s := by
  induction h with
  | init w t => exact ⟨by simp, by simp, fun dev => by simp [GoMap.get, GoMap.lookup, usersOf]⟩
  | create s nw genNw nid options ip _ hid hname hfresh ih =>
    exact CountInv_create env s nw genNw nid options ip hid hname (hfresh rfl) ih
  | delete s nid nw _ hlive ih => exact (CountInv_delete env s nid nw hlive ih).2

/-! ### C5: a failing initialisation step -/

theorem newEvents_of_trace (s s' : State σ) (evs : List HwEvent)
    (h : s'.trace = s.trace ++ evs) : newEvents s s' = evs := by
  simp [newEvents, h]

theorem initSriovState_fail (env : Env σ) (n : String) (dev : pfDevice) (s : State σ) :
    ∃ evs, (initSriovState env n dev s).2.2.trace = s.trace ++ evs ∧
      (∀ pf err, HwEvent.SetPFLinkUp pf err ∉ evs) ∧
      ∀ e, initStepFailed n e evs → (initSriovState env n dev s).1 = some e := by
  unfold initSriovState
  simp only []
  generalize env.EnableSriov n s.world = r1
  cases h1 : r1.1 with
  | some e1 =>
    refine ⟨[.EnableSriov n (some e1)], by simp [State.log], by simp, ?_⟩
    intro e he
    simp only [initStepFailed, List.mem_singleton, HwEvent.EnableSriov.injEq, true_and,
      Option.some.injEq, exists_false, or_false, reduceCtorEq] at he
    simp [he]
  | none =>
    simp only []
    generalize env.GetPfNetdevHandle n _ = r2
    cases h2 : r2.1.2 with
    | some e2 =>
      refine ⟨[.EnableSriov n none, .GetPfNetdevHandle n r2.1.1 (some e2)],
        by simp [State.log], by simp, ?_⟩
      intro e he
      simp only [initStepFailed, List.mem_cons, HwEvent.EnableSriov.injEq, true_and,
        Option.some.injEq, exists_false, or_false, reduceCtorEq, List.mem_singleton,
        HwEvent.GetPfNetdevHandle.injEq, false_or, List.not_mem_nil, exists_and_right,
        exists_eq_left'] at he
      simp [he]
    | none =>
      simp only []
      generalize env.ConfigVfs _ _ = r3
      cases h3 : r3.1 with
      | some e3 =>
        refine ⟨[.EnableSriov n none, .GetPfNetdevHandle n r2.1.1 none,
          .ConfigVfs r2.1.1 (some e3)], by simp [State.log], by simp, ?_⟩
        intro e he
        simp only [initStepFailed, List.mem_cons, HwEvent.EnableSriov.injEq, true_and,
          Option.some.injEq, exists_false, or_false, reduceCtorEq, List.mem_singleton,
          HwEvent.GetPfNetdevHandle.injEq, false_or, List.not_mem_nil, exists_and_right,
          HwEvent.ConfigVfs.injEq, and_false, exists_eq_left'] at he
        simp [he]
      | none =>
        refine ⟨[.EnableSriov n none, .GetPfNetdevHandle n r2.1.1 none,
          .ConfigVfs r2.1.1 none], by simp [State.log], by simp, ?_⟩
        intro e he
        simp [initStepFailed] at he

theorem DiscoverVFs_fail (env : Env σ) (n : String) (s : State σ)
    (hnone : s.pfDevices.get n = none) :
    ∃ evs, (DiscoverVFs env n s).2.trace = s.trace ++ evs ∧
      (∀ pf err, HwEvent.SetPFLinkUp pf err ∉ evs) ∧
      (∀ e, initStepFailed n e evs → (DiscoverVFs env n s).1 = some e) := by
  obtain ⟨evs, htr, hnl, hf⟩ := initSriovState_fail env n ⟨none, "", 0⟩ s
  unfold DiscoverVFs
  simp only [hnone]
  cases hr : (initSriovState env n ⟨none, "", 0⟩ s).1 with
  | some e1 =>
    simp only []
    refine ⟨evs, htr, hnl, fun e he => ?_⟩
    rw [← hr]; exact hf e he
  | none =>
    simp only []
    refine ⟨evs, htr, hnl, fun e he => ?_⟩
    have := hf e he
    rw [hr] at this
    exact Option.noConfusion this

theorem initStepFailed_cons_link (pf pf' : String) (err : Option Error) (e : Error)
    (evs : List HwEvent) (h : initStepFailed pf e (.SetPFLinkUp pf' err :: evs)) :
    initStepFailed pf e evs := by
  rcases h with h | ⟨x, h⟩ | ⟨x, h⟩
  · exact Or.inl ((List.mem_cons.mp h).resolve_left (fun hx => HwEvent.noConfusion hx))
  · exact Or.inr (Or.inl ⟨x,
      (List.mem_cons.mp h).resolve_left (fun hx => HwEvent.noConfusion hx)⟩)
  · exact Or.inr (Or.inr ⟨x,
      (List.mem_cons.mp h).resolve_left (fun hx => HwEvent.noConfusion hx)⟩)

theorem not_initStepFailed_nil (pf : String) (e : Error) : ¬ initStepFailed pf e [] := by
  simp [initStepFailed]

theorem CreateNetwork_fail (env : Env σ) (nw : sriovNetwork) (genNw : genericNetwork)
    (nid : String) (options : GoMap String) (ipv4Data : IPAMData) (s : State σ)
    (hnone : s.pfDevices.get (index options env.networkDevice) = none) :
    ∃ evs, (CreateNetwork env nw genNw nid options ipv4Data s).2.2.trace = s.trace ++ evs ∧
      ∀ e, initStepFailed (index options env.networkDevice) e evs →
        (CreateNetwork env nw genNw nid options ipv4Data s).1 = .err e ∧
        (CreateNetwork env nw genNw nid options ipv4Data s).2.2.pfDevices = s.pfDevices ∧
        (CreateNetwork env nw genNw nid options ipv4Data s).2.2.networks = s.networks := by
  unfold CreateNetwork
  simp only []
  generalize hg : env.getNetworkByGateway ipv4Data.Gateway s.world = g
  cases hg1 : g.1 with
  | some e0 => exact ⟨[], by simp, fun e he => absurd he (not_initStepFailed_nil _ _)⟩
  | none =>
    simp only []
    have hvl : (if index options env.sriovVlan ≠ "" then (Atoi (index options env.sriovVlan)).1
        else 0) = vlanOf env options := rfl
    rw [hvl]
    split
    · exact ⟨[], by simp, fun e he => absurd he (not_initStepFailed_nil _ _)⟩
    · split
      · exact ⟨[], by simp, fun e he => absurd he (not_initStepFailed_nil _ _)⟩
      · generalize hl : env.SetPFLinkUp (index options env.networkDevice) g.2 = l
        cases hl1 : l.1 with
        | some e1 =>
          refine ⟨[.SetPFLinkUp (index options env.networkDevice) (some e1)],
            by simp [State.log], fun e he => ?_⟩
          exact absurd (initStepFailed_cons_link _ _ _ _ _ he) (not_initStepFailed_nil _ _)
        | none =>
          simp only []
          have hD := DiscoverVFs_fail env (index options env.networkDevice)
            (State.log ⟨s.networks, s.pfDevices, g.2, s.trace⟩ l.2
              (.SetPFLinkUp (index options env.networkDevice) none)) hnone
          have hS := DiscoverVFs_spec env (index options env.networkDevice)
            (State.log ⟨s.networks, s.pfDevices, g.2, s.trace⟩ l.2
              (.SetPFLinkUp (index options env.networkDevice) none))
          generalize DiscoverVFs env (index options env.networkDevice)
            (State.log ⟨s.networks, s.pfDevices, g.2, s.trace⟩ l.2
              (.SetPFLinkUp (index options env.networkDevice) none)) = d at hD hS ⊢
          obtain ⟨evs, htr, -, hf⟩ := hD
          obtain ⟨hDn, -, hDerr, -⟩ := hS
          have htr' : d.2.trace =
              s.trace ++ (.SetPFLinkUp (index options env.networkDevice) none :: evs) := by
            rw [htr]; simp [State.log]
          cases hd1 : d.1 with
          | some e1 =>
            simp only []
            refine ⟨_, htr', fun e he => ?_⟩
            have := hf e (initStepFailed_cons_link _ _ _ _ _ he)
            rw [hd1] at this
            rw [Option.some.inj this]
            exact ⟨rfl, hDerr (by simp [hd1]), hDn⟩
          | none =>
            simp only []
            have habs : ∀ e, ¬ initStepFailed (index options env.networkDevice) e
                (.SetPFLinkUp (index options env.networkDevice) none :: evs) := by
              intro e he
              have := hf e (initStepFailed_cons_link _ _ _ _ _ he)
              rw [hd1] at this
              exact Option.noConfusion this
            split
            · exact ⟨_, htr', fun e he => absurd he (habs e)⟩
            · exact ⟨_, htr', fun e he => absurd he (habs e)⟩

/-- C5: when a `CreateNetwork` call on a device without registry entry makes one of the
three initialisation calls (`EnableSriov`, `GetPfNetdevHandle`, `ConfigVfs`) and that
call fails with `e`, `CreateNetwork` returns `e`, `pfDevices` is as before (so still
without an entry for the device) and `networks` is as before. -/
theorem CreateNetwork_init_failure (env : Env σ) (nw : sriovNetwork) (genNw : genericNetwork)
    (nid : String) (options : GoMap String) (ipv4Data : IPAMData) (s : State σ) (e : Error)
    (hnone : s.pfDevices.get (index options env.networkDevice) = none)
    (hfail : initStepFailed (index options env.networkDevice) e
      (newEvents s (CreateNetwork env nw genNw nid options ipv4Data s).2.2)) :
    (CreateNetwork env nw genNw nid options ipv4Data s).1 = .err e ∧
    (CreateNetwork env nw genNw nid options ipv4Data s).2.2.pfDevices.get
      (index options env.networkDevice) = none ∧
    (CreateNetwork env nw genNw nid options ipv4Data s).2.2.pfDevices = s.pfDevices ∧
    (CreateNetwork env nw genNw nid options ipv4Data s).2.2.networks = s.networks := by
  obtain ⟨evs, htr, hf⟩ := CreateNetwork_fail env nw genNw nid options ipv4Data s hnone
  rw [newEvents_of_trace _ _ evs htr] at hfail
  obtain ⟨h1, h2, h3⟩ := hf e hfail
  exact ⟨h1, by rw [h2]; exact hnone, h2, h3⟩

/-- C5 at a concrete call: `ConfigVfs` fails while `net1` is created on `eth10`. -/
theorem CreateNetwork_init_failure_witness :
    emptyState.pfDevices.get (index (mkOptions "eth10" "100") cfgFailEnv.networkDevice) = none ∧
    initStepFailed (index (mkOptions "eth10" "100") cfgFailEnv.networkDevice)
      "cannot configure VFs"
      (newEvents emptyState (CreateNetwork cfgFailEnv freshNw (mkGenNw "net1" "eth10") "net1"
        (mkOptions "eth10" "100") ⟨"10.0.0.1"⟩ emptyState).2.2) ∧
    (CreateNetwork cfgFailEnv freshNw (mkGenNw "net1" "eth10") "net1"
      (mkOptions "eth10" "100") ⟨"10.0.0.1"⟩ emptyState).1 = .err "cannot configure VFs" :=
  have hf : initStepFailed (index (mkOptions "eth10" "100") cfgFailEnv.networkDevice)
      "cannot configure VFs"
      (newEvents emptyState (CreateNetwork cfgFailEnv freshNw (mkGenNw "net1" "eth10") "net1"
        (mkOptions "eth10" "100") ⟨"10.0.0.1"⟩ emptyState).2.2) :=
    Or.inr (Or.inr ⟨some ⟨1⟩, by decide⟩)
  ⟨by decide, hf,
    (CreateNetwork_init_failure cfgFailEnv freshNw (mkGenNw "net1" "eth10") "net1"
      (mkOptions "eth10" "100") ⟨"10.0.0.1"⟩ emptyState "cannot configure VFs"
      (by decide) hf).1⟩

/-! ### What `CreateEndpoint` does -/

theorem CreateEndpoint_spec (env : Env σ) (nw : sriovNetwork) (r : CreateEndpointRequest)
    (s : State σ) :
    ((CreateEndpoint env nw r s).2.2.networks = s.networks ∧
      (CreateEndpoint env nw r s).2.2.pfDevices = s.pfDevices) ∧
    ((s.pfDevices.get nw.genNw.ndevName = none ∧ (CreateEndpoint env nw r s).1 = .crash ∧
        (CreateEndpoint env nw r s).2.1 = nw ∧ (CreateEndpoint env nw r s).2.2.trace = s.trace) ∨
      (∃ d, s.pfDevices.get nw.genNw.ndevName = some d ∧ d.pfHandle = none ∧
        (CreateEndpoint env nw r s).1 = .err "Invalid SRIOV configuration" ∧
        (CreateEndpoint env nw r s).2.1 = nw ∧ (CreateEndpoint env nw r s).2.2.trace = s.trace) ∨
      (∃ d h vf aerr, s.pfDevices.get nw.genNw.ndevName = some d ∧ d.pfHandle = some h ∧
        ((∃ e, aerr = some e ∧
            (CreateEndpoint env nw r s).1 = .err ("Fail to allocate VF err = " ++ e) ∧
            (CreateEndpoint env nw r s).2.1 = nw ∧
            (CreateEndpoint env nw r s).2.2.trace =
              s.trace ++ [allocEvent h r.Interface.MacAddress vf aerr]) ∨
          (aerr = none ∧ ∃ V perr,
            (∃ verr, V = if nw.vlan > 0 then [HwEvent.SetVfVlan (some h) vf nw.vlan verr]
              else []) ∧
            ((∃ e2, perr = some e2 ∧
                (CreateEndpoint env nw r s).1 = .err ("Fail to set priviledged err = " ++ e2) ∧
                (CreateEndpoint env nw r s).2.1 = nw ∧
                (CreateEndpoint env nw r s).2.2.trace =
                  s.trace ++ (allocEvent h r.Interface.MacAddress vf aerr :: V ++
                    [.SetVfPrivileged (some h) vf (decide (nw.privileged > 0)) perr,
                     .FreeVf (some h) vf])) ∨
              (perr = none ∧ vf = none ∧ (CreateEndpoint env nw r s).1 = .crash ∧
                (CreateEndpoint env nw r s).2.1 = nw ∧
                (CreateEndpoint env nw r s).2.2.trace =
                  s.trace ++ (allocEvent h r.Interface.MacAddress vf aerr :: V ++
                    [.SetVfPrivileged (some h) vf (decide (nw.privileged > 0)) perr])) ∨
              (perr = none ∧ ∃ v, vf = some v ∧
                (CreateEndpoint env nw r s).1 =
                  .ok ⟨⟨if r.Interface.Address = "" then (endpointFor r v).Address else "",
                    "", ""⟩⟩ ∧
                (CreateEndpoint env nw r s).2.1 = { nw with genNw := { nw.genNw with
                  ndevEndpoints := nw.genNw.ndevEndpoints.set r.EndpointID (endpointFor r v) } } ∧
                (CreateEndpoint env nw r s).2.2.trace =
                  s.trace ++ (allocEvent h r.Interface.MacAddress vf aerr :: V ++
                    [.SetVfPrivileged (some h) vf (decide (nw.privileged > 0)) perr]))))))) := by
  unfold CreateEndpoint
  simp only []
  cases hget : s.pfDevices.get nw.genNw.ndevName with
  | none => exact ⟨⟨rfl, rfl⟩, Or.inl ⟨rfl, rfl, rfl, rfl⟩⟩
  | some d =>
    simp only []
    cases hh : d.pfHandle with
    | none => exact ⟨⟨rfl, rfl⟩, Or.inr (Or.inl ⟨d, rfl, hh, rfl, rfl, rfl⟩)⟩
    | some h =>
      simp only []
      generalize ha : (if r.Interface.MacAddress ≠ "" then
          env.AllocateVfByMacAddress (some h) r.Interface.MacAddress s.world
        else env.AllocateVf (some h) s.world) = a
      have hA : (if r.Interface.MacAddress ≠ "" then
          HwEvent.AllocateVfByMacAddress (some h) r.Interface.MacAddress a.1.1 a.1.2
        else HwEvent.AllocateVf (some h) a.1.1 a.1.2) =
          allocEvent h r.Interface.MacAddress a.1.1 a.1.2 := rfl
      rw [hA]
      cases hae : a.1.2 with
      | some e =>
        exact ⟨⟨rfl, rfl⟩, Or.inr (Or.inr ⟨d, h, a.1.1, some e, rfl, hh,
          Or.inl ⟨e, rfl, rfl, rfl, rfl⟩⟩)⟩
      | none =>
        simp only []
        simp only [State.log]
        by_cases hv : nw.vlan > 0
        · simp only [if_pos hv]
          generalize env.SetVfVlan (some h) a.1.1 nw.vlan a.2 = v
          generalize env.SetVfPrivileged (some h) a.1.1 (decide (nw.privileged > 0)) v.2 = p
          refine ⟨?_, Or.inr (Or.inr ⟨d, h, a.1.1, none, rfl, hh, Or.inr ⟨rfl,
            [.SetVfVlan (some h) a.1.1 nw.vlan v.1], p.1, ⟨v.1, rfl⟩, ?_⟩⟩)⟩
          · cases hpe : p.1 with
            | some e2 => exact ⟨rfl, rfl⟩
            | none =>
              simp only []
              cases hvf : a.1.1 <;> exact ⟨rfl, rfl⟩
          · cases hpe : p.1 with
            | some e2 =>
              exact Or.inl ⟨e2, rfl, rfl, rfl, by simp⟩
            | none =>
              simp only []
              cases hvf : a.1.1 with
              | none => simp
              | some vf => simp [endpointFor]
        · simp only [if_neg hv]
          generalize env.SetVfPrivileged (some h) a.1.1 (decide (nw.privileged > 0)) a.2 = p
          refine ⟨?_, Or.inr (Or.inr ⟨d, h, a.1.1, none, rfl, hh, Or.inr ⟨rfl,
            [], p.1, ⟨none, rfl⟩, ?_⟩⟩)⟩
          · cases hpe : p.1 with
            | some e2 => exact ⟨rfl, rfl⟩
            | none =>
              simp only []
              cases hvf : a.1.1 <;> exact ⟨rfl, rfl⟩
          · cases hpe : p.1 with
            | some e2 =>
              exact Or.inl ⟨e2, rfl, rfl, rfl, by simp⟩
            | none =>
              simp only []
              cases hvf : a.1.1 with
              | none => simp
              | some vf => simp [endpointFor]

/-! ### C6: releasing the VF when the privilege setting fails -/

/-- C6: when, during a `CreateEndpoint` call, the VF allocation succeeds with `vf` on the
handle `h` and `SetVfPrivileged` then fails with `e`, the call returns the
privilege-configuration error and no response, the network's endpoint map is unchanged,
and the call ends with its single `FreeVf` call, made on `h` and `vf`. -/
theorem CreateEndpoint_compensating_release (env : Env σ) (nw : sriovNetwork)
    (r : CreateEndpointRequest) (s : State σ) (h h' : Option PfNetdevHandle)
    (vf vf' : Option VfObj) (p : Bool) (e : Error)
    (halloc : vfAllocated h vf (newEvents s (CreateEndpoint env nw r s).2.2))
    (hpriv : HwEvent.SetVfPrivileged h' vf' p (some e) ∈
      newEvents s (CreateEndpoint env nw r s).2.2) :
    (CreateEndpoint env nw r s).1 = .err ("Fail to set priviledged err = " ++ e) ∧
    (CreateEndpoint env nw r s).2.1.genNw.ndevEndpoints = nw.genNw.ndevEndpoints ∧
    ∃ pre, newEvents s (CreateEndpoint env nw r s).2.2 = pre ++ [.FreeVf h vf] ∧
      ∀ h2 vf2, HwEvent.FreeVf h2 vf2 ∉ pre := by
  obtain ⟨-, hcases⟩ := CreateEndpoint_spec env nw r s
  rcases hcases with ⟨-, -, -, htr⟩ | ⟨d, -, -, -, -, htr⟩ |
    ⟨d, h0, vf0, aerr, -, -, ⟨e0, rfl, -, -, htr⟩ |
      ⟨rfl, V, perr, ⟨verr, hV⟩, ⟨e2, rfl, hout, hnw, htr⟩ | ⟨rfl, -, -, -, htr⟩ |
        ⟨rfl, v, -, -, -, htr⟩⟩⟩
  · rw [newEvents_of_trace _ _ [] (by simp [htr])] at hpriv
    simp at hpriv
  · rw [newEvents_of_trace _ _ [] (by simp [htr])] at hpriv
    simp at hpriv
  · rw [newEvents_of_trace _ _ _ htr] at hpriv
    simp only [allocEvent] at hpriv
    split_ifs at hpriv <;> simp at hpriv
  · rw [newEvents_of_trace _ _ _ htr] at hpriv halloc
    have he : e2 = e := by
      subst hV
      simp only [allocEvent] at hpriv
      split_ifs at hpriv <;> simp at hpriv <;> exact hpriv.2.2.2.symm
    have hhv : h = some h0 ∧ vf = vf0 := by
      subst hV
      simp only [allocEvent, vfAllocated] at halloc
      split_ifs at halloc <;> simp at halloc <;> exact halloc
    obtain ⟨rfl, rfl⟩ := hhv
    subst he
    refine ⟨hout, by rw [hnw], allocEvent h0 r.Interface.MacAddress vf none :: V ++
      [.SetVfPrivileged (some h0) vf (decide (nw.privileged > 0)) (some e2)], ?_, ?_⟩
    · rw [newEvents_of_trace _ _ _ htr]; simp
    · intro h2 vf2 hmem
      subst hV
      simp only [allocEvent] at hmem
      split_ifs at hmem <;> simp at hmem
  · rw [newEvents_of_trace _ _ _ htr] at hpriv
    subst hV
    simp only [allocEvent] at hpriv
    split_ifs at hpriv <;> simp at hpriv
  · rw [newEvents_of_trace _ _ _ htr] at hpriv
    subst hV
    simp only [allocEvent] at hpriv
    split_ifs at hpriv <;> simp at hpriv

/-- C6 at a concrete call: on `net1` of `eth10`, the VF is allocated and
`SetVfPrivileged` fails. -/
theorem CreateEndpoint_compensating_release_witness :
    vfAllocated (some ⟨1⟩) (some ⟨0, "eth10v0"⟩)
      (newEvents oneNetState
        (CreateEndpoint privFailEnv (mkNw "net1" 100) plainRequest oneNetState).2.2) ∧
    HwEvent.SetVfPrivileged (some ⟨1⟩) (some ⟨0, "eth10v0"⟩) false (some "operation not permitted") ∈
      newEvents oneNetState
        (CreateEndpoint privFailEnv (mkNw "net1" 100) plainRequest oneNetState).2.2 ∧
    (CreateEndpoint privFailEnv (mkNw "net1" 100) plainRequest oneNetState).1 =
      .err ("Fail to set priviledged err = " ++ "operation not permitted") :=
  have ha : vfAllocated (some ⟨1⟩) (some ⟨0, "eth10v0"⟩)
      (newEvents oneNetState
        (CreateEndpoint privFailEnv (mkNw "net1" 100) plainRequest oneNetState).2.2) :=
    Or.inl (by decide)
  ⟨ha, by decide,
    (CreateEndpoint_compensating_release privFailEnv (mkNw "net1" 100) plainRequest oneNetState
      (some ⟨1⟩) (some ⟨1⟩) (some ⟨0, "eth10v0"⟩) (some ⟨0, "eth10v0"⟩) false
      "operation not permitted" ha (by decide)).1⟩

/-! ### C7: a network whose device has no usable registry entry -/

/-- C7, the code at the failing input: after `net1` on `eth10` was deleted, `eth10` has
no entry in `pfDevices`, and `CreateEndpoint` on the network panics on `dev.pfHandle`
instead of returning the invalid-configuration error. -/
theorem CreateEndpoint_missing_device_crash :
    deletedState.pfDevices.get (mkNw "net1" 100).genNw.ndevName = none ∧
    (CreateEndpoint okEnv (mkNw "net1" 100) plainRequest deletedState).1 = .crash ∧
    (CreateEndpoint okEnv (mkNw "net1" 100) plainRequest deletedState).1 ≠
      .err "Invalid SRIOV configuration" := by
  decide

/-! ### C8: the allocation call and its failure -/

/-- C8: in a `CreateEndpoint` call on a network whose device entry has the handle `h`,
the first library call is `AllocateVfByMacAddress h mac` when the requested MAC address
`mac` is not empty and `AllocateVf h` when it is; and when an allocation fails with `e`,
the call returns the VF-allocation error with no response, that allocation is the only
library call made (no `SetVfVlan`, `SetVfPrivileged` or `FreeVf`), and the endpoint map
is unchanged. -/
theorem CreateEndpoint_allocation (env : Env σ) (nw : sriovNetwork)
    (r : CreateEndpointRequest) (s : State σ) (d : pfDevice) (h : PfNetdevHandle)
    (hget : s.pfDevices.get nw.genNw.ndevName = some d) (hh : d.pfHandle = some h) :
    (r.Interface.MacAddress ≠ "" → ∃ vf err rest,
      newEvents s (CreateEndpoint env nw r s).2.2 =
        .AllocateVfByMacAddress (some h) r.Interface.MacAddress vf err :: rest) ∧
    (r.Interface.MacAddress = "" → ∃ vf err rest,
      newEvents s (CreateEndpoint env nw r s).2.2 = .AllocateVf (some h) vf err :: rest) ∧
    ∀ e, allocFailed e (newEvents s (CreateEndpoint env nw r s).2.2) →
      (CreateEndpoint env nw r s).1 = .err ("Fail to allocate VF err = " ++ e) ∧
      (∃ ev, newEvents s (CreateEndpoint env nw r s).2.2 = [ev]) ∧
      (CreateEndpoint env nw r s).2.1.genNw.ndevEndpoints = nw.genNw.ndevEndpoints := by
  obtain ⟨-, hcases⟩ := CreateEndpoint_spec env nw r s
  rcases hcases with ⟨hn, -⟩ | ⟨d', hg, hnone, -⟩ |
    ⟨d', h0, vf0, aerr, hg, hh0, ⟨e0, rfl, hout, hnw, htr⟩ |
      ⟨rfl, V, perr, ⟨verr, hV⟩, ⟨e2, rfl, -, -, htr⟩ | ⟨rfl, -, -, -, htr⟩ |
        ⟨rfl, v, -, -, -, htr⟩⟩⟩
  · rw [hget] at hn; exact Option.noConfusion hn
  · rw [hget] at hg; rw [← Option.some.inj hg, hh] at hnone; exact Option.noConfusion hnone
  all_goals
    rw [hget] at hg
    rw [← Option.some.inj hg, hh] at hh0
    obtain rfl : h = h0 := Option.some.inj hh0
    rw [newEvents_of_trace _ _ _ htr]
  · refine ⟨fun hm => ⟨vf0, some e0, [], by simp [allocEvent, hm]⟩,
      fun hm => ⟨vf0, some e0, [], by simp [allocEvent, hm]⟩, fun e he => ?_⟩
    have : e0 = e := by
      simp only [allocFailed, allocEvent] at he
      split_ifs at he <;> simp at he <;> exact he.symm
    subst this
    exact ⟨hout, ⟨_, rfl⟩, by rw [hnw]⟩
  all_goals
    refine ⟨fun hm => ⟨vf0, none, _, by simp only [allocEvent, if_pos hm, List.cons_append]; rfl⟩,
      fun hm => ⟨vf0, none, _, by
        simp only [allocEvent, if_neg (not_not.mpr hm), List.cons_append]; rfl⟩,
      fun e he => ?_⟩
    exfalso
    subst hV
    simp only [allocFailed, allocEvent] at he
    split_ifs at he <;> simp at he

/-- C8 at a concrete call: the pool of `eth10` is exhausted. -/
theorem CreateEndpoint_allocation_witness :
    oneNetState.pfDevices.get (mkNw "net1" 100).genNw.ndevName =
      some ⟨some ⟨1⟩, SRIOV_ENABLED, 1⟩ ∧
    allocFailed "no free VF" (newEvents oneNetState
      (CreateEndpoint allocFailEnv (mkNw "net1" 100) plainRequest oneNetState).2.2) ∧
    (CreateEndpoint allocFailEnv (mkNw "net1" 100) plainRequest oneNetState).1 =
      .err ("Fail to allocate VF err = " ++ "no free VF") :=
  have hf : allocFailed "no free VF" (newEvents oneNetState
      (CreateEndpoint allocFailEnv (mkNw "net1" 100) plainRequest oneNetState).2.2) :=
    Or.inl ⟨some ⟨1⟩, none, by decide⟩
  ⟨by decide, hf,
    ((CreateEndpoint_allocation allocFailEnv (mkNw "net1" 100) plainRequest oneNetState
      ⟨some ⟨1⟩, SRIOV_ENABLED, 1⟩ ⟨1⟩ (by decide) rfl).2.2 "no free VF" hf).1⟩

/-! ### C9: a privileged option that does not parse -/

theorem ParseInt_unparsed_nonpos (l : List Char)
    (h : (ParseInt l).2 = some .errSyn ∨
      ((ParseInt l).2 = some .errRange ∧ l.head? = some '-')) :
    (ParseInt l).1 ≤ 0 := by
  cases l with
  | nil => simp [ParseInt]
  | cons c cs =>
    simp only [ParseInt] at h ⊢
    generalize ParseUint (if c = '+' ∨ c = '-' then cs else c :: cs) = u at h ⊢
    by_cases h1 : u.2 = some .errSyn
    · simp [h1]
    · simp only [if_neg h1] at h ⊢
      by_cases h2 : decide (c = '-') = false ∧ u.1 ≥ 2 ^ 63
      · simp only [if_pos h2] at h
        rcases h with h | ⟨-, h⟩
        · simp at h
        · simp only [List.head?_cons, Option.some.injEq] at h
          simp [h] at h2
      · simp only [if_neg h2] at h ⊢
        by_cases h3 : decide (c = '-') = true ∧ u.1 > 2 ^ 63
        · rw [if_pos h3]
          simp
        · rw [if_neg h3] at h
          simp at h

theorem CreateEndpoint_privileged_flag (env : Env σ) (nw : sriovNetwork)
    (r : CreateEndpointRequest) (s : State σ) (h : Option PfNetdevHandle) (vf : Option VfObj)
    (p : Bool) (err : Option Error)
    (hmem : HwEvent.SetVfPrivileged h vf p err ∈ newEvents s (CreateEndpoint env nw r s).2.2) :
    p = decide (nw.privileged > 0) := by
  obtain ⟨-, hcases⟩ := CreateEndpoint_spec env nw r s
  rcases hcases with ⟨-, -, -, htr⟩ | ⟨d, -, -, -, -, htr⟩ |
    ⟨d, h0, vf0, aerr, -, -, ⟨e0, rfl, -, -, htr⟩ |
      ⟨rfl, V, perr, ⟨verr, hV⟩, ⟨e2, rfl, -, -, htr⟩ | ⟨rfl, -, -, -, htr⟩ |
        ⟨rfl, v, -, -, -, htr⟩⟩⟩
  · rw [newEvents_of_trace _ _ [] (by simp [htr])] at hmem
    simp at hmem
  · rw [newEvents_of_trace _ _ [] (by simp [htr])] at hmem
    simp at hmem
  · rw [newEvents_of_trace _ _ _ htr] at hmem
    simp only [allocEvent] at hmem
    split_ifs at hmem <;> simp at hmem
  all_goals
    rw [newEvents_of_trace _ _ _ htr] at hmem
    subst hV
    simp only [allocEvent] at hmem
    split_ifs at hmem <;> simp at hmem <;> simp [hmem]

/-- C9 (amended): after a successful `CreateNetwork` call whose privileged option is
absent or empty, or is rejected by `strconv.Atoi` with a syntax error (text that is not
a decimal integer), or is a negative digit string out of the `int` range, the network
stored under the call's id is not privileged, and every `SetVfPrivileged` call of a
later `CreateEndpoint` on it is made with `false`. -/
theorem CreateNetwork_unparsed_privileged (env : Env σ) (nw : sriovNetwork)
    (genNw : genericNetwork) (nid : String) (options : GoMap String) (ipv4Data : IPAMData)
    (s : State σ)
    (hok : (CreateNetwork env nw genNw nid options ipv4Data s).1 = .ok ())
    (hpriv : index options env.networkPrivileged = "" ∨
      (Atoi (index options env.networkPrivileged)).2 = some .errSyn ∨
      ((Atoi (index options env.networkPrivileged)).2 = some .errRange ∧
        (index options env.networkPrivileged).toList.head? = some '-')) :
    (CreateNetwork env nw genNw nid options ipv4Data s).2.2.networks.get nid =
      some (CreateNetwork env nw genNw nid options ipv4Data s).2.1 ∧
    (CreateNetwork env nw genNw nid options ipv4Data s).2.1.privileged ≤ 0 ∧
    ∀ (nw' : sriovNetwork) (r : CreateEndpointRequest) (s' : State σ)
      (h : Option PfNetdevHandle) (vf : Option VfObj) (p : Bool) (err : Option Error),
      nw'.privileged = (CreateNetwork env nw genNw nid options ipv4Data s).2.1.privileged →
      HwEvent.SetVfPrivileged h vf p err ∈ newEvents s' (CreateEndpoint env nw' r s').2.2 →
      p = false := by
  rcases CreateNetwork_spec env nw genNw nid options ipv4Data s with
    ⟨-, -, -, -, -, hnw, hnet, -, -⟩ | ⟨⟨e, he⟩, -⟩
  · have hle : privilegedOf env options ≤ 0 := by
      unfold privilegedOf
      rcases hpriv with h0 | h1
      · simp [h0]
      · split_ifs
        · exact ParseInt_unparsed_nonpos _ h1
        · exact le_refl 0
    refine ⟨by rw [hnet, hnw]; exact GoMap.get_set_self _ _ _, by rw [hnw]; exact hle, ?_⟩
    intro nw' r s' h vf p err hp hmem
    rw [CreateEndpoint_privileged_flag env nw' r s' h vf p err hmem, hp, hnw]
    simp only [decide_eq_false_iff_not, not_lt, gt_iff_lt]
    exact hle
  · rw [he] at hok
    exact Outcome.noConfusion hok

/-- C9 (amended) at a concrete call: `privileged=yes`. -/
theorem CreateNetwork_unparsed_privileged_witness :
    (CreateNetwork okEnv freshNw (mkGenNw "net1" "eth10") "net1" wordPrivOptions
      ⟨"10.0.0.1"⟩ emptyState).1 = .ok () ∧
    (Atoi (index wordPrivOptions okEnv.networkPrivileged)).2 = some .errSyn ∧
    (CreateNetwork okEnv freshNw (mkGenNw "net1" "eth10") "net1" wordPrivOptions
      ⟨"10.0.0.1"⟩ emptyState).2.1.privileged ≤ 0 :=
  ⟨by decide, by decide,
    (CreateNetwork_unparsed_privileged okEnv freshNw (mkGenNw "net1" "eth10") "net1"
      wordPrivOptions ⟨"10.0.0.1"⟩ emptyState (by decide) (Or.inr (Or.inl (by decide)))).2.1⟩

/-- C9 as stated fails for a digit string too large for `int`: `strconv.Atoi` reports a
range error on `99999999999999999999` and returns the largest `int`, the network is
created privileged, and `CreateEndpoint` on it calls `SetVfPrivileged` with `true`. -/
theorem CreateNetwork_unparsed_privileged_counterexample :
    (Atoi (index bigPrivOptions okEnv.networkPrivileged)).2 = some .errRange ∧
    (CreateNetwork okEnv freshNw (mkGenNw "net1" "eth10") "net1" bigPrivOptions
      ⟨"10.0.0.1"⟩ emptyState).1 = .ok () ∧
    HwEvent.SetVfPrivileged (some ⟨1⟩) (some ⟨0, "eth10v0"⟩) true none ∈
      newEvents
        (CreateNetwork okEnv freshNw (mkGenNw "net1" "eth10") "net1" bigPrivOptions
          ⟨"10.0.0.1"⟩ emptyState).2.2
        (CreateEndpoint okEnv
          (CreateNetwork okEnv freshNw (mkGenNw "net1" "eth10") "net1" bigPrivOptions
            ⟨"10.0.0.1"⟩ emptyState).2.1
          plainRequest
          (CreateNetwork okEnv freshNw (mkGenNw "net1" "eth10") "net1" bigPrivOptions
            ⟨"10.0.0.1"⟩ emptyState).2.2).2.2 := by
  decide

/-! ### C10: what a successful `CreateEndpoint` records and returns -/

/-- C10: when `CreateEndpoint` returns a response, some VF `vf` was allocated in the
call, the endpoint map holds under the request's endpoint id an endpoint with `vf`, its
netdev name and the requested address, the other entries of the endpoint map are
unchanged, the response's address is the endpoint's address when the requested address
is empty and empty otherwise, and the response's MAC address is empty. -/
theorem CreateEndpoint_success (env : Env σ) (nw : sriovNetwork)
    (r : CreateEndpointRequest) (s : State σ) (resp : CreateEndpointResponse)
    (hok : (CreateEndpoint env nw r s).1 = .ok resp) :
    ∃ h vf ep, vfAllocated h (some vf) (newEvents s (CreateEndpoint env nw r s).2.2) ∧
      (CreateEndpoint env nw r s).2.1.genNw.ndevEndpoints.get r.EndpointID = some ep ∧
      ep = ⟨vf.NetdevName, some vf, r.Interface.Address⟩ ∧
      (∀ k, k ≠ r.EndpointID →
        (CreateEndpoint env nw r s).2.1.genNw.ndevEndpoints.get k =
          nw.genNw.ndevEndpoints.get k) ∧
      resp.Interface.Address = (if r.Interface.Address = "" then ep.Address else "") ∧
      resp.Interface.MacAddress = "" := by
  obtain ⟨-, hcases⟩ := CreateEndpoint_spec env nw r s
  rcases hcases with ⟨-, hout, -⟩ | ⟨d', -, -, hout, -⟩ |
    ⟨d', h0, vf0, aerr, -, -, ⟨e0, rfl, hout, -⟩ |
      ⟨rfl, V, perr, ⟨verr, hV⟩, ⟨e2, rfl, hout, -⟩ | ⟨rfl, -, hout, -⟩ |
        ⟨rfl, v, rfl, hout, hnw, htr⟩⟩⟩
  · rw [hout] at hok; exact Outcome.noConfusion hok
  · rw [hout] at hok; exact Outcome.noConfusion hok
  · rw [hout] at hok; exact Outcome.noConfusion hok
  · rw [hout] at hok; exact Outcome.noConfusion hok
  · rw [hout] at hok; exact Outcome.noConfusion hok
  · rw [hout] at hok
    have hresp := Outcome.ok.inj hok
    subst hresp
    refine ⟨some h0, v, endpointFor r v, ?_, ?_, rfl, ?_, rfl, rfl⟩
    · rw [newEvents_of_trace _ _ _ htr]
      simp only [vfAllocated, allocEvent]
      split_ifs <;> simp
    · rw [hnw]; exact GoMap.get_set_self _ _ _
    · intro k hk
      rw [hnw]; exact GoMap.get_set_ne _ _ _ _ hk

/-- C10 at a concrete call: endpoint `ep1` on `net1` of `eth10`. -/
theorem CreateEndpoint_success_witness :
    (CreateEndpoint okEnv (mkNw "net1" 100) plainRequest oneNetState).1 =
      .ok ⟨⟨"", "", ""⟩⟩ ∧
    ∃ h vf ep, vfAllocated h (some vf) (newEvents oneNetState
        (CreateEndpoint okEnv (mkNw "net1" 100) plainRequest oneNetState).2.2) ∧
      (CreateEndpoint okEnv (mkNw "net1" 100) plainRequest
        oneNetState).2.1.genNw.ndevEndpoints.get plainRequest.EndpointID = some ep ∧
      ep = ⟨vf.NetdevName, some vf, plainRequest.Interface.Address⟩ ∧
      (∀ k, k ≠ plainRequest.EndpointID →
        (CreateEndpoint okEnv (mkNw "net1" 100) plainRequest
          oneNetState).2.1.genNw.ndevEndpoints.get k =
          (mkNw "net1" 100).genNw.ndevEndpoints.get k) ∧
      (CreateEndpointResponse.mk ⟨"", "", ""⟩).Interface.Address =
        (if plainRequest.Interface.Address = "" then ep.Address else "") ∧
      (CreateEndpointResponse.mk ⟨"", "", ""⟩).Interface.MacAddress = "" :=
  ⟨by decide,
    CreateEndpoint_success okEnv (mkNw "net1" 100) plainRequest oneNetState ⟨⟨"", "", ""⟩⟩
      (by decide)⟩

/-! ### C14: `DiscoverVFs` on a device that has an entry -/

/-- C14: for a device that has an entry in `pfDevices`, `DiscoverVFs` returns `nil` and
the state it was given: no library call is made (so none of `EnableSriov`,
`GetPfNetdevHandle`, `ConfigVfs`) and `pfDevices`, with the entry's handle, state and
reference count, is unchanged. -/
theorem DiscoverVFs_existing (env : Env σ) (pfNetdevName : String) (s : State σ)
    (d : pfDevice) (hget : s.pfDevices.get pfNetdevName = some d) :
    (DiscoverVFs env pfNetdevName s).1 = none ∧
    newEvents s (DiscoverVFs env pfNetdevName s).2 = [] ∧
    (DiscoverVFs env pfNetdevName s).2.pfDevices = s.pfDevices ∧
    (DiscoverVFs env pfNetdevName s).2.pfDevices.get pfNetdevName = some d ∧
    (DiscoverVFs env pfNetdevName s).2.networks = s.networks := by
  have h : DiscoverVFs env pfNetdevName s = (none, s) := by
    simp only [DiscoverVFs, hget]
  rw [h]
  exact ⟨rfl, by simp [newEvents], rfl, hget, rfl⟩

/-- C14 on the state after `net1`: `eth10` has an entry. -/
theorem DiscoverVFs_existing_witness :
    oneNetState.pfDevices.get "eth10" = some ⟨some ⟨1⟩, SRIOV_ENABLED, 1⟩ ∧
    (DiscoverVFs okEnv "eth10" oneNetState).1 = none ∧
    newEvents oneNetState (DiscoverVFs okEnv "eth10" oneNetState).2 = [] :=
  ⟨by decide,
    (DiscoverVFs_existing okEnv "eth10" oneNetState ⟨some ⟨1⟩, SRIOV_ENABLED, 1⟩
      (by decide)).1,
    (DiscoverVFs_existing okEnv "eth10" oneNetState ⟨some ⟨1⟩, SRIOV_ENABLED, 1⟩
      (by decide)).2.1⟩

/-! ### C18: the last network of a device and a failing `DisableSriov` -/

/-- C18: `DeleteNetwork` of a network whose device has reference count 1 returns,
whatever `DisableSriov` returned (`err`, success or error): the call is logged with
that result, the device has no entry in `pfDevices` afterwards, and `networks` has no
entry under the network's id. -/
theorem DeleteNetwork_last (env : Env σ) (nw : sriovNetwork) (s : State σ) (d : pfDevice)
    (err : Option Error)
    (hget : s.pfDevices.get nw.genNw.ndevName = some d) (hone : d.nwUseRefCount = 1)
    (herr : (env.DisableSriov nw.genNw.ndevName s.world).1 = err) :
    (DeleteNetwork env nw s).1 = .ok () ∧
    newEvents s (DeleteNetwork env nw s).2 = [.DisableSriov nw.genNw.ndevName err] ∧
    (DeleteNetwork env nw s).2.pfDevices.get nw.genNw.ndevName = none ∧
    (DeleteNetwork env nw s).2.networks.get nw.genNw.id = none := by
  obtain ⟨hok, hnet, -, hz⟩ := DeleteNetwork_spec env nw s d hget
  obtain ⟨htr, hpf⟩ := hz (by omega)
  refine ⟨hok, ?_, ?_, ?_⟩
  · rw [newEvents_of_trace _ _ _ htr, herr]
  · have := hpf nw.genNw.ndevName
    rw [if_pos rfl] at this
    exact this
  · rw [hnet]; exact GoMap.get_delete_self _ _

/-- C18 on the state after `net1`, with `DisableSriov` failing. -/
theorem DeleteNetwork_last_witness :
    oneNetState.pfDevices.get (mkNw "net1" 100).genNw.ndevName =
      some ⟨some ⟨1⟩, SRIOV_ENABLED, 1⟩ ∧
    (disableFailEnv.DisableSriov (mkNw "net1" 100).genNw.ndevName oneNetState.world).1 =
      some "device busy" ∧
    (DeleteNetwork disableFailEnv (mkNw "net1" 100) oneNetState).2.pfDevices.get
      (mkNw "net1" 100).genNw.ndevName = none ∧
    (DeleteNetwork disableFailEnv (mkNw "net1" 100) oneNetState).2.networks.get
      (mkNw "net1" 100).genNw.id = none :=
  ⟨by decide, rfl,
    (DeleteNetwork_last disableFailEnv (mkNw "net1" 100) oneNetState
      ⟨some ⟨1⟩, SRIOV_ENABLED, 1⟩ (some "device busy") (by decide) rfl rfl).2.2⟩

/-! ### C20: the response of `CreateEndpoint` -/

/-- C20: whenever `CreateEndpoint` returns a response, whatever address and MAC address
the request carries, the response's interface has an empty `Address` and an empty
`MacAddress`. -/
theorem CreateEndpoint_response_empty (env : Env σ) (nw : sriovNetwork)
    (r : CreateEndpointRequest) (s : State σ) (resp : CreateEndpointResponse)
    (hok : (CreateEndpoint env nw r s).1 = .ok resp) :
    resp.Interface.Address = "" ∧ resp.Interface.MacAddress = "" := by
  obtain ⟨-, hcases⟩ := CreateEndpoint_spec env nw r s
  rcases hcases with ⟨-, hout, -⟩ | ⟨d', -, -, hout, -⟩ |
    ⟨d', h0, vf0, aerr, -, -, ⟨e0, rfl, hout, -⟩ |
      ⟨rfl, V, perr, ⟨verr, hV⟩, ⟨e2, rfl, hout, -⟩ | ⟨rfl, -, hout, -⟩ |
        ⟨rfl, v, rfl, hout, hnw, htr⟩⟩⟩
  · rw [hout] at hok; exact Outcome.noConfusion hok
  · rw [hout] at hok; exact Outcome.noConfusion hok
  · rw [hout] at hok; exact Outcome.noConfusion hok
  · rw [hout] at hok; exact Outcome.noConfusion hok
  · rw [hout] at hok; exact Outcome.noConfusion hok
  · rw [hout] at hok
    have hresp := Outcome.ok.inj hok
    subst hresp
    refine ⟨?_, rfl⟩
    simp only [endpointFor]
    split_ifs with ha
    · exact ha
    · rfl

/-- C20 at a concrete call: a request with an address and a MAC address. -/
theorem CreateEndpoint_response_empty_witness :
    (CreateEndpoint okEnv (mkNw "net1" 100) fullRequest oneNetState).1 =
      .ok ⟨⟨"", "", ""⟩⟩ ∧
    (CreateEndpointResponse.mk ⟨"", "", ""⟩).Interface.Address = "" ∧
    (CreateEndpointResponse.mk ⟨"", "", ""⟩).Interface.MacAddress = "" :=
  ⟨by decide,
    CreateEndpoint_response_empty okEnv (mkNw "net1" 100) fullRequest oneNetState
      ⟨⟨"", "", ""⟩⟩ (by decide)⟩

/-! ### C11: what `DeleteEndpoint` does -/

/-- C11 (amended): for a network whose device has an entry in `pfDevices` and an
endpoint stored in its endpoint map, `DeleteEndpoint` returns after a single library
call, `FreeVf` on the entry's handle and the VF the endpoint holds, and leaves
`networks` and `pfDevices` as they were: the network's endpoint map still holds the
endpoint under its id (the method does not remove it). -/
theorem DeleteEndpoint_frees (env : Env σ) (nid eid : String) (nw : sriovNetwork)
    (endpoint : ptEndpoint) (s : State σ) (d : pfDevice)
    (hlive : s.networks.get nid = some nw)
    (hstored : nw.genNw.ndevEndpoints.get eid = some endpoint)
    (hget : s.pfDevices.get nw.genNw.ndevName = some d) :
    (DeleteEndpoint env nw endpoint s).1 = .ok () ∧
    newEvents s (DeleteEndpoint env nw endpoint s).2 = [.FreeVf d.pfHandle endpoint.vfObj] ∧
    (DeleteEndpoint env nw endpoint s).2.pfDevices = s.pfDevices ∧
    (DeleteEndpoint env nw endpoint s).2.networks = s.networks ∧
    ∃ nw', (DeleteEndpoint env nw endpoint s).2.networks.get nid = some nw' ∧
      nw'.genNw.ndevEndpoints = nw.genNw.ndevEndpoints ∧
      nw'.genNw.ndevEndpoints.get eid = some endpoint := by
  have h : DeleteEndpoint env nw endpoint s =
      (.ok (), s.log (env.FreeVf d.pfHandle endpoint.vfObj s.world)
        (.FreeVf d.pfHandle endpoint.vfObj)) := by
    simp only [DeleteEndpoint, hget]
  rw [h]
  exact ⟨rfl, newEvents_of_trace _ _ _ rfl, rfl, rfl, nw, hlive, rfl, hstored⟩

/-- C11 (amended) on the state after an endpoint was created on `net1`. -/
theorem DeleteEndpoint_frees_witness :
    endpointState.networks.get "net1" = some nwWithEndpoint ∧
    nwWithEndpoint.genNw.ndevEndpoints.get "ep1" = some recordedEndpoint ∧
    endpointState.pfDevices.get nwWithEndpoint.genNw.ndevName =
      some ⟨some ⟨1⟩, SRIOV_ENABLED, 1⟩ ∧
    newEvents endpointState (DeleteEndpoint okEnv nwWithEndpoint recordedEndpoint
      endpointState).2 = [.FreeVf (some ⟨1⟩) (some ⟨0, "eth10v0"⟩)] :=
  ⟨by decide, by decide, by decide,
    (DeleteEndpoint_frees okEnv "net1" "ep1" nwWithEndpoint recordedEndpoint endpointState
      ⟨some ⟨1⟩, SRIOV_ENABLED, 1⟩ (by decide) (by decide) (by decide)).2.1⟩

/-- C11 as stated fails: after `DeleteEndpoint` of the endpoint `ep1` stored in the
endpoint map of `net1`, the call has returned and freed the VF, and the endpoint map of
`net1` still holds `ep1`. -/
theorem DeleteEndpoint_frees_counterexample :
    endpointState.networks.get "net1" = some nwWithEndpoint ∧
    nwWithEndpoint.genNw.ndevEndpoints.get "ep1" = some recordedEndpoint ∧
    (DeleteEndpoint okEnv nwWithEndpoint recordedEndpoint endpointState).1 = .ok () ∧
    ((DeleteEndpoint okEnv nwWithEndpoint recordedEndpoint endpointState).2.networks.get
      "net1").map (fun nw => nw.genNw.ndevEndpoints.get "ep1") =
        some (some recordedEndpoint) := by
  decide

/-! ### C12: `DeleteNetwork` a second time -/

/-- C12 fails on the code.  A second `DeleteNetwork` on a network already deleted is not
a no-op: the method does not look whether the network is still in `networks` and
counts it out of its device once more.  With `net1` and `net2` on `eth10`, the first
`DeleteNetwork` of `net1` leaves the entry of `eth10` with count 1; the second returns,
calls `DisableSriov` on `eth10` and removes the entry of `eth10` from `pfDevices` while
`net2` is still in `networks` (the comment in the method has the last network deleted
disable SR-IOV).  With `net1` alone on `eth10`, the first `DeleteNetwork` removes the
entry of `eth10` and the second panics on the missing entry. -/
theorem DeleteNetwork_twice :
    twoNetState.networks.get "net1" = some (mkNw "net1" 100) ∧
    twoNetState.pfDevices.get "eth10" = some ⟨some ⟨1⟩, SRIOV_ENABLED, 2⟩ ∧
    (DeleteNetwork okEnv (mkNw "net1" 100) twoNetState).1 = .ok () ∧
    (DeleteNetwork okEnv (mkNw "net1" 100) twoNetState).2.pfDevices.get "eth10" =
      some ⟨some ⟨1⟩, SRIOV_ENABLED, 1⟩ ∧
    (DeleteNetwork okEnv (mkNw "net1" 100) twoNetState).2.networks.get "net1" = none ∧
    (DeleteNetwork okEnv (mkNw "net1" 100)
      (DeleteNetwork okEnv (mkNw "net1" 100) twoNetState).2).1 = .ok () ∧
    (DeleteNetwork okEnv (mkNw "net1" 100)
      (DeleteNetwork okEnv (mkNw "net1" 100) twoNetState).2).2.pfDevices.get "eth10" = none ∧
    newEvents (DeleteNetwork okEnv (mkNw "net1" 100) twoNetState).2
      (DeleteNetwork okEnv (mkNw "net1" 100)
        (DeleteNetwork okEnv (mkNw "net1" 100) twoNetState).2).2 =
      [HwEvent.DisableSriov "eth10" none] ∧
    (DeleteNetwork okEnv (mkNw "net1" 100)
      (DeleteNetwork okEnv (mkNw "net1" 100) twoNetState).2).2.networks.get "net2" =
        some (mkNw "net2" 200) ∧
    oneNetState.networks.get "net1" = some (mkNw "net1" 100) ∧
    (DeleteNetwork okEnv (mkNw "net1" 100) oneNetState).1 = .ok () ∧
    (DeleteNetwork okEnv (mkNw "net1" 100) oneNetState).2.pfDevices.get "eth10" = none ∧
    (DeleteNetwork okEnv (mkNw "net1" 100)
      (DeleteNetwork okEnv (mkNw "net1" 100) oneNetState).2).1 = .crash := by
  decide

/-! ### C17: VLAN tagging -/

theorem CreateEndpoint_vlan_calls (env : Env σ) (nw : sriovNetwork)
    (r : CreateEndpointRequest) (s : State σ) :
    (∀ h vf v err, HwEvent.SetVfVlan h vf v err ∈ newEvents s (CreateEndpoint env nw r s).2.2 →
      v = nw.vlan ∧ 0 < nw.vlan) ∧
    (0 < nw.vlan → ∀ h vf, vfAllocated h vf (newEvents s (CreateEndpoint env nw r s).2.2) →
      ∃ err, HwEvent.SetVfVlan h vf nw.vlan err ∈
        newEvents s (CreateEndpoint env nw r s).2.2) := by
  obtain ⟨-, hcases⟩ := CreateEndpoint_spec env nw r s
  rcases hcases with ⟨-, -, -, htr⟩ | ⟨d, -, -, -, -, htr⟩ |
    ⟨d, h0, vf0, aerr, -, -, ⟨e0, rfl, -, -, htr⟩ |
      ⟨rfl, V, perr, ⟨verr, hV⟩, ⟨e2, rfl, -, -, htr⟩ | ⟨rfl, -, -, -, htr⟩ |
        ⟨rfl, v, -, -, -, htr⟩⟩⟩
  · rw [newEvents_of_trace _ _ [] (by simp [htr])]
    simp [vfAllocated]
  · rw [newEvents_of_trace _ _ [] (by simp [htr])]
    simp [vfAllocated]
  · rw [newEvents_of_trace _ _ _ htr]
    simp only [allocEvent, vfAllocated]
    split_ifs <;> simp
  all_goals
    rw [newEvents_of_trace _ _ _ htr]
    subst hV
    simp only [allocEvent, vfAllocated]
    split_ifs with hm hv <;> simp <;> omega

theorem CreateEndpoint_vlan_result_ignored (env : Env σ) (nw : sriovNetwork)
    (r : CreateEndpointRequest) (s : State σ) :
    (CreateEndpoint env nw r s).1 = (CreateEndpoint (succeedingVlan env) nw r s).1 ∧
    (CreateEndpoint env nw r s).2.1 = (CreateEndpoint (succeedingVlan env) nw r s).2.1 ∧
    (CreateEndpoint env nw r s).2.2.world =
      (CreateEndpoint (succeedingVlan env) nw r s).2.2.world ∧
    (newEvents s (CreateEndpoint env nw r s).2.2).map forgetVlanResult =
      (newEvents s (CreateEndpoint (succeedingVlan env) nw r s).2.2).map forgetVlanResult := by
  unfold CreateEndpoint
  simp only [succeedingVlan]
  cases hget : s.pfDevices.get nw.genNw.ndevName with
  | none => exact ⟨rfl, rfl, rfl, rfl⟩
  | some d =>
    simp only []
    cases hh : d.pfHandle with
    | none => exact ⟨rfl, rfl, rfl, rfl⟩
    | some h =>
      simp only []
      generalize ha : (if r.Interface.MacAddress ≠ "" then
          env.AllocateVfByMacAddress (some h) r.Interface.MacAddress s.world
        else env.AllocateVf (some h) s.world) = a
      have hA : (if r.Interface.MacAddress ≠ "" then
          HwEvent.AllocateVfByMacAddress (some h) r.Interface.MacAddress a.1.1 a.1.2
        else HwEvent.AllocateVf (some h) a.1.1 a.1.2) =
          allocEvent h r.Interface.MacAddress a.1.1 a.1.2 := rfl
      rw [hA]
      cases hae : a.1.2 with
      | some e => exact ⟨rfl, rfl, rfl, rfl⟩
      | none =>
        simp only [State.log]
        by_cases hv : nw.vlan > 0
        · simp only [if_pos hv]
          generalize env.SetVfVlan (some h) a.1.1 nw.vlan a.2 = v
          generalize env.SetVfPrivileged (some h) a.1.1 (decide (nw.privileged > 0)) v.2 = p
          cases hpe : p.1 with
          | some e2 => simp [newEvents, forgetVlanResult]
          | none =>
            simp only []
            cases hvf : a.1.1 with
            | none => simp [newEvents, forgetVlanResult]
            | some vf => simp [newEvents, forgetVlanResult]
        · simp only [if_neg hv]
          generalize env.SetVfPrivileged (some h) a.1.1 (decide (nw.privileged > 0)) a.2 = p
          cases hpe : p.1 with
          | some e2 => simp
          | none => cases hvf : a.1.1 <;> simp

/-- C17: in a `CreateEndpoint` call on a network whose VLAN id is not negative (stored
VLAN ids lie in `[0, 4095]`), every `SetVfVlan` call is made with the network's VLAN id,
that id being nonzero, and when the id is nonzero `SetVfVlan` is called on the handle
and VF of the successful allocation; and whatever `SetVfVlan` returns, the outcome of
`CreateEndpoint`, the receiver with its endpoint map, the world, and the library calls
with their results, the result of `SetVfVlan` apart, are what they are when `SetVfVlan`
succeeds. -/
theorem CreateEndpoint_vlan_best_effort (env : Env σ) (nw : sriovNetwork)
    (r : CreateEndpointRequest) (s : State σ) (hrange : 0 ≤ nw.vlan) :
    (∀ h vf v err, HwEvent.SetVfVlan h vf v err ∈ newEvents s (CreateEndpoint env nw r s).2.2 →
      v = nw.vlan ∧ nw.vlan ≠ 0) ∧
    (nw.vlan ≠ 0 → ∀ h vf, vfAllocated h vf (newEvents s (CreateEndpoint env nw r s).2.2) →
      ∃ err, HwEvent.SetVfVlan h vf nw.vlan err ∈
        newEvents s (CreateEndpoint env nw r s).2.2) ∧
    (CreateEndpoint env nw r s).1 = (CreateEndpoint (succeedingVlan env) nw r s).1 ∧
    (CreateEndpoint env nw r s).2.1 = (CreateEndpoint (succeedingVlan env) nw r s).2.1 ∧
    (CreateEndpoint env nw r s).2.2.world =
      (CreateEndpoint (succeedingVlan env) nw r s).2.2.world ∧
    (newEvents s (CreateEndpoint env nw r s).2.2).map forgetVlanResult =
      (newEvents s (CreateEndpoint (succeedingVlan env) nw r s).2.2).map forgetVlanResult := by
  obtain ⟨h1, h2⟩ := CreateEndpoint_vlan_calls env nw r s
  refine ⟨fun h vf v err hmem => ?_, fun hnz => h2 (by omega),
    CreateEndpoint_vlan_result_ignored env nw r s⟩
  obtain ⟨hv, hpos⟩ := h1 h vf v err hmem
  exact ⟨hv, by omega⟩

/-- C17 at a concrete call: `SetVfVlan` fails on `net1` with VLAN 100 and the endpoint is
created all the same. -/
theorem CreateEndpoint_vlan_best_effort_witness :
    (0 : Int) ≤ (mkNw "net1" 100).vlan ∧
    HwEvent.SetVfVlan (some ⟨1⟩) (some ⟨0, "eth10v0"⟩) 100 (some "cannot set VLAN") ∈
      newEvents oneNetState
        (CreateEndpoint vlanFailEnv (mkNw "net1" 100) plainRequest oneNetState).2.2 ∧
    (CreateEndpoint vlanFailEnv (mkNw "net1" 100) plainRequest oneNetState).1 =
      .ok ⟨⟨"", "", ""⟩⟩ ∧
    (CreateEndpoint vlanFailEnv (mkNw "net1" 100) plainRequest oneNetState).1 =
      (CreateEndpoint (succeedingVlan vlanFailEnv) (mkNw "net1" 100) plainRequest
        oneNetState).1 :=
  ⟨by decide, by decide, by decide,
    (CreateEndpoint_vlan_best_effort vlanFailEnv (mkNw "net1" 100) plainRequest oneNetState
      (by decide)).2.2.1⟩

/-! ### C19: a VLAN option that is not a number -/

theorem ParseInt_errSyn_zero (l : List Char) (h : (ParseInt l).2 = some .errSyn) :
    (ParseInt l).1 = 0 := by
  cases l with
  | nil => simp [ParseInt]
  | cons c cs =>
    simp only [ParseInt] at h ⊢
    generalize ParseUint (if c = '+' ∨ c = '-' then cs else c :: cs) = u at h ⊢
    by_cases h1 : u.2 = some .errSyn
    · simp [h1]
    · simp only [if_neg h1] at h
      split_ifs at h <;> simp at h

theorem CreateNetwork_past_validation (env : Env σ) (nw : sriovNetwork)
    (genNw : genericNetwork) (nid : String) (options : GoMap String) (ipv4Data : IPAMData)
    (s : State σ)
    (hgw : (env.getNetworkByGateway ipv4Data.Gateway s.world).1 = none)
    (hlo : 0 ≤ vlanOf env options) (hhi : vlanOf env options ≤ 4095)
    (hchk : checkVlanNwExist s.networks (index options env.networkDevice)
      (vlanOf env options) = false) :
    ∃ err rest, newEvents s (CreateNetwork env nw genNw nid options ipv4Data s).2.2 =
      .SetPFLinkUp (index options env.networkDevice) err :: rest := by
  unfold CreateNetwork
  simp only []
  generalize hg : env.getNetworkByGateway ipv4Data.Gateway s.world = g at hgw
  simp only [hgw]
  have hvl : (if index options env.sriovVlan ≠ "" then (Atoi (index options env.sriovVlan)).1
      else 0) = vlanOf env options := rfl
  rw [hvl]
  rw [if_neg (by intro h; omega), if_neg (by simp [hchk])]
  generalize hl : env.SetPFLinkUp (index options env.networkDevice) g.2 = l
  cases hl1 : l.1 with
  | some e1 =>
    exact ⟨some e1, [], newEvents_of_trace _ _ _ (by simp [State.log])⟩
  | none =>
    simp only []
    have hS := DiscoverVFs_spec env (index options env.networkDevice)
      (State.log ⟨s.networks, s.pfDevices, g.2, s.trace⟩ l.2
        (.SetPFLinkUp (index options env.networkDevice) none))
    generalize DiscoverVFs env (index options env.networkDevice)
      (State.log ⟨s.networks, s.pfDevices, g.2, s.trace⟩ l.2
        (.SetPFLinkUp (index options env.networkDevice) none)) = d at hS ⊢
    obtain ⟨-, ⟨evs, htr, -⟩, -, -⟩ := hS
    have htr' : d.2.trace =
        s.trace ++ (.SetPFLinkUp (index options env.networkDevice) none :: evs) := by
      rw [htr]; simp [State.log]
    refine ⟨none, evs, ?_⟩
    cases hd1 : d.1 with
    | some e1 => exact newEvents_of_trace _ _ _ htr'
    | none =>
      simp only []
      split <;> exact newEvents_of_trace _ _ _ htr'

/-- C19 (amended): for a `CreateNetwork` call whose VLAN option is a non-empty string
that `strconv.Atoi` rejects with a syntax error (for example `abc`), the VLAN id is
taken as 0, the collision check answers `false` at its first test whatever `networks`
holds, the call, when its gateway check passes, goes past both VLAN checks to
`SetPFLinkUp`, and on success the network is stored with `vlan = 0`. -/
theorem CreateNetwork_unparsed_vlan (env : Env σ) (nw : sriovNetwork)
    (genNw : genericNetwork) (nid : String) (options : GoMap String) (ipv4Data : IPAMData)
    (s : State σ)
    (hne : index options env.sriovVlan ≠ "")
    (hsyn : (Atoi (index options env.sriovVlan)).2 = some .errSyn) :
    vlanOf env options = 0 ∧
    (∀ (nets : GoMap sriovNetwork) (dev : String),
      checkVlanNwExist nets dev (vlanOf env options) = false) ∧
    ((env.getNetworkByGateway ipv4Data.Gateway s.world).1 = none →
      ∃ err rest, newEvents s (CreateNetwork env nw genNw nid options ipv4Data s).2.2 =
        .SetPFLinkUp (index options env.networkDevice) err :: rest) ∧
    ((CreateNetwork env nw genNw nid options ipv4Data s).1 = .ok () →
      ∃ stored, (CreateNetwork env nw genNw nid options ipv4Data s).2.2.networks.get nid =
        some stored ∧ stored.vlan = 0) := by
  have hv : vlanOf env options = 0 := by
    simp only [vlanOf, if_pos hne]
    exact ParseInt_errSyn_zero _ hsyn
  refine ⟨hv, fun nets dev => by rw [hv]; exact checkVlanNwExist_zero nets dev, fun hgw => ?_,
    fun hok => ?_⟩
  · exact CreateNetwork_past_validation env nw genNw nid options ipv4Data s hgw
      (by omega) (by omega) (by rw [hv]; exact checkVlanNwExist_zero _ _)
  · rcases CreateNetwork_spec env nw genNw nid options ipv4Data s with
      ⟨-, -, -, -, -, -, hnet, -, -⟩ | ⟨⟨e, he⟩, -⟩
    · exact ⟨_, by rw [hnet]; exact GoMap.get_set_self _ _ _, hv⟩
    · rw [he] at hok
      exact Outcome.noConfusion hok

/-- C19 (amended) at a concrete call: `vlan=abc`. -/
theorem CreateNetwork_unparsed_vlan_witness :
    index wordVlanOptions okEnv.sriovVlan ≠ "" ∧
    (Atoi (index wordVlanOptions okEnv.sriovVlan)).2 = some .errSyn ∧
    (CreateNetwork okEnv freshNw (mkGenNw "net1" "eth10") "net1" wordVlanOptions
      ⟨"10.0.0.1"⟩ emptyState).1 = .ok () ∧
    vlanOf okEnv wordVlanOptions = 0 :=
  ⟨by decide, by decide, by decide,
    (CreateNetwork_unparsed_vlan okEnv freshNw (mkGenNw "net1" "eth10") "net1" wordVlanOptions
      ⟨"10.0.0.1"⟩ emptyState (by decide) (by decide)).1⟩

/-- C19 as stated fails: `99999999999999999999x` is not empty and denotes no decimal
integer, `strconv.Atoi` meets the overflow at the twentieth digit, before the `x`, and
returns the largest `int` with a range error, and `CreateNetwork`, its gateway check
passed, returns the invalid-VLAN error. -/
theorem CreateNetwork_unparsed_vlan_counterexample :
    index longVlanOptions okEnv.sriovVlan ≠ "" ∧
    denotes (index longVlanOptions okEnv.sriovVlan) = none ∧
    Atoi (index longVlanOptions okEnv.sriovVlan) = (9223372036854775807, some .errRange) ∧
    (okEnv.getNetworkByGateway (IPAMData.mk "10.0.0.1").Gateway emptyState.world).1 = none ∧
    (CreateNetwork okEnv freshNw (mkGenNw "net1" "eth10") "net1" longVlanOptions
      ⟨"10.0.0.1"⟩ emptyState).1 = .err "Invalid vlan id given" := by
  decide

/-! ### C13: the entries of `pfDevices` -/

theorem initSriovState_enabled (env : Env σ) (hnn : handleNonNil env) (n : String)
    (dev : pfDevice) (s : State σ) (h : (initSriovState env n dev s).1 = none) :
    enabledWithHandle (initSriovState env n dev s).2.1 := by
  revert h
  unfold initSriovState
  simp only []
  generalize env.EnableSriov n s.world = r1
  cases h1 : r1.1 with
  | some e1 => intro h; exact Option.noConfusion h
  | none =>
    simp only [State.log]
    have hw := hnn n r1.2
    generalize env.GetPfNetdevHandle n r1.2 = r2 at hw ⊢
    cases h2 : r2.1.2 with
    | some e2 => intro h; exact Option.noConfusion h
    | none =>
      simp only []
      generalize env.ConfigVfs r2.1.1 r2.2 = r3
      cases h3 : r3.1 with
      | some e3 => intro h; exact Option.noConfusion h
      | none => intro _; exact ⟨rfl, hw h2⟩

theorem DiscoverVFs_allEntries (env : Env σ) (hnn : handleNonNil env) (n : String)
    (s : State σ) (hs : allEntries enabledWithHandle s) :
    allEntries enabledWithHandle (DiscoverVFs env n s).2 := by
  have hn := initSriovState_networks env n ⟨none, "", 0⟩ s
  have he := initSriovState_enabled env hnn n ⟨none, "", 0⟩ s
  unfold DiscoverVFs
  cases hget : s.pfDevices.get n with
  | some d => exact hs
  | none =>
    simp only []
    cases hr : (initSriovState env n ⟨none, "", 0⟩ s).1 with
    | some e =>
      simp only []
      intro k d hk
      rw [hn.2] at hk
      exact hs k d hk
    | none =>
      simp only []
      intro k d hk
      simp only [hn.2] at hk
      by_cases hkn : k = n
      · subst hkn
        rw [GoMap.get_set_self] at hk
        rw [← Option.some.inj hk]
        exact he hr
      · rw [GoMap.get_set_ne _ _ _ _ hkn] at hk
        exact hs k d hk

theorem CreateNetwork_allEntries (env : Env σ) (hnn : handleNonNil env) (nw : sriovNetwork)
    (genNw : genericNetwork) (nid : String) (options : GoMap String) (ipv4Data : IPAMData)
    (s : State σ) (hs : allEntries enabledWithHandle s) :
    allEntries enabledWithHandle (CreateNetwork env nw genNw nid options ipv4Data s).2.2 := by
  unfold CreateNetwork
  simp only []
  generalize hg : env.getNetworkByGateway ipv4Data.Gateway s.world = g
  cases hg1 : g.1 with
  | some e0 => exact hs
  | none =>
    simp only []
    have hvl : (if index options env.sriovVlan ≠ "" then (Atoi (index options env.sriovVlan)).1
        else 0) = vlanOf env options := rfl
    rw [hvl]
    split
    · exact hs
    · split
      · exact hs
      · generalize hl : env.SetPFLinkUp (index options env.networkDevice) g.2 = l
        cases hl1 : l.1 with
        | some e1 => exact hs
        | none =>
          simp only []
          have hD := DiscoverVFs_allEntries env hnn (index options env.networkDevice)
            (State.log ⟨s.networks, s.pfDevices, g.2, s.trace⟩ l.2
              (.SetPFLinkUp (index options env.networkDevice) none)) hs
          generalize DiscoverVFs env (index options env.networkDevice)
            (State.log ⟨s.networks, s.pfDevices, g.2, s.trace⟩ l.2
              (.SetPFLinkUp (index options env.networkDevice) none)) = d at hD ⊢
          cases hd1 : d.1 with
          | some e1 => exact hD
          | none =>
            simp only []
            cases hget : d.2.pfDevices.get (index options env.networkDevice) with
            | none => exact hD
            | some dev =>
              simp only []
              intro k d' hk
              simp only at hk
              by_cases hkn : k = index options env.networkDevice
              · subst hkn
                rw [GoMap.get_set_self] at hk
                rw [← Option.some.inj hk]
                exact hD _ dev hget
              · rw [GoMap.get_set_ne _ _ _ _ hkn] at hk
                exact hD k d' hk

theorem DeleteNetwork_allEntries (env : Env σ) (P : pfDevice → Prop)
    (hP : ∀ d x, P d → P { d with nwUseRefCount := x })
    (nw : sriovNetwork) (s : State σ) (hs : allEntries P s) :
    allEntries P (DeleteNetwork env nw s).2 := by
  cases hget : s.pfDevices.get nw.genNw.ndevName with
  | none =>
    have h : DeleteNetwork env nw s = (.crash, s) := by simp only [DeleteNetwork, hget]
    rw [h]; exact hs
  | some d =>
    obtain ⟨-, -, hne, hz⟩ := DeleteNetwork_spec env nw s d hget
    intro k d' hk
    by_cases h0 : d.nwUseRefCount - 1 = 0
    · rw [(hz h0).2 k] at hk
      by_cases hkn : k = nw.genNw.ndevName
      · rw [if_pos hkn] at hk; exact Option.noConfusion hk
      · rw [if_neg hkn] at hk; exact hs k d' hk
    · rw [(hne h0).2 k] at hk
      by_cases hkn : k = nw.genNw.ndevName
      · rw [if_pos hkn] at hk
        rw [← Option.some.inj hk]
        exact hP d _ (hs _ d hget)
      · rw [if_neg hkn] at hk; exact hs k d' hk

theorem DeleteEndpoint_pfDevices (env : Env σ) (nw : sriovNetwork) (endpoint : ptEndpoint)
    (s : State σ) :
    (DeleteEndpoint env nw endpoint s).2.pfDevices = s.pfDevices ∧
    (DeleteEndpoint env nw endpoint s).2.networks = s.networks := by
  unfold DeleteEndpoint
  split <;> exact ⟨rfl, rfl⟩

theorem allEntries_of_reachable (env : Env σ) (hnn : handleNonNil env) (s : State σ)
    (h : ReachableAny env s) : allEntries enabledWithHandle s := by
  induction h with
  | init w t =>
    intro k d hk
    simp [GoMap.get, GoMap.lookup] at hk
  | createNetwork s nw genNw nid options ip _ ih =>
    exact CreateNetwork_allEntries env hnn nw genNw nid options ip s ih
  | deleteNetwork s nw _ ih =>
    exact DeleteNetwork_allEntries env _ (fun d x hd => hd) nw s ih
  | createEndpoint s nw r _ ih =>
    intro k d hk
    rw [(CreateEndpoint_spec env nw r s).1.2] at hk
    exact ih k d hk
  | createEndpointStored s nid nw r _ _ ih =>
    intro k d hk
    simp only at hk
    rw [(CreateEndpoint_spec env nw r s).1.2] at hk
    exact ih k d hk
  | deleteEndpoint s nw endpoint _ ih =>
    intro k d hk
    rw [(DeleteEndpoint_pfDevices env nw endpoint s).1] at hk
    exact ih k d hk

/-- C13: when `GetPfNetdevHandle` returns a non-nil handle whenever it succeeds, in
every state reached by `CreateNetwork`, `DeleteNetwork`, `CreateEndpoint` and
`DeleteEndpoint` calls every entry of `pfDevices` has state `enabled` and a non-nil
handle: none has state `disabled`, the empty initial state, or a nil handle. -/
theorem pfDevices_entries_enabled (env : Env σ) (hnn : handleNonNil env) (s : State σ)
    (h : ReachableAny env s) (pf : String) (d : pfDevice)
    (hget : s.pfDevices.get pf = some d) :
    d.state = SRIOV_ENABLED ∧ d.pfHandle ≠ none ∧ d.state ≠ SRIOV_DISABLED ∧ d.state ≠ "" := by
  obtain ⟨h1, h2⟩ := allEntries_of_reachable env hnn s h pf d hget
  refine ⟨h1, h2, ?_, ?_⟩
  · rw [h1]; decide
  · rw [h1]; decide

/-- C13 on the state after `net1` was created on `eth10`. -/
theorem pfDevices_entries_enabled_witness :
    handleNonNil okEnv ∧ ReachableAny okEnv oneNetState ∧
    oneNetState.pfDevices.get "eth10" = some ⟨some ⟨1⟩, SRIOV_ENABLED, 1⟩ ∧
    (some (PfNetdevHandle.mk 1)) ≠ none :=
  have hnn : handleNonNil okEnv := fun _ _ _ => Option.some_ne_none _
  have hr : ReachableAny okEnv oneNetState :=
    ReachableAny.createNetwork _ _ _ _ _ _ (ReachableAny.init () [])
  ⟨hnn, hr, by decide,
    (pfDevices_entries_enabled okEnv hnn oneNetState hr "eth10"
      ⟨some ⟨1⟩, SRIOV_ENABLED, 1⟩ (by decide)).2.1⟩

/-! ### VLAN ids of the stored networks -/

theorem VlanInv_delete (networks : GoMap sriovNetwork) (k : String) (h : VlanInv networks) :
    VlanInv (networks.delete k) := by
  have hsub : ∀ k' nw, (networks.delete k).get k' = some nw → networks.get k' = some nw := by
    intro k' nw hk
    by_cases hkk : k' = k
    · subst hkk
      rw [GoMap.get_delete_self] at hk
      exact Option.noConfusion hk
    · rw [GoMap.get_delete_ne _ _ _ hkk] at hk
      exact hk
  exact ⟨fun k' nw hk => h.1 k' nw (hsub k' nw hk),
    fun k1 k2 nw1 nw2 hne h1 h2 => h.2 k1 k2 nw1 nw2 hne (hsub _ _ h1) (hsub _ _ h2)⟩

theorem VlanInv_set (networks : GoMap sriovNetwork) (nid : String) (nw : sriovNetwork)
    (h : VlanInv networks) (hlo : 0 ≤ nw.vlan) (hhi : nw.vlan ≤ 4095)
    (hchk : checkVlanNwExist networks nw.genNw.ndevName nw.vlan = false) :
    VlanInv (networks.set nid nw) := by
  have hold : ∀ k' nw', k' ≠ nid → (networks.set nid nw).get k' = some nw' →
      networks.get k' = some nw' := by
    intro k' nw' hk hg
    rw [GoMap.get_set_ne _ _ _ _ hk] at hg
    exact hg
  have hfree : ∀ k' nw', networks.get k' = some nw' →
      nw'.genNw.ndevName = nw.genNw.ndevName → nw'.vlan = nw.vlan → nw.vlan = 0 := by
    intro k' nw' hg hdev hvl
    by_contra hnz
    have := checkVlanNwExist_of_get networks k' nw' hg (by rw [hvl]; exact hnz)
    rw [hdev, hvl, hchk] at this
    exact Bool.noConfusion this
  refine ⟨fun k' nw' hg => ?_, fun k1 k2 nw1 nw2 hne h1 h2 hdev hvl => ?_⟩
  · by_cases hk : k' = nid
    · subst hk
      rw [GoMap.get_set_self] at hg
      rw [← Option.some.inj hg]
      exact ⟨hlo, hhi⟩
    · exact h.1 k' nw' (hold k' nw' hk hg)
  · by_cases hk1 : k1 = nid
    · subst hk1
      rw [GoMap.get_set_self] at h1
      have e1 := Option.some.inj h1
      subst e1
      have h2' := hold k2 nw2 (Ne.symm hne) h2
      exact hfree k2 nw2 h2' hdev.symm hvl.symm
    · have h1' := hold k1 nw1 hk1 h1
      by_cases hk2 : k2 = nid
      · subst hk2
        rw [GoMap.get_set_self] at h2
        have e2 := Option.some.inj h2
        subst e2
        rw [hvl]
        exact hfree k1 nw1 h1' hdev hvl
      · exact h.2 k1 k2 nw1 nw2 hne h1' (hold k2 nw2 hk2 h2) hdev hvl

theorem DeleteNetwork_networks (env : Env σ) (nw : sriovNetwork) (s : State σ) :
    (DeleteNetwork env nw s).2.networks = s.networks ∨
    (DeleteNetwork env nw s).2.networks = s.networks.delete nw.genNw.id := by
  cases hget : s.pfDevices.get nw.genNw.ndevName with
  | none =>
    have h : DeleteNetwork env nw s = (.crash, s) := by simp only [DeleteNetwork, hget]
    rw [h]; exact Or.inl rfl
  | some d => exact Or.inr (DeleteNetwork_spec env nw s d hget).2.1

theorem VlanInv_of_reachable (env : Env σ) (s : State σ) (h : ReachableRecorded env s) :
    VlanInv s.networks := by
  induction h with
  | init w t =>
    exact ⟨fun k nw hk => by simp [GoMap.get, GoMap.lookup] at hk,
      fun k1 k2 nw1 nw2 _ hk => by simp [GoMap.get, GoMap.lookup] at hk⟩
  | createNetwork s nw genNw nid options ip _ hrec ih =>
    rcases CreateNetwork_spec env nw genNw nid options ip s with
      ⟨-, -, hlo, hhi, hchk, -, hnet, -, -⟩ | ⟨-, hn, -, -⟩
    · rw [hnet]
      exact VlanInv_set _ _ _ ih hlo hhi (by rw [hrec]; exact hchk)
    · rw [hn]; exact ih
  | deleteNetwork s nw _ ih =>
    rcases DeleteNetwork_networks env nw s with h | h
    · rw [h]; exact ih
    · rw [h]; exact VlanInv_delete _ _ ih

/-! ### C16: create and delete an endpoint, then create it again -/

theorem poolAllocByMac_isSome_iff (mac : String) (pool : List PoolVf) :
    (poolAllocByMac mac pool).1.isSome = true ↔ macFree mac pool := by
  induction pool with
  | nil => simp [poolAllocByMac, macFree]
  | cons p ps ih =>
    simp only [poolAllocByMac, macFree, List.mem_cons, exists_eq_or_imp]
    by_cases hp : p.allocated = false ∧ p.mac = mac
    · simp [hp]
    · rw [if_neg hp]
      simp only [ih, macFree]
      exact ⟨fun h => Or.inr h, fun h => h.resolve_left hp⟩

theorem macFree_after_free (mac : String) (pool : List PoolVf) (vf : VfObj)
    (h : (poolAllocByMac mac pool).1 = some vf) :
    macFree mac (poolFree (some vf) (poolAllocByMac mac pool).2) := by
  induction pool with
  | nil => simp [poolAllocByMac] at h
  | cons p ps ih =>
    simp only [poolAllocByMac] at h ⊢
    by_cases hp : p.allocated = false ∧ p.mac = mac
    · rw [if_pos hp] at h ⊢
      simp only [Option.some.injEq] at h
      refine ⟨{ p with allocated := false }, ?_, rfl, hp.2⟩
      simp [poolFree, h]
    · rw [if_neg hp] at h ⊢
      obtain ⟨q, hq, hfree⟩ := ih h
      exact ⟨q, by simp only [poolFree, List.map_cons, List.mem_cons]; exact Or.inr hq, hfree⟩

theorem CreateEndpoint_pool_ok (nw : sriovNetwork) (r : CreateEndpointRequest)
    (s : State (List PoolVf)) (resp : CreateEndpointResponse)
    (hmac : r.Interface.MacAddress ≠ "")
    (hok : (CreateEndpoint poolEnv nw r s).1 = .ok resp) :
    ∃ d h vf, s.pfDevices.get nw.genNw.ndevName = some d ∧ d.pfHandle = some h ∧
      (poolAllocByMac r.Interface.MacAddress s.world).1 = some vf ∧
      (CreateEndpoint poolEnv nw r s).2.2.world =
        (poolAllocByMac r.Interface.MacAddress s.world).2 ∧
      (CreateEndpoint poolEnv nw r s).2.2.pfDevices = s.pfDevices ∧
      (CreateEndpoint poolEnv nw r s).2.1 = { nw with genNw := { nw.genNw with
        ndevEndpoints := nw.genNw.ndevEndpoints.set r.EndpointID (endpointFor r vf) } } := by
  revert hok
  unfold CreateEndpoint
  simp only []
  cases hget : s.pfDevices.get nw.genNw.ndevName with
  | none => intro h; exact Outcome.noConfusion h
  | some d =>
    simp only []
    cases hh : d.pfHandle with
    | none => intro h; exact Outcome.noConfusion h
    | some h =>
      simp only [if_pos hmac, poolEnv, State.log]
      cases ha : (poolAllocByMac r.Interface.MacAddress s.world).1 with
      | none => intro h; exact Outcome.noConfusion h
      | some vf =>
        simp only []
        intro _
        refine ⟨d, h, vf, rfl, hh, rfl, ?_, ?_, ?_⟩
        · split <;> rfl
        · split <;> rfl
        · rfl

theorem CreateEndpoint_pool_succeeds (nw : sriovNetwork) (r : CreateEndpointRequest)
    (s : State (List PoolVf)) (d : pfDevice) (h : PfNetdevHandle)
    (hget : s.pfDevices.get nw.genNw.ndevName = some d) (hh : d.pfHandle = some h)
    (hmac : r.Interface.MacAddress ≠ "")
    (hfree : macFree r.Interface.MacAddress s.world) :
    ∃ resp, (CreateEndpoint poolEnv nw r s).1 = .ok resp := by
  have hsome := (poolAllocByMac_isSome_iff _ _).mpr hfree
  obtain ⟨vf, hvf⟩ := Option.isSome_iff_exists.mp hsome
  unfold CreateEndpoint
  simp only [hget, hh, if_pos hmac, poolEnv, State.log, hvf]
  exact ⟨_, rfl⟩

theorem DeleteEndpoint_after_create (env : Env σ) (nw : sriovNetwork)
    (r : CreateEndpointRequest) (s : State σ) (resp : CreateEndpointResponse)
    (hok : (CreateEndpoint env nw r s).1 = .ok resp) :
    ∃ h vf ep, vfAllocated h (some vf) (newEvents s (CreateEndpoint env nw r s).2.2) ∧
      (CreateEndpoint env nw r s).2.1.genNw.ndevEndpoints.get r.EndpointID = some ep ∧
      (DeleteEndpoint env (CreateEndpoint env nw r s).2.1 ep (CreateEndpoint env nw r s).2.2).1 =
        .ok () ∧
      newEvents (CreateEndpoint env nw r s).2.2
        (DeleteEndpoint env (CreateEndpoint env nw r s).2.1 ep
          (CreateEndpoint env nw r s).2.2).2 = [.FreeVf h (some vf)] ∧
      (DeleteEndpoint env (CreateEndpoint env nw r s).2.1 ep
        (CreateEndpoint env nw r s).2.2).2.world =
        env.FreeVf h (some vf) (CreateEndpoint env nw r s).2.2.world := by
  obtain ⟨⟨-, hpf⟩, hcases⟩ := CreateEndpoint_spec env nw r s
  rcases hcases with ⟨-, hout, -⟩ | ⟨d', -, -, hout, -⟩ |
    ⟨d', h0, vf0, aerr, hget, hh, ⟨e0, rfl, hout, -⟩ |
      ⟨rfl, V, perr, ⟨verr, hV⟩, ⟨e2, rfl, hout, -⟩ | ⟨rfl, -, hout, -⟩ |
        ⟨rfl, v, rfl, hout, hnw, htr⟩⟩⟩
  · rw [hout] at hok; exact Outcome.noConfusion hok
  · rw [hout] at hok; exact Outcome.noConfusion hok
  · rw [hout] at hok; exact Outcome.noConfusion hok
  · rw [hout] at hok; exact Outcome.noConfusion hok
  · rw [hout] at hok; exact Outcome.noConfusion hok
  · have hget' : (CreateEndpoint env nw r s).2.2.pfDevices.get
        (CreateEndpoint env nw r s).2.1.genNw.ndevName = some d' := by
      rw [hpf, hnw]; exact hget
    have hdel : DeleteEndpoint env (CreateEndpoint env nw r s).2.1 (endpointFor r v)
        (CreateEndpoint env nw r s).2.2 =
        (.ok (), (CreateEndpoint env nw r s).2.2.log
          (env.FreeVf d'.pfHandle (endpointFor r v).vfObj (CreateEndpoint env nw r s).2.2.world)
          (.FreeVf d'.pfHandle (endpointFor r v).vfObj)) := by
      simp only [DeleteEndpoint, hget']
    refine ⟨some h0, v, endpointFor r v, ?_, ?_, ?_, ?_, ?_⟩
    · rw [newEvents_of_trace _ _ _ htr]
      simp only [vfAllocated, allocEvent]
      split_ifs <;> simp
    · rw [hnw]; exact GoMap.get_set_self _ _ _
    · rw [hdel]
    · rw [hdel, hh]; exact newEvents_of_trace _ _ _ rfl
    · rw [hdel, hh]; rfl

/-- C16: after a successful `CreateEndpoint`, `DeleteEndpoint` of the endpoint it
recorded returns after one `FreeVf` call, made on the handle and the VF of the
allocation of that `CreateEndpoint`.  Over the pool model (`poolEnv`: `FreeVf` returns
the VF to the free set, `AllocateVfByMacAddress` succeeds exactly when a VF with that
MAC address is free), when the request named a MAC address, that MAC address is free
again after the `DeleteEndpoint` and a further `CreateEndpoint` on the network
requesting the same MAC address succeeds. -/
theorem endpoint_round_trip (env : Env σ) (nw : sriovNetwork) (r : CreateEndpointRequest)
    (s : State σ) (resp : CreateEndpointResponse)
    (hok : (CreateEndpoint env nw r s).1 = .ok resp)
    (nwP : sriovNetwork) (rP r2 : CreateEndpointRequest) (sP : State (List PoolVf))
    (respP : CreateEndpointResponse)
    (hokP : (CreateEndpoint poolEnv nwP rP sP).1 = .ok respP)
    (hmac : rP.Interface.MacAddress ≠ "")
    (hsame : r2.Interface.MacAddress = rP.Interface.MacAddress) :
    (∃ h vf ep, vfAllocated h (some vf) (newEvents s (CreateEndpoint env nw r s).2.2) ∧
      (CreateEndpoint env nw r s).2.1.genNw.ndevEndpoints.get r.EndpointID = some ep ∧
      (DeleteEndpoint env (CreateEndpoint env nw r s).2.1 ep (CreateEndpoint env nw r s).2.2).1 =
        .ok () ∧
      newEvents (CreateEndpoint env nw r s).2.2
        (DeleteEndpoint env (CreateEndpoint env nw r s).2.1 ep
          (CreateEndpoint env nw r s).2.2).2 = [.FreeVf h (some vf)]) ∧
    ∃ ep, (CreateEndpoint poolEnv nwP rP sP).2.1.genNw.ndevEndpoints.get rP.EndpointID =
        some ep ∧
      (DeleteEndpoint poolEnv (CreateEndpoint poolEnv nwP rP sP).2.1 ep
        (CreateEndpoint poolEnv nwP rP sP).2.2).1 = .ok () ∧
      macFree rP.Interface.MacAddress
        (DeleteEndpoint poolEnv (CreateEndpoint poolEnv nwP rP sP).2.1 ep
          (CreateEndpoint poolEnv nwP rP sP).2.2).2.world ∧
      ∃ resp2, (CreateEndpoint poolEnv (CreateEndpoint poolEnv nwP rP sP).2.1 r2
        (DeleteEndpoint poolEnv (CreateEndpoint poolEnv nwP rP sP).2.1 ep
          (CreateEndpoint poolEnv nwP rP sP).2.2).2).1 = .ok resp2 := by
  constructor
  · obtain ⟨h, vf, ep, h1, h2, h3, h4, -⟩ := DeleteEndpoint_after_create env nw r s resp hok
    exact ⟨h, vf, ep, h1, h2, h3, h4⟩
  · obtain ⟨d, h, vf, hget, hh, halloc, hworld, hpf, hnw⟩ :=
      CreateEndpoint_pool_ok nwP rP sP respP hmac hokP
    have hep : (CreateEndpoint poolEnv nwP rP sP).2.1.genNw.ndevEndpoints.get rP.EndpointID =
        some (endpointFor rP vf) := by
      rw [hnw]; exact GoMap.get_set_self _ _ _
    have hget' : (CreateEndpoint poolEnv nwP rP sP).2.2.pfDevices.get
        (CreateEndpoint poolEnv nwP rP sP).2.1.genNw.ndevName = some d := by
      rw [hpf, hnw]; exact hget
    have hdel : DeleteEndpoint poolEnv (CreateEndpoint poolEnv nwP rP sP).2.1
        (endpointFor rP vf) (CreateEndpoint poolEnv nwP rP sP).2.2 =
        (.ok (), (CreateEndpoint poolEnv nwP rP sP).2.2.log
          (poolFree (some vf) (CreateEndpoint poolEnv nwP rP sP).2.2.world)
          (.FreeVf d.pfHandle (some vf))) := by
      simp only [DeleteEndpoint, hget']
      rfl
    have hfree : macFree rP.Interface.MacAddress
        (DeleteEndpoint poolEnv (CreateEndpoint poolEnv nwP rP sP).2.1 (endpointFor rP vf)
          (CreateEndpoint poolEnv nwP rP sP).2.2).2.world := by
      rw [hdel]
      simp only [State.log, hworld]
      exact macFree_after_free _ _ _ halloc
    refine ⟨endpointFor rP vf, hep, by rw [hdel], hfree, ?_⟩
    refine CreateEndpoint_pool_succeeds _ r2 _ d h ?_ hh (by rw [hsame]; exact hmac)
      (by rw [hsame]; exact hfree)
    rw [hdel]
    exact hget'

/-- C16 over the two-VF pool: the second VF is requested by its MAC address, released,
and requested again. -/
theorem endpoint_round_trip_witness :
    (CreateEndpoint poolEnv (mkNw "net1" 100) macRequest poolState).1 = .ok ⟨⟨"", "", ""⟩⟩ ∧
    macRequest.Interface.MacAddress ≠ "" ∧
    ∃ ep, (CreateEndpoint poolEnv (mkNw "net1" 100) macRequest
        poolState).2.1.genNw.ndevEndpoints.get macRequest.EndpointID = some ep ∧
      (DeleteEndpoint poolEnv (CreateEndpoint poolEnv (mkNw "net1" 100) macRequest poolState).2.1
        ep (CreateEndpoint poolEnv (mkNw "net1" 100) macRequest poolState).2.2).1 = .ok () ∧
      macFree macRequest.Interface.MacAddress
        (DeleteEndpoint poolEnv
          (CreateEndpoint poolEnv (mkNw "net1" 100) macRequest poolState).2.1 ep
          (CreateEndpoint poolEnv (mkNw "net1" 100) macRequest poolState).2.2).2.world ∧
      ∃ resp2, (CreateEndpoint poolEnv
        (CreateEndpoint poolEnv (mkNw "net1" 100) macRequest poolState).2.1 macRequest
        (DeleteEndpoint poolEnv
          (CreateEndpoint poolEnv (mkNw "net1" 100) macRequest poolState).2.1 ep
          (CreateEndpoint poolEnv (mkNw "net1" 100) macRequest poolState).2.2).2).1 =
        .ok resp2 :=
  ⟨by decide, by decide,
    (endpoint_round_trip poolEnv (mkNw "net1" 100) macRequest poolState ⟨⟨"", "", ""⟩⟩
      (by decide) (mkNw "net1" 100) macRequest macRequest poolState ⟨⟨"", "", ""⟩⟩
      (by decide) (by decide) rfl).2⟩

/-! ### C4 and C15: the invariants over the network objects by address -/

theorem heap_view_checkVlanNwExist (s : Heap.Store σ) (n : String) (v : Int) :
    Heap.checkVlanNwExist s n v = checkVlanNwExist s.view.networks n v := by
  simp only [Heap.checkVlanNwExist, checkVlanNwExist, Heap.Store.view, GoMap.values]
  congr 1
  induction s.networks.entries with
  | nil => rfl
  | cons e rest ih => simp only [List.map_cons, List.any_cons, ih]

theorem heap_view_get (s : Heap.Store σ) (k : String) :
    s.view.networks.get k = (s.networks.get k).map s.objects := by
  simp only [Heap.Store.view, GoMap.get]
  induction s.networks.entries with
  | nil => rfl
  | cons e rest ih =>
    simp only [List.map_cons, GoMap.lookup]
    by_cases h : e.1 = k
    · simp [h]
    · simp [h, ih]

theorem heap_view_delete (objects : Nat → sriovNetwork) (m : GoMap Nat) (k : String) :
    (m.delete k).entries.map (fun e => (e.1, objects e.2)) =
      ((⟨m.entries.map (fun e => (e.1, objects e.2))⟩ : GoMap sriovNetwork).delete k).entries := by
  simp only [GoMap.delete, List.filter_map]
  rfl

theorem heap_view_DeleteNetwork (env : Env σ) (p : Nat) (s : Heap.Store σ) :
    (Heap.DeleteNetwork env p s).1 = (DeleteNetwork env (s.objects p) s.view).1 ∧
    (Heap.DeleteNetwork env p s).2.view = (DeleteNetwork env (s.objects p) s.view).2 := by
  unfold Heap.DeleteNetwork DeleteNetwork
  simp only []
  have hpf : s.view.pfDevices = s.pfDevices := rfl
  rw [hpf]
  cases hget : s.pfDevices.get (s.objects p).genNw.ndevName with
  | none => exact ⟨rfl, rfl⟩
  | some dev =>
    simp only []
    by_cases h0 : dev.nwUseRefCount - 1 = 0
    · rw [if_pos h0, if_pos h0]
      simp only [disableSRIOV, State.log, Heap.Store.view, Heap.Store.put, GoMap.get_set_self,
        heap_view_delete, true_and]
    · rw [if_neg h0, if_neg h0]
      simp only [Heap.Store.view, heap_view_delete, true_and]

theorem heap_map_objects (entries : List (String × Nat)) (objects objects' : Nat → sriovNetwork)
    (p : Nat) (hp : p ∉ entries.map Prod.snd) (ho : ∀ q, q ≠ p → objects' q = objects q) :
    entries.map (fun e => (e.1, objects' e.2)) = entries.map (fun e => (e.1, objects e.2)) := by
  apply List.map_congr_left
  intro e he
  have hne : e.2 ≠ p := by
    intro h
    apply hp
    rw [← h]
    exact List.mem_map_of_mem Prod.snd he
  rw [ho _ hne]

theorem heap_view_CreateNetwork (env : Env σ) (p : Nat) (genNw : genericNetwork) (nid : String)
    (options : GoMap String) (ip : IPAMData) (s : Heap.Store σ)
    (hp : p ∉ s.networks.values) :
    (Heap.CreateNetwork env p genNw nid options ip s).1 =
      (CreateNetwork env (s.objects p) genNw nid options ip s.view).1 ∧
    (Heap.CreateNetwork env p genNw nid options ip s).2.view =
      (CreateNetwork env (s.objects p) genNw nid options ip s.view).2.2 := by
  unfold Heap.CreateNetwork CreateNetwork
  simp only []
  have hw : s.view.world = s.world := rfl
  rw [hw]
  generalize index options env.networkDevice = ndev
  generalize (if index options env.sriovVlan ≠ "" then (Atoi (index options env.sriovVlan)).1
    else 0) = vlan
  generalize (if index options env.networkPrivileged ≠ "" then
    (Atoi (index options env.networkPrivileged)).1 else 0) = priv
  generalize index options env.sriovVlan = vlanOpt
  generalize env.getNetworkByGateway ip.Gateway s.world = g
  cases hg : g.1 with
  | some e => exact ⟨rfl, rfl⟩
  | none =>
    simp only []
    rw [heap_view_checkVlanNwExist]
    by_cases h1 : vlanOpt ≠ "" ∧ (vlan < 0 ∨ vlan > 4095)
    · rw [if_pos h1, if_pos h1]
      exact ⟨rfl, rfl⟩
    · rw [if_neg h1, if_neg h1]
      have hv0 : ({ s with world := g.2 } : Heap.Store σ).view.networks =
          ({ s.view with world := g.2 } : State σ).networks := rfl
      rw [hv0]
      by_cases h2 : vlanOpt ≠ "" ∧
          checkVlanNwExist ({ s.view with world := g.2 } : State σ).networks ndev vlan = true
      · rw [if_pos h2, if_pos h2]
        exact ⟨rfl, rfl⟩
      · rw [if_neg h2, if_neg h2]
        have hm1 := heap_map_objects s.networks.entries s.objects
          (fun q => if q = p then
            ({ s.objects p with privileged := priv, genNw := genNw } : sriovNetwork)
            else s.objects q) p hp (fun q hq => by simp [hq])
        simp only [Heap.Store.write, Heap.Store.put, Heap.Store.view, State.log, hm1]
        generalize env.SetPFLinkUp ndev g.2 = l
        cases hl : l.1 with
        | some e =>
          simp only [hm1, true_and]
        | none =>
          simp only []
          have hdn := DiscoverVFs_networks env ndev
            (⟨⟨s.networks.entries.map (fun e => (e.1, s.objects e.2))⟩, s.pfDevices, l.2,
              s.trace ++ [HwEvent.SetPFLinkUp ndev none]⟩ : State σ)
          generalize DiscoverVFs env ndev
            (⟨⟨s.networks.entries.map (fun e => (e.1, s.objects e.2))⟩, s.pfDevices, l.2,
              s.trace ++ [HwEvent.SetPFLinkUp ndev none]⟩ : State σ) = d at hdn ⊢
          simp only [] at hdn
          have hset : ∀ nw2 : sriovNetwork, ∀ objects : Nat → sriovNetwork,
              (∀ q, q ≠ p → objects q = s.objects q) → objects p = nw2 →
              (s.networks.set nid p).entries.map (fun e => (e.1, objects e.2)) =
                (d.2.networks.set nid nw2).entries := by
            intro nw2 objects ho hop
            rw [hdn]
            simp only [GoMap.set, List.map_cons, hop, heap_view_delete]
            congr 1
            rw [← heap_view_delete, ← heap_view_delete]
            refine heap_map_objects _ _ _ p ?_ ho
            intro hmem
            apply hp
            simp only [GoMap.delete, List.mem_map] at hmem
            obtain ⟨e, he, hep⟩ := hmem
            rw [← hep]
            exact List.mem_map_of_mem Prod.snd (List.mem_of_mem_filter he)
          have hmk : ∀ (l : List (String × sriovNetwork)) (m : GoMap sriovNetwork),
              l = m.entries → (⟨l⟩ : GoMap sriovNetwork) = m := by
            intro l m h
            rw [h]
          cases d with
          | mk d1 d2 =>
            cases d2 with
            | mk dn dp dw dt =>
              simp only [] at hdn hset ⊢
              cases d1 with
              | some e =>
                simp only [hm1, hdn, true_and]
              | none =>
                simp only []
                cases hget : dp.get ndev with
                | none =>
                  simp only [true_and, if_true]
                  congr 1
                  apply hmk
                  exact hset ⟨genNw, vlan, priv⟩
                    (fun q => if q = p then ⟨genNw, vlan, priv⟩
                      else if q = p then ⟨genNw, (s.objects p).vlan, priv⟩ else s.objects q)
                    (fun q hq => by simp [hq]) (by simp)
                | some dev =>
                  simp only [true_and, if_true]
                  congr 1
                  apply hmk
                  exact hset ⟨genNw, vlan, priv⟩
                    (fun q => if q = p then ⟨genNw, vlan, priv⟩
                      else if q = p then ⟨genNw, (s.objects p).vlan, priv⟩ else s.objects q)
                    (fun q hq => by simp [hq]) (by simp)

theorem heap_reachable_view (env : Env σ) (s : Heap.Store σ)
    (h : Heap.Reachable env
      { ownReceiver := true, freshId := true, recordsId := true, recordsDevice := true,
        liveDeletes := true } s) : Reachable env true s.view := by
  induction h with
  | init objects w t => exact Reachable.init w t
  | createNetwork s p genNw nid options ip _ hown hfresh hid hdev ih =>
    rw [(heap_view_CreateNetwork env p genNw nid options ip s (hown rfl)).2]
    refine Reachable.create _ _ _ _ _ _ ih (hid rfl) (hdev rfl) (fun _ => ?_)
    rw [heap_view_get, hfresh rfl]
    rfl
  | deleteNetwork s p _ hlive ih =>
    obtain ⟨nid, hnid⟩ := hlive rfl
    rw [(heap_view_DeleteNetwork env p s).2]
    refine Reachable.delete _ nid _ ih ?_
    rw [heap_view_get, hnid]
    rfl

theorem heap_reachable_recorded (env : Env σ) (disc : Heap.Discipline)
    (hown : disc.ownReceiver = true) (hdev : disc.recordsDevice = true) (s : Heap.Store σ)
    (h : Heap.Reachable env disc s) : ReachableRecorded env s.view := by
  induction h with
  | init objects w t => exact ReachableRecorded.init w t
  | createNetwork s p genNw nid options ip _ ho _ _ hd ih =>
    rw [(heap_view_CreateNetwork env p genNw nid options ip s (ho hown)).2]
    exact ReachableRecorded.createNetwork _ _ _ _ _ _ ih (hd hdev)
  | deleteNetwork s p _ _ ih =>
    rw [(heap_view_DeleteNetwork env p s).2]
    exact ReachableRecorded.deleteNetwork _ _ ih

theorem heap_not_referenced (s : Heap.Store σ) (dev : String)
    (h : ∀ e ∈ s.networks.entries, (s.objects e.2).genNw.ndevName ≠ dev) :
    ¬ Heap.referenced s dev := by
  rintro ⟨nid, p, hget, hdev⟩
  exact h (nid, p) (GoMap.mem_of_lookup _ _ _ hget) hdev

/-- C4 (amended): in every state reached from the empty state by `CreateNetwork` calls,
each on a receiver that no entry of `networks` holds, with a `genNw` that records the
call's network id and the device named in its options, and with an id that is not the
id of a network in `networks`, and by `DeleteNetwork` calls on receivers that
`networks` holds, every device in `pfDevices` has a reference count that is not
negative, and positive exactly when some entry of `networks` references the device. -/
theorem refcount_pos_iff_referenced (env : Env σ) (s : Heap.Store σ)
    (h : Heap.Reachable env
      { ownReceiver := true, freshId := true, recordsId := true, recordsDevice := true,
        liveDeletes := true } s)
    (dev : String) (d : pfDevice) (hget : s.pfDevices.get dev = some d) :
    0 ≤ d.nwUseRefCount ∧ (0 < d.nwUseRefCount ↔ Heap.referenced s dev) := by
  obtain ⟨hnd, -, hcnt⟩ := CountInv_of_reachable env s.view (heap_reachable_view env s h)
  have hc := hcnt dev
  have hpf : s.view.pfDevices = s.pfDevices := rfl
  rw [hpf, hget] at hc
  simp only at hc
  refine ⟨by omega, fun _ => ?_, fun _ => by omega⟩
  obtain ⟨e, he, hdev⟩ := (usersOf_pos_iff _ _).mp hc.2
  have hl := GoMap.lookup_of_mem e.1 e.2 _ hnd he
  have hg : s.view.networks.get e.1 = some e.2 := hl
  rw [heap_view_get] at hg
  cases hp : s.networks.get e.1 with
  | none => rw [hp] at hg; exact Option.noConfusion hg
  | some p =>
    rw [hp] at hg
    refine ⟨e.1, p, hp, ?_⟩
    rw [Option.some.inj hg]
    exact hdev

/-- C4 (amended) on the store after `net1` was created on `eth10`. -/
theorem refcount_pos_iff_referenced_witness :
    Heap.Reachable okEnv
      { ownReceiver := true, freshId := true, recordsId := true, recordsDevice := true,
        liveDeletes := true } Heap.oneNetStore ∧
    Heap.oneNetStore.pfDevices.get "eth10" = some ⟨some ⟨1⟩, SRIOV_ENABLED, 1⟩ ∧
    ((0 : Int) < 1 ↔ Heap.referenced Heap.oneNetStore "eth10") :=
  have hr : Heap.Reachable okEnv
      { ownReceiver := true, freshId := true, recordsId := true, recordsDevice := true,
        liveDeletes := true } Heap.oneNetStore :=
    Heap.Reachable.createNetwork _ 0 (mkGenNw "net1" "eth10") "net1"
      (mkOptions "eth10" "100") ⟨"10.0.0.1"⟩ (Heap.Reachable.init _ () [])
      (fun _ => by decide) (fun _ => by decide) (fun _ => rfl) (fun _ => rfl)
  ⟨hr, by decide,
    (refcount_pos_iff_referenced okEnv Heap.oneNetStore hr
      "eth10" ⟨some ⟨1⟩, SRIOV_ENABLED, 1⟩ (by decide)).2⟩

/-- C4 as stated fails, and so it does when any one assumption on the `CreateNetwork`
calls is dropped.  A repeated id: after `net1` on
`eth10` and `net1` again on `eth11`, the entry of `eth10` has count 1 and no entry of
`networks` references `eth10`.  A reused receiver: after `net1` on `eth10` and `net2` on
`eth11`, both on the receiver at 0, both entries of `networks` hold that receiver, which
names `eth11`, and the entry of `eth10` has count 1.  A `genNw` that does not record the
device option: after `net1` with the option `eth10` and a `genNw` naming `eth11`, the
entry of `eth10` has count 1 and `net1` references `eth11`.  A `genNw` that does not
record the id: after `net1` on `eth10` with a `genNw` of id `net2`, `net2` on `eth11`,
and `DeleteNetwork` of `net1`, the entry of `eth11` has count 1 and `networks` holds
`net1` on `eth10` only. -/
theorem refcount_pos_iff_referenced_counterexample :
    (Heap.Reachable okEnv
        { ownReceiver := true, freshId := false, recordsId := true, recordsDevice := true,
          liveDeletes := true } Heap.repeatedIdStore ∧
      Heap.repeatedIdStore.pfDevices.get "eth10" = some ⟨some ⟨1⟩, SRIOV_ENABLED, 1⟩ ∧
      ¬ Heap.referenced Heap.repeatedIdStore "eth10") ∧
    (Heap.Reachable okEnv
        { ownReceiver := false, freshId := true, recordsId := true, recordsDevice := true,
          liveDeletes := true } Heap.reusedReceiverStore ∧
      Heap.reusedReceiverStore.pfDevices.get "eth10" = some ⟨some ⟨1⟩, SRIOV_ENABLED, 1⟩ ∧
      ¬ Heap.referenced Heap.reusedReceiverStore "eth10") ∧
    (Heap.Reachable okEnv
        { ownReceiver := true, freshId := true, recordsId := true, recordsDevice := false,
          liveDeletes := true } Heap.otherDeviceStore ∧
      Heap.otherDeviceStore.pfDevices.get "eth10" = some ⟨some ⟨1⟩, SRIOV_ENABLED, 1⟩ ∧
      ¬ Heap.referenced Heap.otherDeviceStore "eth10") ∧
    (Heap.Reachable okEnv
        { ownReceiver := true, freshId := true, recordsId := false, recordsDevice := true,
          liveDeletes := true } Heap.otherIdStore ∧
      Heap.otherIdStore.pfDevices.get "eth11" = some ⟨some ⟨1⟩, SRIOV_ENABLED, 1⟩ ∧
      ¬ Heap.referenced Heap.otherIdStore "eth11") := by
  refine ⟨⟨?_, by decide, heap_not_referenced _ _ (by decide)⟩,
    ⟨?_, by decide, heap_not_referenced _ _ (by decide)⟩,
    ⟨?_, by decide, heap_not_referenced _ _ (by decide)⟩,
    ⟨?_, by decide, heap_not_referenced _ _ (by decide)⟩⟩
  · exact Heap.Reachable.createNetwork _ 1 (mkGenNw "net1" "eth11") "net1"
      (mkOptions "eth11" "100") ⟨"10.0.0.1"⟩
      (Heap.Reachable.createNetwork _ 0 (mkGenNw "net1" "eth10") "net1"
        (mkOptions "eth10" "100") ⟨"10.0.0.1"⟩ (Heap.Reachable.init _ () [])
        (fun _ => by decide) (fun h => Bool.noConfusion h) (fun _ => rfl) (fun _ => rfl))
      (fun _ => by decide) (fun h => Bool.noConfusion h) (fun _ => rfl) (fun _ => rfl)
  · exact Heap.Reachable.createNetwork _ 0 (mkGenNw "net2" "eth11") "net2"
      (mkOptions "eth11" "100") ⟨"10.0.0.1"⟩
      (Heap.Reachable.createNetwork _ 0 (mkGenNw "net1" "eth10") "net1"
        (mkOptions "eth10" "100") ⟨"10.0.0.1"⟩ (Heap.Reachable.init _ () [])
        (fun h => Bool.noConfusion h) (fun _ => by decide) (fun _ => rfl) (fun _ => rfl))
      (fun h => Bool.noConfusion h) (fun _ => by decide) (fun _ => rfl) (fun _ => rfl)
  · exact Heap.Reachable.createNetwork _ 0 (mkGenNw "net1" "eth11") "net1"
      (mkOptions "eth10" "100") ⟨"10.0.0.1"⟩ (Heap.Reachable.init _ () [])
      (fun _ => by decide) (fun _ => by decide) (fun _ => rfl) (fun h => Bool.noConfusion h)
  · exact Heap.Reachable.deleteNetwork _ 0
      (Heap.Reachable.createNetwork _ 1 (mkGenNw "net2" "eth11") "net2"
        (mkOptions "eth11" "100") ⟨"10.0.0.1"⟩
        (Heap.Reachable.createNetwork _ 0 (mkGenNw "net2" "eth10") "net1"
          (mkOptions "eth10" "100") ⟨"10.0.0.1"⟩ (Heap.Reachable.init _ () [])
          (fun _ => by decide) (fun _ => by decide) (fun h => Bool.noConfusion h)
          (fun _ => rfl))
        (fun _ => by decide) (fun _ => by decide) (fun h => Bool.noConfusion h)
        (fun _ => rfl))
      (fun _ => ⟨"net1", by decide⟩)

/-- C15 (amended): in every state reached from the empty state by `CreateNetwork` calls,
each on a receiver that no entry of `networks` holds and with a `genNw` that records
the device named in its options, and by `DeleteNetwork` calls, no two entries of
`networks` under different ids have the same device name and the same nonzero VLAN id,
and every stored VLAN id lies in `[0, 4095]`. -/
theorem stored_vlans_distinct (env : Env σ) (s : Heap.Store σ)
    (h : Heap.Reachable env
      { ownReceiver := true, freshId := false, recordsId := false, recordsDevice := true,
        liveDeletes := false } s) :
    (∀ nid1 nid2 nw1 nw2, nid1 ≠ nid2 → s.networks.get nid1 = some nw1 →
      s.networks.get nid2 = some nw2 →
      ¬ ((s.objects nw1).genNw.ndevName = (s.objects nw2).genNw.ndevName ∧
        (s.objects nw1).vlan = (s.objects nw2).vlan ∧ (s.objects nw1).vlan ≠ 0)) ∧
    ∀ nid nw, s.networks.get nid = some nw →
      0 ≤ (s.objects nw).vlan ∧ (s.objects nw).vlan ≤ 4095 := by
  obtain ⟨h1, h2⟩ := VlanInv_of_reachable env s.view (heap_reachable_recorded env _ rfl rfl s h)
  have hv : ∀ nid nw, s.networks.get nid = some nw →
      s.view.networks.get nid = some (s.objects nw) := by
    intro nid nw hg
    rw [heap_view_get, hg]
    rfl
  exact ⟨fun nid1 nid2 nw1 nw2 hne hg1 hg2 ⟨hdev, hvl, hnz⟩ =>
    hnz (h2 nid1 nid2 _ _ hne (hv _ _ hg1) (hv _ _ hg2) hdev hvl),
    fun nid nw hg => h1 nid _ (hv _ _ hg)⟩

/-- C15 (amended) on the store after `net1` (VLAN 100) and `net2` (VLAN 200) were created
on `eth10`, on receivers of their own. -/
theorem stored_vlans_distinct_witness :
    Heap.Reachable okEnv
      { ownReceiver := true, freshId := false, recordsId := false, recordsDevice := true,
        liveDeletes := false } Heap.twoNetStore ∧
    Heap.twoNetStore.networks.get "net1" = some 0 ∧
    Heap.twoNetStore.networks.get "net2" = some 1 ∧
    ¬ ((Heap.twoNetStore.objects 0).genNw.ndevName =
        (Heap.twoNetStore.objects 1).genNw.ndevName ∧
      (Heap.twoNetStore.objects 0).vlan = (Heap.twoNetStore.objects 1).vlan ∧
      (Heap.twoNetStore.objects 0).vlan ≠ 0) :=
  have hr : Heap.Reachable okEnv
      { ownReceiver := true, freshId := false, recordsId := false, recordsDevice := true,
        liveDeletes := false } Heap.twoNetStore :=
    Heap.Reachable.createNetwork _ 1 (mkGenNw "net2" "eth10") "net2"
      (mkOptions "eth10" "200") ⟨"10.0.0.1"⟩
      (Heap.Reachable.createNetwork _ 0 (mkGenNw "net1" "eth10") "net1"
        (mkOptions "eth10" "100") ⟨"10.0.0.1"⟩ (Heap.Reachable.init _ () [])
        (fun _ => by decide) (fun h => Bool.noConfusion h) (fun h => Bool.noConfusion h)
        (fun _ => rfl))
      (fun _ => by decide) (fun h => Bool.noConfusion h) (fun h => Bool.noConfusion h)
      (fun _ => rfl)
  ⟨hr, by decide, by decide,
    (stored_vlans_distinct okEnv Heap.twoNetStore hr).1 "net1" "net2" 0 1
      (by decide) (by decide) (by decide)⟩

/-- C15 as stated fails when a receiver is used again: after `net1` (VLAN 100) and then
`net2` (VLAN 200) were created on `eth10`, both calls on the receiver at 0 and both
returning `nil`, the entries `net1` and `net2` of `networks` hold that receiver, whose
device is `eth10` and whose VLAN id is 200. -/
theorem stored_vlans_distinct_counterexample :
    Heap.Reachable okEnv
      { ownReceiver := false, freshId := true, recordsId := true, recordsDevice := true,
        liveDeletes := true } Heap.sharedReceiverStore ∧
    (Heap.CreateNetwork okEnv 0 (mkGenNw "net1" "eth10") "net1" (mkOptions "eth10" "100")
      ⟨"10.0.0.1"⟩ Heap.emptyStore).1 = .ok () ∧
    (Heap.CreateNetwork okEnv 0 (mkGenNw "net2" "eth10") "net2" (mkOptions "eth10" "200")
      ⟨"10.0.0.1"⟩ Heap.oneNetStore).1 = .ok () ∧
    Heap.sharedReceiverStore.networks.get "net1" = some 0 ∧
    Heap.sharedReceiverStore.networks.get "net2" = some 0 ∧
    (Heap.sharedReceiverStore.objects 0).genNw.ndevName = "eth10" ∧
    (Heap.sharedReceiverStore.objects 0).vlan = 200 := by
  refine ⟨?_, by decide, by decide, by decide, by decide, by decide, by decide⟩
  exact Heap.Reachable.createNetwork _ 0 (mkGenNw "net2" "eth10") "net2"
    (mkOptions "eth10" "200") ⟨"10.0.0.1"⟩
    (Heap.Reachable.createNetwork _ 0 (mkGenNw "net1" "eth10") "net1"
      (mkOptions "eth10" "100") ⟨"10.0.0.1"⟩ (Heap.Reachable.init _ () [])
      (fun h => Bool.noConfusion h) (fun _ => by decide) (fun _ => rfl) (fun _ => rfl))
    (fun h => Bool.noConfusion h) (fun _ => by decide) (fun _ => rfl) (fun _ => rfl)

end Theorems

end Sriov
